import Mathlib

/-!
# Verification of the euler-fluid-sim incompressible-flow engine

A shallow embedding, in Lean 4, of the numerical engine of the
`euler-fluid-sim` repository (files `src/simulation.rs` and
`src/space_time_domain.rs`), together with theorems settling the frozen
claims about its specification.

Modelling conventions:
* `f32` values are modelled by exact rationals `ℚ`.  `f32::sqrt` is modelled
  by `sqrtQ`, a floor-style rational square root (exact on perfect squares);
  every use in the code compares a square root against a tolerance, and all
  concrete witnesses keep a wide margin so the verdicts do not depend on
  rounding.
* `Vec<Vec<Cell>>` is modelled by `List (List Cell)`.  The panicking index
  operation `v[x][y]` is modelled by the total function `gget`, which returns
  `defaultCell` out of range; the source only indexes out of range after a
  `usize` underflow on a malformed grid, where it would abort.  The
  bounds-checked accessor `Vec::get(x).and_then(|r| r.get(y))` is modelled
  exactly by `tryGetCell`.
* `usize` subtraction `x - 1` inside stencils is modelled by truncated `ℕ`
  subtraction; the stencils are only invoked on interior fluid cells (a grid
  invariant stated in the spec), where the two agree.  The deliberate
  `usize::wrapping_sub(1)` in the boundary-pressure scan is modelled
  faithfully by `wrapping_sub1` with `USIZE_MAX = 2^64 - 1`.
* In-place raster-order sweeps (`for x in 0..nx { for y in 0..ny { .. } }`)
  become `List.foldl` over `allCoords nx ny`, threading the grid state, so
  reads of partially-updated neighbours behave exactly as in the source.
-/

/-- Floor integer square root by Heron iteration with logarithmic fuel.
`heron n fuel g` iterates `g ↦ (g + n / g) / 2` while it decreases. -/
def heron (n : ℕ) : ℕ → ℕ → ℕ
  | 0, g => g
  | fuel + 1, g =>
    let g' := (g + n / g) / 2
    if g' < g then heron n fuel g' else g

/-- Floor square root of a natural number (300 Heron steps from `n`,
enough for any number below `2 ^ 300`). -/
def isqrtN (n : ℕ) : ℕ := if n = 0 then 0 else heron n 300 n

/-- Model of `f32::sqrt` on exact rationals: `sqrtQ q` is
`⌊sqrt (num·den)⌋ / den` for positive `q` (exact whenever `q` is a square of
a rational with the same denominator) and `0` otherwise. -/
def sqrtQ (q : ℚ) : ℚ := if q ≤ 0 then 0 else (isqrtN (q.num.toNat * q.den) : ℚ) / (q.den : ℚ)

theorem sqrtQ_zero : sqrtQ 0 = 0 := by simp [sqrtQ]

/-- `cell.rs` is not part of the provided sources.  Modelled from the spec:
the boundary-kind sub-variant `BoundaryConditionCell` with the four closed
cases named in `space_time_domain.rs`. -/
inductive BoundaryConditionCell where
  | NoSlipCell
  | FreeSlipCell
  | OutFlowCell
  | InflowCell
deriving DecidableEq

/-- Modelled from the spec: the cell-type tag
`{FluidCell, BoundaryConditionCell(kind), VoidCell}` (spec §3). -/
inductive CellType where
  | FluidCell
  | BoundaryConditionCell (kind : BoundaryConditionCell)
  | VoidCell
deriving DecidableEq

/-- Modelled from the spec: the per-grid-point state record (spec §3), with
exactly the fields read and written by `simulation.rs` and
`space_time_domain.rs`. -/
structure Cell where
  cell_type : CellType := CellType.VoidCell
  velocity : ℚ × ℚ := (0, 0)
  f : ℚ := 0
  g : ℚ := 0
  pressure : ℚ := 0
  rhs : ℚ := 0
  psi : ℚ := 0
  boundary_condition_velocity : ℚ × ℚ := (0, 0)
deriving DecidableEq

/-- The all-zero void cell, used as the (unreachable) out-of-range default of
the panicking accessor. -/
def defaultCell : Cell := {}

/-- The mutable 2-D cell array `Vec<Vec<Cell>>`. -/
abbrev Grid := List (List Cell)

/-- Model of the panicking accessor `self.space_domain[x][y]` (total, with
`defaultCell` out of range; the source would abort there). -/
def gget (sd : Grid) (x y : ℕ) : Cell := ((sd[x]?.getD [])[y]?).getD defaultCell

/-- Model of the in-place assignment `self.space_domain[x][y] = c`. -/
def gset (sd : Grid) (x y : ℕ) (c : Cell) : Grid :=
  sd.set x ((sd[x]?.getD []).set y c)

/-- In-place update of one cell: read it, change some fields, write it back. -/
def gmod (sd : Grid) (x y : ℕ) (h : Cell → Cell) : Grid := gset sd x y (h (gget sd x y))

/-- Model of the bounds-checked accessor
`self.space_domain.get(x).and_then(|row| row.get(y))` (and of
`SpaceDomain::try_get_cell`, whose file is absent; modelled from the spec:
"bounds-checked accessors that return no cell", spec §4.1). -/
def tryGetCell (sd : Grid) (x y : ℕ) : Option Cell :=
  (sd[x]?).bind fun row => row[y]?

/-- `usize::MAX` on the 64-bit targets the crate builds for. -/
def USIZE_MAX : ℕ := 2 ^ 64 - 1

/-- Model of `x.wrapping_sub(1)` on `usize`. -/
def wrapping_sub1 (x : ℕ) : ℕ := if x = 0 then USIZE_MAX else x - 1

/-- The grid is rectangular with the advertised dimensions. -/
def wfGrid (nx ny : ℕ) (sd : Grid) : Prop :=
  sd.length = nx ∧ ∀ row ∈ sd, row.length = ny

instance wfGridDecidable (nx ny : ℕ) (sd : Grid) : Decidable (wfGrid nx ny sd) := by
  unfold wfGrid
  infer_instance

theorem wfGrid_row_len {nx ny : ℕ} {sd : Grid} (h : wfGrid nx ny sd) {x : ℕ} (hx : x < nx) :
    (sd[x]?.getD []).length = ny := by
  rcases h with ⟨hlen, hrow⟩
  have hx' : x < sd.length := hlen ▸ hx
  rw [List.getElem?_eq_getElem hx']
  exact hrow _ (List.getElem_mem hx')

theorem wfGrid_gset {nx ny : ℕ} {sd : Grid} (h : wfGrid nx ny sd) (x y : ℕ) (c : Cell) :
    wfGrid nx ny (gset sd x y c) := by
  obtain ⟨hlen, hrow⟩ := h
  refine ⟨by simpa [gset] using hlen, ?_⟩
  by_cases hx : x < sd.length
  · intro row hr
    rcases List.mem_or_eq_of_mem_set hr with hmem | rfl
    · exact hrow _ hmem
    · rw [List.length_set, List.getElem?_eq_getElem hx]
      exact hrow _ (List.getElem_mem hx)
  · intro row hr
    rw [gset, List.set_eq_of_length_le (Nat.le_of_not_lt hx)] at hr
    exact hrow _ hr

theorem gget_gset_self {sd : Grid} {x y : ℕ} {c : Cell}
    (hx : x < sd.length) (hy : y < (sd[x]?.getD []).length) :
    gget (gset sd x y c) x y = c := by
  unfold gget gset
  rw [List.getElem?_set_self (by simpa using hx), Option.getD_some,
    List.getElem?_set_self (by simpa using hy), Option.getD_some]

theorem gget_gset_ne {sd : Grid} {x y x' y' : ℕ} {c : Cell}
    (h : ¬(x' = x ∧ y' = y)) :
    gget (gset sd x y c) x' y' = gget sd x' y' := by
  unfold gget gset
  by_cases hx : x' = x
  · subst hx
    have hy : y' ≠ y := fun hy => h ⟨rfl, hy⟩
    by_cases hlt : x' < sd.length
    · rw [List.getElem?_set_self (by simpa using hlt), Option.getD_some,
        List.getElem?_set_ne (fun hh => hy hh.symm)]
    · rw [List.set_eq_of_length_le (by simpa using Nat.le_of_not_lt hlt)]
  · rw [List.getElem?_set_ne (fun hh => hx hh.symm)]

theorem gget_gset_cases (sd : Grid) (x y x' y' : ℕ) (c : Cell) :
    gget (gset sd x y c) x' y' = c ∨ gget (gset sd x y c) x' y' = gget sd x' y' := by
  by_cases h : x' = x ∧ y' = y
  · rcases h with ⟨rfl, rfl⟩
    by_cases hx : x' < sd.length
    · by_cases hy : y' < (sd[x']?.getD []).length
      · exact Or.inl (gget_gset_self hx hy)
      · right
        unfold gget gset
        rw [List.set_eq_of_length_le (l := sd[x']?.getD []) (Nat.le_of_not_lt hy),
          List.getElem?_set_self (by simpa using hx), Option.getD_some]
    · right
      unfold gget gset
      rw [List.set_eq_of_length_le (by simpa using Nat.le_of_not_lt hx)]
  · exact Or.inr (gget_gset_ne h)

theorem gget_out_of_range {nx ny : ℕ} {sd : Grid} (h : wfGrid nx ny sd) {x y : ℕ}
    (hxy : ¬(x < nx ∧ y < ny)) : gget sd x y = defaultCell := by
  by_cases hx : x < nx
  · have hy : ¬y < ny := fun hy => hxy ⟨hx, hy⟩
    unfold gget
    rw [List.getElem?_eq_none (l := sd[x]?.getD [])
      (by rw [wfGrid_row_len h hx]; exact Nat.le_of_not_lt hy)]
    rfl
  · unfold gget
    rw [List.getElem?_eq_none (l := sd) (by rw [h.1]; exact Nat.le_of_not_lt hx)]
    simp

/-- The raster-order coordinate sequence of the nested loops
`for x in 0..nx { for y in 0..ny { .. } }`. -/
def allCoords (nx ny : ℕ) : List (ℕ × ℕ) := List.range nx ×ˢ List.range ny

theorem mem_allCoords {nx ny x y : ℕ} : (x, y) ∈ allCoords nx ny ↔ x < nx ∧ y < ny := by
  simp [allCoords, List.mem_product]

theorem nodup_allCoords (nx ny : ℕ) : (allCoords nx ny).Nodup :=
  List.Nodup.product (List.nodup_range nx) (List.nodup_range ny)

/-- A full in-place sweep of the grid (or of any state `σ`) in raster order. -/
def sweep {σ : Type _} (nx ny : ℕ) (body : ℕ → ℕ → σ → σ) (s : σ) : σ :=
  (allCoords nx ny).foldl (fun s p => body p.1 p.2 s) s

theorem foldl_invariant {α β : Type _} {I : α → Prop} (step : α → β → α) (l : List β)
    (h : ∀ s b, b ∈ l → I s → I (step s b)) (s : α) (hs : I s) : I (l.foldl step s) := by
  induction l generalizing s with
  | nil => exact hs
  | cons b t ih =>
    exact ih (fun s' b' hb' => h s' b' (List.mem_cons_of_mem _ hb')) _
      (h s b (List.mem_cons_self _ _) hs)

theorem sweep_invariant {σ : Type _} {I : σ → Prop} (nx ny : ℕ) (body : ℕ → ℕ → σ → σ)
    (h : ∀ x y s, x < nx → y < ny → I s → I (body x y s)) (s : σ) (hs : I s) :
    I (sweep nx ny body s) := by
  unfold sweep
  refine foldl_invariant _ _ ?_ s hs
  rintro s' ⟨a, b⟩ hp hI
  exact h a b s' (mem_allCoords.mp hp).1 (mem_allCoords.mp hp).2 hI

theorem foldl_pointwise {κ : Type _} (nx ny : ℕ) (body : ℕ → ℕ → Grid → Grid)
    (view : Grid → κ) (upd : ℕ → ℕ → κ → Cell → Cell)
    (hwf : ∀ x y sd, x < nx → y < ny → wfGrid nx ny sd → wfGrid nx ny (body x y sd))
    (hframe : ∀ x y sd x' y', x < nx → y < ny → wfGrid nx ny sd → ¬(x' = x ∧ y' = y) →
      gget (body x y sd) x' y' = gget sd x' y')
    (hwrite : ∀ x y sd, x < nx → y < ny → wfGrid nx ny sd →
      gget (body x y sd) x y = upd x y (view sd) (gget sd x y))
    (hview : ∀ x y sd, x < nx → y < ny → wfGrid nx ny sd → view (body x y sd) = view sd)
    (l : List (ℕ × ℕ)) (hl : l.Nodup) (hmem : ∀ p ∈ l, p.1 < nx ∧ p.2 < ny)
    (sd : Grid) (hsd : wfGrid nx ny sd) :
    wfGrid nx ny (l.foldl (fun s p => body p.1 p.2 s) sd) ∧
    view (l.foldl (fun s p => body p.1 p.2 s) sd) = view sd ∧
    (∀ p ∈ l, gget (l.foldl (fun s p => body p.1 p.2 s) sd) p.1 p.2 =
      upd p.1 p.2 (view sd) (gget sd p.1 p.2)) ∧
    (∀ x y, (x, y) ∉ l → gget (l.foldl (fun s p => body p.1 p.2 s) sd) x y = gget sd x y) := by
  induction l generalizing sd with
  | nil => exact ⟨hsd, rfl, fun p hp => absurd hp (List.not_mem_nil p), fun x y _ => rfl⟩
  | cons q t ih =>
    obtain ⟨hq, ht⟩ := List.nodup_cons.mp hl
    have hqx : q.1 < nx := (hmem q (List.mem_cons_self _ _)).1
    have hqy : q.2 < ny := (hmem q (List.mem_cons_self _ _)).2
    have hmem' : ∀ p ∈ t, p.1 < nx ∧ p.2 < ny :=
      fun p hp => hmem p (List.mem_cons_of_mem _ hp)
    have hsd' : wfGrid nx ny (body q.1 q.2 sd) := hwf _ _ _ hqx hqy hsd
    obtain ⟨ihwf, ihview, ihmem, ihout⟩ := ih ht hmem' (body q.1 q.2 sd) hsd'
    simp only [List.foldl_cons]
    refine ⟨ihwf, by rw [ihview, hview _ _ _ hqx hqy hsd], ?_, ?_⟩
    · intro p hp
      rcases List.mem_cons.mp hp with rfl | hpt
      · have hq' : (p.1, p.2) ∉ t := by
          intro hc
          exact hq (by simpa using hc)
        rw [ihout p.1 p.2 hq', hwrite _ _ _ hqx hqy hsd]
      · rw [ihmem p hpt, hview _ _ _ hqx hqy hsd,
          hframe q.1 q.2 sd p.1 p.2 hqx hqy hsd ?_]
        intro ⟨h1, h2⟩
        apply hq
        have : p = q := by
          rcases p with ⟨a, b⟩
          rcases q with ⟨a', b'⟩
          simp_all
        exact this ▸ hpt
    · intro x y hxy
      have hxy' : (x, y) ∉ t := fun hc => hxy (List.mem_cons_of_mem _ hc)
      rw [ihout x y hxy', hframe q.1 q.2 sd x y hqx hqy hsd ?_]
      intro ⟨h1, h2⟩
      exact hxy (by rw [h1, h2]; exact List.mem_cons_self _ _)

theorem sweep_pointwise {κ : Type _} (nx ny : ℕ) (body : ℕ → ℕ → Grid → Grid)
    (view : Grid → κ) (upd : ℕ → ℕ → κ → Cell → Cell)
    (hwf : ∀ x y sd, x < nx → y < ny → wfGrid nx ny sd → wfGrid nx ny (body x y sd))
    (hframe : ∀ x y sd x' y', x < nx → y < ny → wfGrid nx ny sd → ¬(x' = x ∧ y' = y) →
      gget (body x y sd) x' y' = gget sd x' y')
    (hwrite : ∀ x y sd, x < nx → y < ny → wfGrid nx ny sd →
      gget (body x y sd) x y = upd x y (view sd) (gget sd x y))
    (hview : ∀ x y sd, x < nx → y < ny → wfGrid nx ny sd → view (body x y sd) = view sd)
    (sd : Grid) (hsd : wfGrid nx ny sd) :
    wfGrid nx ny (sweep nx ny body sd) ∧ view (sweep nx ny body sd) = view sd ∧
    ∀ x y, gget (sweep nx ny body sd) x y =
      if x < nx ∧ y < ny then upd x y (view sd) (gget sd x y) else gget sd x y := by
  obtain ⟨h1, h2, h3, h4⟩ := foldl_pointwise nx ny body view upd hwf hframe hwrite hview
    (allCoords nx ny) (nodup_allCoords nx ny)
    (fun p hp => by rcases p with ⟨a, b⟩; exact mem_allCoords.mp hp) sd hsd
  refine ⟨h1, h2, ?_⟩
  intro x y
  by_cases hxy : x < nx ∧ y < ny
  · rw [if_pos hxy]
    exact h3 (x, y) (mem_allCoords.mpr hxy)
  · rw [if_neg hxy]
    exact h4 x y (fun hc => hxy (mem_allCoords.mp hc))

/-- `GAMMA` from `space_time_domain.rs` (donor-cell blending factor). -/
def GAMMA : ℚ := 9 / 10

/-- `OMEGA` from `simulation.rs` / `space_time_domain.rs` (SOR factor). -/
def OMEGA : ℚ := 17 / 10

/-- `ITR_MAX` from `simulation.rs` / `space_time_domain.rs`. -/
def ITR_MAX : ℕ := 100

/-- `POISSON_EPSILON` from `simulation.rs` / `space_time_domain.rs`. -/
def POISSON_EPSILON : ℚ := 1 / 1000

/-- `d2udx2` (`space_time_domain.rs`).  The source aborts on a non-fluid
cell (contract violation); the model returns `0` there. -/
def d2udx2 (sd : Grid) (dx : ℚ) (x y : ℕ) : ℚ :=
  match (gget sd x y).cell_type with
  | CellType.FluidCell =>
    let ui := (gget sd x y).velocity.1
    let uip1 := (gget sd (x + 1) y).velocity.1
    let uim1 := (gget sd (x - 1) y).velocity.1
    (uip1 - 2 * ui + uim1) / dx ^ 2
  | _ => 0

/-- `d2udy2` (`space_time_domain.rs`). -/
def d2udy2 (sd : Grid) (dy : ℚ) (x y : ℕ) : ℚ :=
  match (gget sd x y).cell_type with
  | CellType.FluidCell =>
    let uj := (gget sd x y).velocity.1
    let ujp1 := (gget sd x (y + 1)).velocity.1
    let ujm1 := (gget sd x (y - 1)).velocity.1
    (ujp1 - 2 * uj + ujm1) / dy ^ 2
  | _ => 0

/-- `d2vdx2` (`space_time_domain.rs`). -/
def d2vdx2 (sd : Grid) (dx : ℚ) (x y : ℕ) : ℚ :=
  match (gget sd x y).cell_type with
  | CellType.FluidCell =>
    let vi := (gget sd x y).velocity.2
    let vip1 := (gget sd (x + 1) y).velocity.2
    let vim1 := (gget sd (x - 1) y).velocity.2
    (vip1 - 2 * vi + vim1) / dx ^ 2
  | _ => 0

/-- `d2vdy2` (`space_time_domain.rs`). -/
def d2vdy2 (sd : Grid) (dy : ℚ) (x y : ℕ) : ℚ :=
  match (gget sd x y).cell_type with
  | CellType.FluidCell =>
    let vj := (gget sd x y).velocity.2
    let vjp1 := (gget sd x (y + 1)).velocity.2
    let vjm1 := (gget sd x (y - 1)).velocity.2
    (vjp1 - 2 * vj + vjm1) / dy ^ 2
  | _ => 0

/-- `du2dx` (`space_time_domain.rs`), donor-cell discretization of
`d(u^2)/dx`. -/
def du2dx (sd : Grid) (dx : ℚ) (x y : ℕ) : ℚ :=
  match (gget sd x y).cell_type with
  | CellType.FluidCell =>
    let ui := (gget sd x y).velocity.1
    let uip1 := (gget sd (x + 1) y).velocity.1
    let uim1 := (gget sd (x - 1) y).velocity.1
    ((ui + uip1) ^ 2 - (uim1 + ui) ^ 2) / 4 / dx +
      GAMMA * (|ui + uip1| * (ui - uip1) - |uim1 + ui| * (uim1 - ui)) / 4 / dx
  | _ => 0

/-- `dv2dy` (`space_time_domain.rs`). -/
def dv2dy (sd : Grid) (dy : ℚ) (x y : ℕ) : ℚ :=
  match (gget sd x y).cell_type with
  | CellType.FluidCell =>
    let vj := (gget sd x y).velocity.2
    let vjp1 := (gget sd x (y + 1)).velocity.2
    let vjm1 := (gget sd x (y - 1)).velocity.2
    ((vj + vjp1) ^ 2 - (vjm1 + vj) ^ 2) / 4 / dy +
      GAMMA * (|vj + vjp1| * (vj - vjp1) - |vjm1 + vj| * (vjm1 - vj)) / 4 / dy
  | _ => 0

/-- `duvdx` (`space_time_domain.rs`). -/
def duvdx (sd : Grid) (dx : ℚ) (x y : ℕ) : ℚ :=
  match (gget sd x y).cell_type with
  | CellType.FluidCell =>
    let uij := (gget sd x y).velocity.1
    let vij := (gget sd x y).velocity.2
    let vip1 := (gget sd (x + 1) y).velocity.2
    let vim1 := (gget sd (x - 1) y).velocity.2
    let uim1 := (gget sd (x - 1) y).velocity.1
    let ujp1 := (gget sd x (y + 1)).velocity.1
    let uim1jp1 := (gget sd (x - 1) (y + 1)).velocity.1
    ((uij + ujp1) * (vij + vip1) - (uim1 + uim1jp1) * (vim1 + vij)) / 4 / dx +
      GAMMA * (|uij + ujp1| * (vij - vip1) - |uim1 + uim1jp1| * (vim1 - vij)) / 4 / dx
  | _ => 0

/-- `duvdy` (`space_time_domain.rs`). -/
def duvdy (sd : Grid) (dy : ℚ) (x y : ℕ) : ℚ :=
  match (gget sd x y).cell_type with
  | CellType.FluidCell =>
    let uij := (gget sd x y).velocity.1
    let vij := (gget sd x y).velocity.2
    let ujp1 := (gget sd x (y + 1)).velocity.1
    let ujm1 := (gget sd x (y - 1)).velocity.1
    let vjm1 := (gget sd x (y - 1)).velocity.2
    let vip1 := (gget sd (x + 1) y).velocity.2
    let vip1jm1 := (gget sd (x + 1) (y - 1)).velocity.2
    ((vij + vip1) * (uij + ujp1) - (vjm1 + vip1jm1) * (ujm1 + uij)) / 4 / dy +
      GAMMA * (|vij + vip1| * (uij - ujp1) - |vjm1 + vip1jm1| * (ujm1 - uij)) / 4 / dy
  | _ => 0

/-- The `f`-predictor value written by `update_fg` at a fluid cell
(both source files use the identical formula). -/
def fgF (sd : Grid) (dx dy dt re ax : ℚ) (x y : ℕ) : ℚ :=
  (gget sd x y).velocity.1 +
    dt * ((d2udx2 sd dx x y + d2udy2 sd dy x y) / re - du2dx sd dx x y - duvdy sd dy x y + ax)

/-- The `g`-predictor value written by `update_fg` at a fluid cell. -/
def fgG (sd : Grid) (dx dy dt re ay : ℚ) (x y : ℕ) : ℚ :=
  (gget sd x y).velocity.2 +
    dt * ((d2vdx2 sd dx x y + d2vdy2 sd dy x y) / re - duvdx sd dx x y - dv2dy sd dy x y + ay)

/-- Loop body of `update_fg` in `space_time_domain.rs`: the `f` (resp. `g`)
write fires whenever the right (resp. top) neighbour exists and is *not* a
`BoundaryConditionCell` (so also on `VoidCell` neighbours). -/
def update_fg_std_body (nx ny : ℕ) (dx dy dt re ax ay : ℚ) (x y : ℕ) (sd : Grid) : Grid :=
  match (gget sd x y).cell_type with
  | CellType.FluidCell =>
    let rightType : Option CellType :=
      if x + 1 < nx then some (gget sd (x + 1) y).cell_type else none
    let topType : Option CellType :=
      if y + 1 < ny then some (gget sd x (y + 1)).cell_type else none
    let sd1 :=
      match rightType with
      | some (CellType.BoundaryConditionCell _) => sd
      | none => sd
      | some _ => gmod sd x y fun c => { c with f := fgF sd dx dy dt re ax x y }
    match topType with
    | some (CellType.BoundaryConditionCell _) => sd1
    | none => sd1
    | some _ => gmod sd1 x y fun c => { c with g := fgG sd1 dx dy dt re ay x y }
  | _ => sd

/-- `update_fg` of `space_time_domain.rs` (whole sweep). -/
def update_fg_std (nx ny : ℕ) (dx dy dt re ax ay : ℚ) (sd : Grid) : Grid :=
  sweep nx ny (update_fg_std_body nx ny dx dy dt re ax ay) sd

/-- Loop body of `Simulation::update_fg` in `simulation.rs`: the `f` (resp.
`g`) write fires exactly when `try_get_cell(x+1, y)` (resp. `(x, y+1)`)
returns a `FluidCell`. -/
def update_fg_sim_body (dx dy dt re ax ay : ℚ) (x y : ℕ) (sd : Grid) : Grid :=
  match (gget sd x y).cell_type with
  | CellType.FluidCell =>
    let sd1 :=
      match (tryGetCell sd (x + 1) y).map Cell.cell_type with
      | some CellType.FluidCell => gmod sd x y fun c => { c with f := fgF sd dx dy dt re ax x y }
      | _ => sd
    match (tryGetCell sd1 x (y + 1)).map Cell.cell_type with
    | some CellType.FluidCell => gmod sd1 x y fun c => { c with g := fgG sd1 dx dy dt re ay x y }
    | _ => sd1
  | _ => sd

/-- `Simulation::update_fg` of `simulation.rs` (whole sweep). -/
def update_fg_sim (nx ny : ℕ) (dx dy dt re ax ay : ℚ) (sd : Grid) : Grid :=
  sweep nx ny (update_fg_sim_body dx dy dt re ax ay) sd

/-- Loop body of `update_rhs` (identical in both source files). -/
def update_rhs_body (dx dy dt : ℚ) (x y : ℕ) (sd : Grid) : Grid :=
  match (gget sd x y).cell_type with
  | CellType.FluidCell =>
    gmod sd x y fun c =>
      { c with rhs := ((c.f - (gget sd (x - 1) y).f) / dx +
                        (c.g - (gget sd x (y - 1)).g) / dy) / dt }
  | _ => sd

/-- `update_rhs` (whole sweep; identical in `simulation.rs` and
`space_time_domain.rs`). -/
def update_rhs (nx ny : ℕ) (dx dy dt : ℚ) (sd : Grid) : Grid :=
  sweep nx ny (update_rhs_body dx dy dt) sd

/-- Loop body of `update_velocity` (identical in both source files): at a
fluid cell, `velocity[0]` is written when the right neighbour exists and is
not a boundary cell, then `velocity[1]` likewise for the top neighbour. -/
def update_velocity_body (nx ny : ℕ) (dx dy dt : ℚ) (x y : ℕ) (sd : Grid) : Grid :=
  match (gget sd x y).cell_type with
  | CellType.FluidCell =>
    let rightType : Option CellType :=
      if x + 1 < nx then some (gget sd (x + 1) y).cell_type else none
    let topType : Option CellType :=
      if y + 1 < ny then some (gget sd x (y + 1)).cell_type else none
    let sd1 :=
      match rightType with
      | some (CellType.BoundaryConditionCell _) => sd
      | none => sd
      | some _ => gmod sd x y fun c =>
          { c with velocity := (c.f - dt * ((gget sd (x + 1) y).pressure - c.pressure) / dx,
                                c.velocity.2) }
    match topType with
    | some (CellType.BoundaryConditionCell _) => sd1
    | none => sd1
    | some _ => gmod sd1 x y fun c =>
        { c with velocity := (c.velocity.1,
                              c.g - dt * ((gget sd1 x (y + 1)).pressure - c.pressure) / dy) }
  | _ => sd

/-- `update_velocity` (whole sweep; identical in both source files). -/
def update_velocity (nx ny : ℕ) (dx dy dt : ℚ) (sd : Grid) : Grid :=
  sweep nx ny (update_velocity_body nx ny dx dy dt) sd

/-- The neighbour scan of `update_pressures_for_boundary_cells`: note the
deliberate `wrapping_sub(1)` on each decremented coordinate. -/
def neighboring_cells (x y : ℕ) : List (ℕ × ℕ) :=
  [(wrapping_sub1 x, y), (x + 1, y), (x, wrapping_sub1 y), (x, y + 1)]

/-- One iteration of the neighbour loop of
`update_pressures_for_boundary_cells`: a bounds-checked read of the
neighbour, and on a `FluidCell` an in-place pressure accumulation at
`(x, y)` plus a count increment. -/
def bpStep (x y : ℕ) (p : Grid × ℕ) (q : ℕ × ℕ) : Grid × ℕ :=
  match tryGetCell p.1 q.1 q.2 with
  | some cell =>
    match cell.cell_type with
    | CellType.FluidCell =>
      (gmod p.1 x y fun c => { c with pressure := c.pressure + cell.pressure }, p.2 + 1)
    | _ => p
  | none => p

/-- Loop body of `update_pressures_for_boundary_cells` (identical logic in
both source files): zero the boundary cell's pressure, accumulate the
pressures of bounds-checked fluid neighbours, and divide by their number
only when it is nonzero. -/
def update_pressures_body (x y : ℕ) (sd : Grid) : Grid :=
  match (gget sd x y).cell_type with
  | CellType.BoundaryConditionCell _ =>
    let sd0 := gmod sd x y fun c => { c with pressure := 0 }
    let res := (neighboring_cells x y).foldl (bpStep x y) (sd0, 0)
    if res.2 ≠ 0 then
      gmod res.1 x y fun c => { c with pressure := c.pressure / (res.2 : ℚ) }
    else res.1
  | _ => sd

/-- `update_pressures_for_boundary_cells` (whole sweep). -/
def update_pressures_for_boundary_cells (nx ny : ℕ) (sd : Grid) : Grid :=
  sweep nx ny update_pressures_body sd

/-- Loop body of the SOR pressure sweep (identical in both source files). -/
def sor_body (dx dy : ℚ) (x y : ℕ) (sd : Grid) : Grid :=
  match (gget sd x y).cell_type with
  | CellType.FluidCell =>
    gmod sd x y fun c =>
      { c with pressure :=
          (1 - OMEGA) * c.pressure + OMEGA *
            (((gget sd (x + 1) y).pressure + (gget sd (x - 1) y).pressure) / dx ^ 2 +
             ((gget sd x (y + 1)).pressure + (gget sd x (y - 1)).pressure) / dy ^ 2 -
             c.rhs) / (2 / dx ^ 2 + 2 / dy ^ 2) }
  | _ => sd

/-- One summand of the Poisson residual accumulation (identical formula in
both source files): zero at non-fluid cells. -/
def residual_term (dx dy : ℚ) (sd : Grid) (x y : ℕ) : ℚ :=
  match (gget sd x y).cell_type with
  | CellType.FluidCell =>
    (((gget sd (x + 1) y).pressure - 2 * (gget sd x y).pressure +
        (gget sd (x - 1) y).pressure) / dx ^ 2 +
     ((gget sd x (y + 1)).pressure - 2 * (gget sd x y).pressure +
        (gget sd x (y - 1)).pressure) / dy ^ 2 -
     (gget sd x y).rhs) ^ 2
  | _ => 0

/-- The accumulated raw residual sum over the whole grid. -/
def residual_sum (nx ny : ℕ) (dx dy : ℚ) (sd : Grid) : ℚ :=
  (allCoords nx ny).foldl (fun a p => a + residual_term dx dy sd p.1 p.2) 0

/-- NoSlip left branch, write 1 (`space_time_domain.rs` line 337):
`[x-1][y].velocity[0] = 0.0`. -/
def nslL1f (c : Cell) : Cell := { c with velocity := (0, c.velocity.2) }

/-- NoSlip left branch, write 2 (lines 338-340):
`[x][y].velocity[1] = 2 bcv[1] - [x-1][y].velocity[1]`, reading the
neighbour from the grid `g` as it stands after write 1. -/
def nslL2f (x y : ℕ) (g : Grid) (c : Cell) : Cell :=
  { c with velocity := (c.velocity.1,
      2 * c.boundary_condition_velocity.2 - (gget g (x - 1) y).velocity.2) }

/-- NoSlip left branch, write 3 (line 342): `[x][y].pressure += [x-1][y].pressure`. -/
def nslL3f (x y : ℕ) (g : Grid) (c : Cell) : Cell :=
  { c with pressure := c.pressure + (gget g (x - 1) y).pressure }

/-- The recurring fluid-face write `cell.f = cell.velocity[0]` (lines 345, 362). -/
def bcSetF (c : Cell) : Cell := { c with f := c.velocity.1 }

/-- The recurring fluid-face write `cell.g = cell.velocity[1]` (lines 379, 396). -/
def bcSetG (c : Cell) : Cell := { c with g := c.velocity.2 }

def nslL1 (x y : ℕ) (g : Grid) : Grid := gmod g (x - 1) y nslL1f

def nslL2 (x y : ℕ) (g : Grid) : Grid := gmod g x y (nslL2f x y g)

def nslL3 (x y : ℕ) (g : Grid) : Grid := gmod g x y (nslL3f x y g)

def nslL4 (x y : ℕ) (g : Grid) : Grid := gmod g (x - 1) y bcSetF

/-- The four in-place writes of the NoSlip left branch, in source order. -/
def noSlipLeftA (x y : ℕ) (g : Grid) : Grid := nslL4 x y (nslL3 x y (nslL2 x y (nslL1 x y g)))

/-- NoSlip, left-neighbour branch of `set_boundary_conditions`
(`space_time_domain.rs` lines 334-350), on the threaded
(grid, fluid-neighbour count) pair. -/
def noSlipLeft (x y : ℕ) (p : Grid × ℕ) : Grid × ℕ :=
  if 0 < x then
    match (gget p.1 (x - 1) y).cell_type with
    | CellType.FluidCell => (noSlipLeftA x y p.1, p.2 + 1)
    | _ => p
  else p

/-- NoSlip right branch, write 1 (lines 354-357): the single whole-vector
assignment `[x][y].velocity = [0, 2 bcv[1] - [x+1][y].velocity[1]]`. -/
def nslR1f (x y : ℕ) (g : Grid) (c : Cell) : Cell :=
  { c with velocity :=
      (0, 2 * c.boundary_condition_velocity.2 - (gget g (x + 1) y).velocity.2) }

/-- NoSlip right branch, write 2 (line 359): `[x][y].pressure += [x+1][y].pressure`. -/
def nslR2f (x y : ℕ) (g : Grid) (c : Cell) : Cell :=
  { c with pressure := c.pressure + (gget g (x + 1) y).pressure }

def nslR1 (x y : ℕ) (g : Grid) : Grid := gmod g x y (nslR1f x y g)

def nslR2 (x y : ℕ) (g : Grid) : Grid := gmod g x y (nslR2f x y g)

def nslR3 (x y : ℕ) (g : Grid) : Grid := gmod g x y bcSetF

/-- The three in-place writes of the NoSlip right branch, in source order. -/
def noSlipRightA (x y : ℕ) (g : Grid) : Grid := nslR3 x y (nslR2 x y (nslR1 x y g))

/-- NoSlip, right-neighbour branch (`space_time_domain.rs` lines 351-367). -/
def noSlipRight (x y nx : ℕ) (p : Grid × ℕ) : Grid × ℕ :=
  if x + 1 < nx then
    match (gget p.1 (x + 1) y).cell_type with
    | CellType.FluidCell => (noSlipRightA x y p.1, p.2 + 1)
    | _ => p
  else p

/-- NoSlip bottom branch, write 1 (line 371): `[x][y-1].velocity[1] = 0.0`. -/
def nslB1f (c : Cell) : Cell := { c with velocity := (c.velocity.1, 0) }

/-- NoSlip bottom branch, write 2 (lines 372-374):
`[x][y].velocity[0] = 2 bcv[0] - [x][y-1].velocity[0]`. -/
def nslB2f (x y : ℕ) (g : Grid) (c : Cell) : Cell :=
  { c with velocity := (2 * c.boundary_condition_velocity.1 -
      (gget g x (y - 1)).velocity.1, c.velocity.2) }

/-- NoSlip bottom branch, write 3 (line 376): `[x][y].pressure += [x][y-1].pressure`. -/
def nslB3f (x y : ℕ) (g : Grid) (c : Cell) : Cell :=
  { c with pressure := c.pressure + (gget g x (y - 1)).pressure }

def nslB1 (x y : ℕ) (g : Grid) : Grid := gmod g x (y - 1) nslB1f

def nslB2 (x y : ℕ) (g : Grid) : Grid := gmod g x y (nslB2f x y g)

def nslB3 (x y : ℕ) (g : Grid) : Grid := gmod g x y (nslB3f x y g)

def nslB4 (x y : ℕ) (g : Grid) : Grid := gmod g x (y - 1) bcSetG

/-- The four in-place writes of the NoSlip bottom branch, in source order. -/
def noSlipBottomA (x y : ℕ) (g : Grid) : Grid := nslB4 x y (nslB3 x y (nslB2 x y (nslB1 x y g)))

/-- NoSlip, bottom-neighbour branch (`space_time_domain.rs` lines 368-384). -/
def noSlipBottom (x y : ℕ) (p : Grid × ℕ) : Grid × ℕ :=
  if 0 < y then
    match (gget p.1 x (y - 1)).cell_type with
    | CellType.FluidCell => (noSlipBottomA x y p.1, p.2 + 1)
    | _ => p
  else p

/-- NoSlip top branch, write 1 (lines 388-391): the single whole-vector
assignment `[x][y].velocity = [2 bcv[0] - [x][y+1].velocity[0], 0]`. -/
def nslT1f (x y : ℕ) (g : Grid) (c : Cell) : Cell :=
  { c with velocity :=
      (2 * c.boundary_condition_velocity.1 - (gget g x (y + 1)).velocity.1, 0) }

/-- NoSlip top branch, write 2 (line 393): `[x][y].pressure += [x][y+1].pressure`. -/
def nslT2f (x y : ℕ) (g : Grid) (c : Cell) : Cell :=
  { c with pressure := c.pressure + (gget g x (y + 1)).pressure }

def nslT1 (x y : ℕ) (g : Grid) : Grid := gmod g x y (nslT1f x y g)

def nslT2 (x y : ℕ) (g : Grid) : Grid := gmod g x y (nslT2f x y g)

def nslT3 (x y : ℕ) (g : Grid) : Grid := gmod g x y bcSetG

/-- The three in-place writes of the NoSlip top branch, in source order. -/
def noSlipTopA (x y : ℕ) (g : Grid) : Grid := nslT3 x y (nslT2 x y (nslT1 x y g))

/-- NoSlip, top-neighbour branch (`space_time_domain.rs` lines 385-401). -/
def noSlipTop (x y ny : ℕ) (p : Grid × ℕ) : Grid × ℕ :=
  if y + 1 < ny then
    match (gget p.1 x (y + 1)).cell_type with
    | CellType.FluidCell => (noSlipTopA x y p.1, p.2 + 1)
    | _ => p
  else p

/-- FreeSlip, left-neighbour branch (`space_time_domain.rs` lines 410-424). -/
def freeSlipLeft (x y : ℕ) (p : Grid × ℕ) : Grid × ℕ :=
  if 0 < x then
    match (gget p.1 (x - 1) y).cell_type with
    | CellType.FluidCell =>
      let s1 := gmod p.1 (x - 1) y fun c => { c with velocity := (0, c.velocity.2) }
      let s2 := gmod s1 x y fun c =>
        { c with velocity := (c.velocity.1, (gget s1 (x - 1) y).velocity.2) }
      let s3 := gmod s2 x y fun c =>
        { c with pressure := c.pressure + (gget s2 (x - 1) y).pressure }
      let s4 := gmod s3 (x - 1) y fun c => { c with f := c.velocity.1 }
      (s4, p.2 + 1)
    | _ => p
  else p

/-- FreeSlip, right-neighbour branch (`space_time_domain.rs` lines 425-438). -/
def freeSlipRight (x y nx : ℕ) (p : Grid × ℕ) : Grid × ℕ :=
  if x + 1 < nx then
    match (gget p.1 (x + 1) y).cell_type with
    | CellType.FluidCell =>
      let s1 := gmod p.1 x y fun c =>
        { c with velocity := (0, (gget p.1 (x + 1) y).velocity.2) }
      let s2 := gmod s1 x y fun c =>
        { c with pressure := c.pressure + (gget s1 (x + 1) y).pressure }
      let s3 := gmod s2 x y fun c => { c with f := c.velocity.1 }
      (s3, p.2 + 1)
    | _ => p
  else p

/-- FreeSlip, bottom-neighbour branch (`space_time_domain.rs` lines 439-453). -/
def freeSlipBottom (x y : ℕ) (p : Grid × ℕ) : Grid × ℕ :=
  if 0 < y then
    match (gget p.1 x (y - 1)).cell_type with
    | CellType.FluidCell =>
      let s1 := gmod p.1 x (y - 1) fun c => { c with velocity := (c.velocity.1, 0) }
      let s2 := gmod s1 x y fun c =>
        { c with velocity := ((gget s1 x (y - 1)).velocity.1, c.velocity.2) }
      let s3 := gmod s2 x y fun c =>
        { c with pressure := c.pressure + (gget s2 x (y - 1)).pressure }
      let s4 := gmod s3 x (y - 1) fun c => { c with g := c.velocity.2 }
      (s4, p.2 + 1)
    | _ => p
  else p

/-- FreeSlip, top-neighbour branch (`space_time_domain.rs` lines 454-467). -/
def freeSlipTop (x y ny : ℕ) (p : Grid × ℕ) : Grid × ℕ :=
  if y + 1 < ny then
    match (gget p.1 x (y + 1)).cell_type with
    | CellType.FluidCell =>
      let s1 := gmod p.1 x y fun c =>
        { c with velocity := ((gget p.1 x (y + 1)).velocity.1, 0) }
      let s2 := gmod s1 x y fun c =>
        { c with pressure := c.pressure + (gget s1 x (y + 1)).pressure }
      let s3 := gmod s2 x y fun c => { c with g := c.velocity.2 }
      (s3, p.2 + 1)
    | _ => p
  else p

/-- OutFlow, left-neighbour branch (`space_time_domain.rs` lines 476-490);
note the copy from *two* cells inward (`x - 2`). -/
def outFlowLeft (x y : ℕ) (p : Grid × ℕ) : Grid × ℕ :=
  if 0 < x then
    match (gget p.1 (x - 1) y).cell_type with
    | CellType.FluidCell =>
      let s1 := gmod p.1 (x - 1) y fun c =>
        { c with velocity := ((gget p.1 (x - 2) y).velocity.1, c.velocity.2) }
      let s2 := gmod s1 x y fun c =>
        { c with velocity := (c.velocity.1, (gget s1 (x - 1) y).velocity.2) }
      let s3 := gmod s2 x y fun c =>
        { c with pressure := c.pressure + (gget s2 (x - 1) y).pressure }
      let s4 := gmod s3 (x - 1) y fun c => { c with f := c.velocity.1 }
      (s4, p.2 + 1)
    | _ => p
  else p

/-- OutFlow, right-neighbour branch (`space_time_domain.rs` lines 491-504). -/
def outFlowRight (x y nx : ℕ) (p : Grid × ℕ) : Grid × ℕ :=
  if x + 1 < nx then
    match (gget p.1 (x + 1) y).cell_type with
    | CellType.FluidCell =>
      let s1 := gmod p.1 x y fun c =>
        { c with velocity := ((gget p.1 (x + 1) y).velocity.1,
                              (gget p.1 (x + 1) y).velocity.2) }
      let s2 := gmod s1 x y fun c =>
        { c with pressure := c.pressure + (gget s1 (x + 1) y).pressure }
      let s3 := gmod s2 x y fun c => { c with f := c.velocity.1 }
      (s3, p.2 + 1)
    | _ => p
  else p

/-- OutFlow, bottom-neighbour branch (`space_time_domain.rs` lines 505-519);
the boundary cell's `u` is copied first, then the fluid neighbour's `v` is
overwritten from two cells inward. -/
def outFlowBottom (x y : ℕ) (p : Grid × ℕ) : Grid × ℕ :=
  if 0 < y then
    match (gget p.1 x (y - 1)).cell_type with
    | CellType.FluidCell =>
      let s1 := gmod p.1 x y fun c =>
        { c with velocity := ((gget p.1 x (y - 1)).velocity.1, c.velocity.2) }
      let s2 := gmod s1 x (y - 1) fun c =>
        { c with velocity := (c.velocity.1, (gget s1 x (y - 2)).velocity.2) }
      let s3 := gmod s2 x y fun c =>
        { c with pressure := c.pressure + (gget s2 x (y - 1)).pressure }
      let s4 := gmod s3 x (y - 1) fun c => { c with g := c.velocity.2 }
      (s4, p.2 + 1)
    | _ => p
  else p

/-- OutFlow, top-neighbour branch (`space_time_domain.rs` lines 520-533). -/
def outFlowTop (x y ny : ℕ) (p : Grid × ℕ) : Grid × ℕ :=
  if y + 1 < ny then
    match (gget p.1 x (y + 1)).cell_type with
    | CellType.FluidCell =>
      let s1 := gmod p.1 x y fun c =>
        { c with velocity := ((gget p.1 x (y + 1)).velocity.1,
                              (gget p.1 x (y + 1)).velocity.2) }
      let s2 := gmod s1 x y fun c =>
        { c with pressure := c.pressure + (gget s1 x (y + 1)).pressure }
      let s3 := gmod s2 x y fun c => { c with g := c.velocity.2 }
      (s3, p.2 + 1)
    | _ => p
  else p

/-- Inflow, left-neighbour branch (`space_time_domain.rs` lines 541-554):
the fluid neighbour's `u` takes the boundary cell's own velocity. -/
def inFlowLeft (x y : ℕ) (p : Grid × ℕ) : Grid × ℕ :=
  if 0 < x then
    match (gget p.1 (x - 1) y).cell_type with
    | CellType.FluidCell =>
      let s1 := gmod p.1 (x - 1) y fun c =>
        { c with velocity := ((gget p.1 x y).velocity.1, c.velocity.2) }
      let s2 := gmod s1 x y fun c =>
        { c with pressure := c.pressure + (gget s1 (x - 1) y).pressure }
      let s3 := gmod s2 (x - 1) y fun c => { c with f := c.velocity.1 }
      (s3, p.2 + 1)
    | _ => p
  else p

/-- Inflow, right-neighbour branch (`space_time_domain.rs` lines 555-566):
no velocity write at all. -/
def inFlowRight (x y nx : ℕ) (p : Grid × ℕ) : Grid × ℕ :=
  if x + 1 < nx then
    match (gget p.1 (x + 1) y).cell_type with
    | CellType.FluidCell =>
      let s1 := gmod p.1 x y fun c =>
        { c with pressure := c.pressure + (gget p.1 (x + 1) y).pressure }
      let s2 := gmod s1 x y fun c => { c with f := c.velocity.1 }
      (s2, p.2 + 1)
    | _ => p
  else p

/-- Inflow, bottom-neighbour branch (`space_time_domain.rs` lines 567-580). -/
def inFlowBottom (x y : ℕ) (p : Grid × ℕ) : Grid × ℕ :=
  if 0 < y then
    match (gget p.1 x (y - 1)).cell_type with
    | CellType.FluidCell =>
      let s1 := gmod p.1 x (y - 1) fun c =>
        { c with velocity := (c.velocity.1, (gget p.1 x y).velocity.2) }
      let s2 := gmod s1 x y fun c =>
        { c with pressure := c.pressure + (gget s1 x (y - 1)).pressure }
      let s3 := gmod s2 x (y - 1) fun c => { c with g := c.velocity.2 }
      (s3, p.2 + 1)
    | _ => p
  else p

/-- Inflow, top-neighbour branch (`space_time_domain.rs` lines 581-592). -/
def inFlowTop (x y ny : ℕ) (p : Grid × ℕ) : Grid × ℕ :=
  if y + 1 < ny then
    match (gget p.1 x (y + 1)).cell_type with
    | CellType.FluidCell =>
      let s1 := gmod p.1 x y fun c =>
        { c with pressure := c.pressure + (gget p.1 x (y + 1)).pressure }
      let s2 := gmod s1 x y fun c => { c with g := c.velocity.2 }
      (s2, p.2 + 1)
    | _ => p
  else p

/-- Final pressure averaging of each `set_boundary_conditions` kind branch:
divide the accumulated pressure by the fluid-neighbour count, only when the
count is nonzero. -/
def bcAverage (x y : ℕ) (p : Grid × ℕ) : Grid :=
  if p.2 ≠ 0 then gmod p.1 x y (fun c => { c with pressure := c.pressure / (p.2 : ℚ) })
  else p.1

/-- The initial write `cell.pressure = 0.0` of the boundary-cell resolver
(`space_time_domain.rs` line 325). -/
def presZero (c : Cell) : Cell := { c with pressure := 0 }

/-- Loop body of `set_boundary_conditions` (`space_time_domain.rs` lines
320-601): on a boundary cell, zero its pressure, run the four directional
branches in the fixed order left, right, bottom, top, then average the
pressure. -/
def setBCCell (nx ny x y : ℕ) (sd : Grid) : Grid :=
  match (gget sd x y).cell_type with
  | CellType.BoundaryConditionCell kind =>
    let sd0 := gmod sd x y presZero
    match kind with
    | BoundaryConditionCell.NoSlipCell =>
      bcAverage x y (noSlipTop x y ny (noSlipBottom x y (noSlipRight x y nx
        (noSlipLeft x y (sd0, 0)))))
    | BoundaryConditionCell.FreeSlipCell =>
      bcAverage x y (freeSlipTop x y ny (freeSlipBottom x y (freeSlipRight x y nx
        (freeSlipLeft x y (sd0, 0)))))
    | BoundaryConditionCell.OutFlowCell =>
      bcAverage x y (outFlowTop x y ny (outFlowBottom x y (outFlowRight x y nx
        (outFlowLeft x y (sd0, 0)))))
    | BoundaryConditionCell.InflowCell =>
      bcAverage x y (inFlowTop x y ny (inFlowBottom x y (inFlowRight x y nx
        (inFlowLeft x y (sd0, 0)))))
  | _ => sd

/-- `set_boundary_conditions` of `space_time_domain.rs` (whole sweep). -/
def set_boundary_conditions (nx ny : ℕ) (sd : Grid) : Grid :=
  sweep nx ny (fun x y sd => setBCCell nx ny x y sd) sd

/-- The relaxation loop of `SpaceTimeDomain::solve_poisson_pressure_equation`
(`space_time_domain.rs` lines 171-220), fuel-indexed by the remaining
iterations of `for _ in 0..ITR_MAX`.  The residual is computed *first*, from
the field left by the previous sweep; the loop breaks when
`sqrt(residual_sum / nx / ny) < POISSON_EPSILON`, else refreshes boundary
pressures and runs one SOR sweep. -/
def poissonLoopSTD (nx ny : ℕ) (dx dy : ℚ) : ℕ → Grid → Grid
  | 0, sd => sd
  | fuel + 1, sd =>
    let res_norm := sqrtQ (residual_sum nx ny dx dy sd / (nx : ℚ) / (ny : ℚ))
    if res_norm < POISSON_EPSILON then sd
    else
      poissonLoopSTD nx ny dx dy fuel
        (sweep nx ny (sor_body dx dy) (update_pressures_for_boundary_cells nx ny sd))

/-- `SpaceTimeDomain::solve_poisson_pressure_equation`. -/
def solve_poisson_pressure_equation_std (nx ny : ℕ) (dx dy : ℚ) (sd : Grid) : Grid :=
  poissonLoopSTD nx ny dx dy ITR_MAX sd

/-- The relaxation loop of `Simulation::solve_poisson_pressure_equation`
(`simulation.rs` lines 177-236): the residual is divided by the cached
`fluid_cell_count`, and the loop breaks when
`residual_norm < POISSON_EPSILON` or
`residual_norm < initial_pressure_norm * POISSON_EPSILON`. -/
def poissonLoopSim (nx ny : ℕ) (dx dy norm : ℚ) (count : ℕ) : ℕ → Grid → Grid
  | 0, sd => sd
  | fuel + 1, sd =>
    let residual_norm := sqrtQ (residual_sum nx ny dx dy sd / (count : ℚ))
    if residual_norm < POISSON_EPSILON ∨ residual_norm < norm * POISSON_EPSILON then sd
    else
      poissonLoopSim nx ny dx dy norm count fuel
        (sweep nx ny (sor_body dx dy) (update_pressures_for_boundary_cells nx ny sd))

/-- The fluid-cell count accumulated by the first
`Simulation::get_initial_pressure_norm` pass. -/
def fluid_cell_count_of (nx ny : ℕ) (sd : Grid) : ℕ :=
  (allCoords nx ny).foldl
    (fun n p =>
      match (gget sd p.1 p.2).cell_type with
      | CellType.FluidCell => n + 1
      | _ => n)
    0

/-- The sum of squared pressures over fluid cells accumulated by the first
`Simulation::get_initial_pressure_norm` pass (non-fluid cells contribute
the literal `0.0` of the source). -/
def pressure_square_sum (nx ny : ℕ) (sd : Grid) : ℚ :=
  (allCoords nx ny).foldl
    (fun a p =>
      a + match (gget sd p.1 p.2).cell_type with
          | CellType.FluidCell => (gget sd p.1 p.2).pressure ^ 2
          | _ => 0)
    0

/-- `SpaceDomain` of the absent `space_domain.rs`.  Modelled from the spec
(§3, §4.1): a rectangular cell array plus `space_size` and `delta_space`
metadata with checked and unchecked accessors (`gget` / `tryGetCell`). -/
structure SpaceDomain where
  space_domain : Grid
  space_size : ℕ × ℕ
  delta_space : ℚ × ℚ
deriving DecidableEq

/-- The `Simulation` struct of `simulation.rs` (the preset-construction and
visualization-query wrappers are outside the verified core). -/
structure Simulation where
  space_domain : SpaceDomain
  delta_time : ℚ
  acceleration : ℚ × ℚ
  reynolds : ℚ
  time : ℚ
  initial_pressure_norm : Option ℚ
  fluid_cell_count : Option ℕ
deriving DecidableEq

/-- `Simulation::get_initial_pressure_norm` (`simulation.rs` lines 148-175):
returns the cached pair when present (the source `unwrap`s the count, which
is always set together with the norm; `Option.getD 0` models that), else
computes the RMS pressure over fluid cells and the fluid-cell count, caches
them, and returns them.  The source divides the accumulated sum by the
final count (a by-value read after the iterator is consumed); a zero count
would give `NaN` in `f32`, `0` here. -/
def Simulation.get_initial_pressure_norm (sim : Simulation) : (ℚ × ℕ) × Simulation :=
  match sim.initial_pressure_norm with
  | some x => ((x, sim.fluid_cell_count.getD 0), sim)
  | none =>
    let nx := sim.space_domain.space_size.1
    let ny := sim.space_domain.space_size.2
    let count := fluid_cell_count_of nx ny sim.space_domain.space_domain
    let norm := sqrtQ (pressure_square_sum nx ny sim.space_domain.space_domain / (count : ℚ))
    ((norm, count),
     { sim with initial_pressure_norm := some norm, fluid_cell_count := some count })

/-- `Simulation::solve_poisson_pressure_equation` (`simulation.rs` lines
177-236). -/
def Simulation.solve_poisson_pressure_equation (sim : Simulation) : Simulation :=
  let r := sim.get_initial_pressure_norm
  let sim1 := r.2
  let nx := sim1.space_domain.space_size.1
  let ny := sim1.space_domain.space_size.2
  let dx := sim1.space_domain.delta_space.1
  let dy := sim1.space_domain.delta_space.2
  let sdm := sim1.space_domain
  let g := poissonLoopSim nx ny dx dy r.1.1 r.1.2 ITR_MAX sdm.space_domain
  { sim1 with space_domain := { sdm with space_domain := g } }

/-- The `SpaceTimeDomain` struct of `space_time_domain.rs`. -/
structure SpaceTimeDomain where
  space_domain : Grid
  space_size : ℕ × ℕ
  delta_space : ℚ × ℚ
  delta_time : ℚ
  acceleration : ℚ × ℚ
  reynolds : ℚ
  time : ℚ
  pressure_range : ℚ × ℚ
  speed_range : ℚ × ℚ
deriving DecidableEq

/-- `SpaceTimeDomain::update_pressure_and_speed_range` (lines 104-137): a
read-only grid sweep folding the running min/max accumulators together with
the `initialized` flag. -/
def SpaceTimeDomain.update_pressure_and_speed_range (s : SpaceTimeDomain) : SpaceTimeDomain :=
  let res := (allCoords s.space_size.1 s.space_size.2).foldl
    (fun (acc : (ℚ × ℚ) × (ℚ × ℚ) × Bool) p =>
      match (gget s.space_domain p.1 p.2).cell_type with
      | CellType.FluidCell =>
        let pr := (gget s.space_domain p.1 p.2).pressure
        let speed := sqrtQ ((gget s.space_domain p.1 p.2).velocity.1 ^ 2 +
                            (gget s.space_domain p.1 p.2).velocity.2 ^ 2)
        let init := acc.2.2
        let pmin := if init = false ∨ pr < acc.1.1 then pr else acc.1.1
        let pmax := if init = false ∨ pr > acc.1.2 then pr else acc.1.2
        let smin := if init = false ∨ speed < acc.2.1.1 then speed else acc.2.1.1
        let smax := if init = false ∨ speed > acc.2.1.2 then speed else acc.2.1.2
        ((pmin, pmax), (smin, smax), true)
      | _ => acc)
    ((s.pressure_range, s.speed_range, false))
  { s with pressure_range := res.1, speed_range := res.2.1 }

/-- `SpaceTimeDomain::iterate_one_timestep` (lines 77-98): boundary
resolution, momentum prediction, RHS assembly, Poisson relaxation, velocity
correction, range update, then `time += delta_time`. -/
def SpaceTimeDomain.iterate_one_timestep (s : SpaceTimeDomain) : SpaceTimeDomain :=
  let nx := s.space_size.1
  let ny := s.space_size.2
  let dx := s.delta_space.1
  let dy := s.delta_space.2
  let g1 := set_boundary_conditions nx ny s.space_domain
  let g2 := update_fg_std nx ny dx dy s.delta_time s.reynolds
    s.acceleration.1 s.acceleration.2 g1
  let g3 := update_rhs nx ny dx dy s.delta_time g2
  let g4 := solve_poisson_pressure_equation_std nx ny dx dy g3
  let g5 := update_velocity nx ny dx dy s.delta_time g4
  let s1 := SpaceTimeDomain.update_pressure_and_speed_range { s with space_domain := g5 }
  { s1 with time := s1.time + s1.delta_time }

theorem update_rhs_body_wf (nx ny : ℕ) (dx dy dt : ℚ) (x y : ℕ) (sd : Grid)
    (hsd : wfGrid nx ny sd) : wfGrid nx ny (update_rhs_body dx dy dt x y sd) := by
  unfold update_rhs_body
  split
  · exact wfGrid_gset hsd _ _ _
  · exact hsd

theorem update_rhs_body_frame (dx dy dt : ℚ) (x y x' y' : ℕ) (sd : Grid)
    (h : ¬(x' = x ∧ y' = y)) :
    gget (update_rhs_body dx dy dt x y sd) x' y' = gget sd x' y' := by
  unfold update_rhs_body gmod
  split
  · exact gget_gset_ne h
  · rfl

/-- The per-cell effect of `update_rhs_body`, phrased on the
`(cell_type, f, g)` view of the pre-sweep grid. -/
def rhsUpd (dx dy dt : ℚ) (x y : ℕ) (v : ℕ → ℕ → CellType × ℚ × ℚ) (c : Cell) : Cell :=
  match c.cell_type with
  | CellType.FluidCell =>
    { c with rhs := ((c.f - (v (x - 1) y).2.1) / dx + (c.g - (v x (y - 1)).2.2) / dy) / dt }
  | _ => c

/-- The `(cell_type, f, g)` view read by `update_rhs_body`. -/
def rhsView (sd : Grid) : ℕ → ℕ → CellType × ℚ × ℚ :=
  fun x y => ((gget sd x y).cell_type, (gget sd x y).f, (gget sd x y).g)

theorem update_rhs_body_write (nx ny : ℕ) (dx dy dt : ℚ) (x y : ℕ) (sd : Grid)
    (hx : x < nx) (hy : y < ny) (hsd : wfGrid nx ny sd) :
    gget (update_rhs_body dx dy dt x y sd) x y =
      rhsUpd dx dy dt x y (rhsView sd) (gget sd x y) := by
  have hx' : x < sd.length := hsd.1 ▸ hx
  have hy' : y < (sd[x]?.getD []).length := (wfGrid_row_len hsd hx) ▸ hy
  unfold update_rhs_body rhsUpd rhsView gmod
  rcases hct : (gget sd x y).cell_type with _ | k | _ <;>
    simp [hct, gget_gset_self hx' hy']

theorem update_rhs_body_view (nx ny : ℕ) (dx dy dt : ℚ) (x y : ℕ) (sd : Grid)
    (hx : x < nx) (hy : y < ny) (hsd : wfGrid nx ny sd) :
    rhsView (update_rhs_body dx dy dt x y sd) = rhsView sd := by
  funext a b
  unfold rhsView
  by_cases hab : a = x ∧ b = y
  · obtain ⟨rfl, rfl⟩ := hab
    have hx' : a < sd.length := hsd.1 ▸ hx
    have hy' : b < (sd[a]?.getD []).length := (wfGrid_row_len hsd hx) ▸ hy
    unfold update_rhs_body gmod
    split
    · rw [gget_gset_self hx' hy']
    · rfl
  · rw [update_rhs_body_frame dx dy dt x y a b sd hab]

theorem update_rhs_char (nx ny : ℕ) (dx dy dt : ℚ) (sd : Grid) (hsd : wfGrid nx ny sd) :
    ∀ x y, gget (update_rhs nx ny dx dy dt sd) x y =
      if x < nx ∧ y < ny then rhsUpd dx dy dt x y (rhsView sd) (gget sd x y)
      else gget sd x y :=
  (sweep_pointwise nx ny (update_rhs_body dx dy dt) rhsView (rhsUpd dx dy dt)
    (fun x y sd hx hy h => update_rhs_body_wf nx ny dx dy dt x y sd h)
    (fun x y sd x' y' _ _ _ h => update_rhs_body_frame dx dy dt x y x' y' sd h)
    (fun x y sd hx hy h => update_rhs_body_write nx ny dx dy dt x y sd hx hy h)
    (fun x y sd hx hy h => update_rhs_body_view nx ny dx dy dt x y sd hx hy h)
    sd hsd).2.2

/-- C2: after `update_rhs`, every in-range `FluidCell` stores
`rhs = ((f(x,y) - f(x-1,y))/dx + (g(x,y) - g(x,y-1))/dy)/dt`, the discrete
divergence of the predictor field `(f, g)` scaled by `1/dt` (the predictor
field itself being untouched by the assembly, the formula refers
interchangeably to its pre- or post-assembly values). -/
theorem update_rhs_stores_divergence (nx ny x y : ℕ) (dx dy dt : ℚ) (sd : Grid)
    (hsd : wfGrid nx ny sd) (hx : x < nx) (hy : y < ny) (hx0 : 0 < x) (hy0 : 0 < y)
    (hf : (gget sd x y).cell_type = CellType.FluidCell) :
    (gget (update_rhs nx ny dx dy dt sd) x y).rhs =
      (((gget sd x y).f - (gget sd (x - 1) y).f) / dx +
       ((gget sd x y).g - (gget sd x (y - 1)).g) / dy) / dt ∧
    (∀ a b : ℕ, (gget (update_rhs nx ny dx dy dt sd) a b).f = (gget sd a b).f ∧
                (gget (update_rhs nx ny dx dy dt sd) a b).g = (gget sd a b).g) := by
  constructor
  · rw [update_rhs_char nx ny dx dy dt sd hsd x y, if_pos ⟨hx, hy⟩]
    unfold rhsUpd rhsView
    rw [hf]
  · intro a b
    rw [update_rhs_char nx ny dx dy dt sd hsd a b]
    by_cases hab : a < nx ∧ b < ny
    · rw [if_pos hab]
      unfold rhsUpd
      split <;> simp
    · rw [if_neg hab]
      exact ⟨rfl, rfl⟩

/-- A 3x3 grid used as concrete witness input: fluid centre with nonzero
predictor values, NoSlip ring. -/
def wriGrid : Grid :=
  [[{ cell_type := CellType.BoundaryConditionCell BoundaryConditionCell.NoSlipCell },
    { cell_type := CellType.BoundaryConditionCell BoundaryConditionCell.NoSlipCell, f := 3 },
    { cell_type := CellType.BoundaryConditionCell BoundaryConditionCell.NoSlipCell }],
   [{ cell_type := CellType.BoundaryConditionCell BoundaryConditionCell.NoSlipCell, g := 5 },
    { cell_type := CellType.FluidCell, f := 7, g := 11, pressure := 13 },
    { cell_type := CellType.BoundaryConditionCell BoundaryConditionCell.NoSlipCell }],
   [{ cell_type := CellType.BoundaryConditionCell BoundaryConditionCell.NoSlipCell },
    { cell_type := CellType.BoundaryConditionCell BoundaryConditionCell.NoSlipCell },
    { cell_type := CellType.BoundaryConditionCell BoundaryConditionCell.NoSlipCell }]]

theorem update_rhs_stores_divergence_witness :
    wfGrid 3 3 wriGrid ∧ (gget wriGrid 1 1).cell_type = CellType.FluidCell ∧
    ((gget (update_rhs 3 3 1 1 1 wriGrid) 1 1).rhs =
      (((gget wriGrid 1 1).f - (gget wriGrid 0 1).f) / 1 +
       ((gget wriGrid 1 1).g - (gget wriGrid 1 0).g) / 1) / 1 ∧
     ∀ a b : ℕ, (gget (update_rhs 3 3 1 1 1 wriGrid) a b).f = (gget wriGrid a b).f ∧
                (gget (update_rhs 3 3 1 1 1 wriGrid) a b).g = (gget wriGrid a b).g) :=
  ⟨by with_unfolding_all decide,
   by with_unfolding_all decide,
   update_rhs_stores_divergence 3 3 1 1 1 1 1 wriGrid
     (by with_unfolding_all decide)
     (by norm_num) (by norm_num) (by norm_num) (by norm_num)
     (by with_unfolding_all decide)⟩

/-- C9: in the boundary-pressure neighbour scan, the wrapping decrement of a
zero coordinate yields `usize::MAX`, and the bounds-checked lookup rejects
that index on any grid a `Vec` can hold: the scan never resolves the
decremented coordinate to a valid cell at the opposite edge, so no
high-index cell is read or counted as that neighbour. -/
theorem wrapping_decrement_at_zero_no_neighbor (sd : Grid)
    (hlen : sd.length ≤ USIZE_MAX) (hrows : ∀ row ∈ sd, row.length ≤ USIZE_MAX) :
    wrapping_sub1 0 = USIZE_MAX ∧
    (∀ y : ℕ, (wrapping_sub1 0, y) ∈ neighboring_cells 0 y ∧
      tryGetCell sd (wrapping_sub1 0) y = none) ∧
    (∀ x : ℕ, (x, wrapping_sub1 0) ∈ neighboring_cells x 0 ∧
      tryGetCell sd x (wrapping_sub1 0) = none) := by
  have hw : wrapping_sub1 0 = USIZE_MAX := rfl
  refine ⟨hw, ?_, ?_⟩
  · intro y
    refine ⟨by simp [neighboring_cells], ?_⟩
    unfold tryGetCell
    rw [hw, List.getElem?_eq_none hlen]
    rfl
  · intro x
    refine ⟨by simp [neighboring_cells], ?_⟩
    unfold tryGetCell
    rw [hw]
    cases hrow : sd[x]? with
    | none => rfl
    | some row =>
      have : row ∈ sd := List.getElem?_mem hrow
      simp [List.getElem?_eq_none (hrows row this)]

theorem wrapping_decrement_at_zero_no_neighbor_witness :
    ([[defaultCell]] : Grid).length ≤ USIZE_MAX ∧
    tryGetCell [[defaultCell]] (wrapping_sub1 0) 0 = none ∧
    tryGetCell [[defaultCell]] 0 (wrapping_sub1 0) = none := by
  have h1 : ([[defaultCell]] : Grid).length ≤ USIZE_MAX := by norm_num [USIZE_MAX]
  have h2 : ∀ row ∈ ([[defaultCell]] : Grid), row.length ≤ USIZE_MAX := by
    intro row hr
    simp only [List.mem_singleton] at hr
    subst hr
    norm_num [USIZE_MAX]
  exact ⟨h1, ((wrapping_decrement_at_zero_no_neighbor [[defaultCell]] h1 h2).2.1 0).2,
    ((wrapping_decrement_at_zero_no_neighbor [[defaultCell]] h1 h2).2.2 0).2⟩

theorem gget_gset_wf {nx ny : ℕ} {sd : Grid} (hsd : wfGrid nx ny sd) {x y : ℕ}
    (hx : x < nx) (hy : y < ny) (c : Cell) : gget (gset sd x y c) x y = c :=
  gget_gset_self (hsd.1 ▸ hx) ((wfGrid_row_len hsd hx) ▸ hy)

/-- The `(cell_type, f, g, pressure)` view read by the velocity corrector. -/
def velView (sd : Grid) : ℕ → ℕ → CellType × ℚ × ℚ × ℚ :=
  fun x y => ((gget sd x y).cell_type, (gget sd x y).f, (gget sd x y).g, (gget sd x y).pressure)

/-- The per-cell effect of `update_velocity_body`, phrased on `velView`. -/
def velUpd (nx ny : ℕ) (dx dy dt : ℚ) (x y : ℕ) (v : ℕ → ℕ → CellType × ℚ × ℚ × ℚ)
    (c : Cell) : Cell :=
  match c.cell_type with
  | CellType.FluidCell =>
    let c1 :=
      if x + 1 < nx then
        match (v (x + 1) y).1 with
        | CellType.BoundaryConditionCell _ => c
        | _ => { c with velocity :=
            (c.f - dt * ((v (x + 1) y).2.2.2 - c.pressure) / dx, c.velocity.2) }
      else c
    if y + 1 < ny then
      match (v x (y + 1)).1 with
      | CellType.BoundaryConditionCell _ => c1
      | _ => { c1 with velocity :=
          (c1.velocity.1, c1.g - dt * ((v x (y + 1)).2.2.2 - c1.pressure) / dy) }
    else c1
  | _ => c

theorem update_velocity_body_wf (nx ny : ℕ) (dx dy dt : ℚ) (x y : ℕ) (sd : Grid)
    (hsd : wfGrid nx ny sd) : wfGrid nx ny (update_velocity_body nx ny dx dy dt x y sd) := by
  unfold update_velocity_body gmod
  rcases hct : (gget sd x y).cell_type with _ | k | _ <;> simp only [hct]
  · split <;> split <;> first
      | exact hsd
      | exact wfGrid_gset hsd _ _ _
      | exact wfGrid_gset (wfGrid_gset hsd _ _ _) _ _ _
  · exact hsd
  · exact hsd

theorem update_velocity_body_frame (nx ny : ℕ) (dx dy dt : ℚ) (x y x' y' : ℕ) (sd : Grid)
    (h : ¬(x' = x ∧ y' = y)) :
    gget (update_velocity_body nx ny dx dy dt x y sd) x' y' = gget sd x' y' := by
  unfold update_velocity_body gmod
  rcases hct : (gget sd x y).cell_type with _ | k | _ <;> simp only [hct] <;>
    try (split <;> split)
  all_goals first
    | rfl
    | exact gget_gset_ne h
    | rw [gget_gset_ne h, gget_gset_ne h]

theorem gget_gset_gset_wf {nx ny : ℕ} {sd : Grid} (hsd : wfGrid nx ny sd) {x y : ℕ}
    (hx : x < nx) (hy : y < ny) (c c' : Cell) :
    gget (gset (gset sd x y c) x y c') x y = c' :=
  gget_gset_wf (wfGrid_gset hsd x y c) hx hy c'

theorem update_velocity_body_write (nx ny : ℕ) (dx dy dt : ℚ) (x y : ℕ) (sd : Grid)
    (hx : x < nx) (hy : y < ny) (hsd : wfGrid nx ny sd) :
    gget (update_velocity_body nx ny dx dy dt x y sd) x y =
      velUpd nx ny dx dy dt x y (velView sd) (gget sd x y) := by
  have hxy1 : ¬(x = x ∧ y + 1 = y) := by simp
  unfold update_velocity_body velUpd velView gmod
  rcases hct : (gget sd x y).cell_type with _ | k | _ <;> simp only [hct]
  case FluidCell =>
    by_cases hr : x + 1 < nx <;> by_cases ht : y + 1 < ny <;>
      simp only [hr, ht, if_true, if_false, reduceIte] <;>
      rcases hctr : (gget sd (x + 1) y).cell_type with _ | kr | _ <;>
      rcases hctt : (gget sd x (y + 1)).cell_type with _ | kt | _ <;>
      simp only [hctr, hctt] <;>
      first
        | rfl
        | simp [gget_gset_wf hsd hx hy, gget_gset_gset_wf hsd hx hy,
            gget_gset_ne hxy1, hct]

theorem velUpd_preserves_view_fields (nx ny : ℕ) (dx dy dt : ℚ) (x y : ℕ)
    (v : ℕ → ℕ → CellType × ℚ × ℚ × ℚ) (c : Cell) :
    (velUpd nx ny dx dy dt x y v c).cell_type = c.cell_type ∧
    (velUpd nx ny dx dy dt x y v c).f = c.f ∧
    (velUpd nx ny dx dy dt x y v c).g = c.g ∧
    (velUpd nx ny dx dy dt x y v c).pressure = c.pressure := by
  unfold velUpd
  rcases hct : c.cell_type with _ | k | _ <;> simp only [hct]
  case FluidCell =>
    by_cases hr : x + 1 < nx <;> by_cases ht : y + 1 < ny <;>
      simp only [hr, ht, if_true, if_false, reduceIte] <;>
      cases hv1 : (v (x + 1) y).1 <;> cases hv2 : (v x (y + 1)).1 <;>
      first
        | rfl
        | simp [hv1, hv2, hct]
  all_goals simp

theorem update_velocity_body_view (nx ny : ℕ) (dx dy dt : ℚ) (x y : ℕ) (sd : Grid)
    (hx : x < nx) (hy : y < ny) (hsd : wfGrid nx ny sd) :
    velView (update_velocity_body nx ny dx dy dt x y sd) = velView sd := by
  funext a b
  by_cases hab : a = x ∧ b = y
  · obtain ⟨rfl, rfl⟩ := hab
    have h := update_velocity_body_write nx ny dx dy dt a b sd hx hy hsd
    unfold velView
    rw [h]
    have hf := velUpd_preserves_view_fields nx ny dx dy dt a b (velView sd) (gget sd a b)
    rw [hf.1, hf.2.1, hf.2.2.1, hf.2.2.2]
  · unfold velView
    rw [update_velocity_body_frame nx ny dx dy dt x y a b sd hab]

theorem update_velocity_char (nx ny : ℕ) (dx dy dt : ℚ) (sd : Grid) (hsd : wfGrid nx ny sd) :
    wfGrid nx ny (update_velocity nx ny dx dy dt sd) ∧
    velView (update_velocity nx ny dx dy dt sd) = velView sd ∧
    ∀ x y, gget (update_velocity nx ny dx dy dt sd) x y =
      if x < nx ∧ y < ny then velUpd nx ny dx dy dt x y (velView sd) (gget sd x y)
      else gget sd x y :=
  sweep_pointwise nx ny (update_velocity_body nx ny dx dy dt) velView (velUpd nx ny dx dy dt)
    (fun x y sd _ _ h => update_velocity_body_wf nx ny dx dy dt x y sd h)
    (fun x y sd x' y' _ _ _ h => update_velocity_body_frame nx ny dx dy dt x y x' y' sd h)
    (fun x y sd hx hy h => update_velocity_body_write nx ny dx dy dt x y sd hx hy h)
    (fun x y sd hx hy h => update_velocity_body_view nx ny dx dy dt x y sd hx hy h)
    sd hsd

theorem velUpd_idem (nx ny : ℕ) (dx dy dt : ℚ) (x y : ℕ)
    (v : ℕ → ℕ → CellType × ℚ × ℚ × ℚ) (c : Cell) :
    velUpd nx ny dx dy dt x y v (velUpd nx ny dx dy dt x y v c) =
      velUpd nx ny dx dy dt x y v c := by
  unfold velUpd
  rcases hct : c.cell_type with _ | k | _ <;> simp only [hct]
  case FluidCell =>
    by_cases hr : x + 1 < nx <;> by_cases ht : y + 1 < ny <;>
      simp only [hr, ht, if_true, if_false, reduceIte] <;>
      cases hv1 : (v (x + 1) y).1 <;> cases hv2 : (v x (y + 1)).1 <;>
      first
        | rfl
        | simp [hv1, hv2, hct]
  all_goals simp [hct]

/-- C6: the velocity corrector is idempotent: on any well-formed state,
running `update_velocity` twice produces exactly the same grid (in
particular the same velocity field) as running it once, because the
corrector reads only `f`, `g`, `pressure` and cell types (all unchanged by
it) and writes only velocities. -/
theorem update_velocity_idempotent (nx ny : ℕ) (dx dy dt : ℚ) (sd : Grid)
    (hsd : wfGrid nx ny sd) (x y : ℕ) :
    gget (update_velocity nx ny dx dy dt (update_velocity nx ny dx dy dt sd)) x y =
      gget (update_velocity nx ny dx dy dt sd) x y := by
  obtain ⟨hwf1, hview1, hchar1⟩ := update_velocity_char nx ny dx dy dt sd hsd
  obtain ⟨_, _, hchar2⟩ :=
    update_velocity_char nx ny dx dy dt (update_velocity nx ny dx dy dt sd) hwf1
  rw [hchar2 x y]
  by_cases hxy : x < nx ∧ y < ny
  · rw [if_pos hxy, hview1, hchar1 x y, if_pos hxy, velUpd_idem]
  · rw [if_neg hxy]

theorem update_velocity_idempotent_witness :
    wfGrid 3 3 wriGrid ∧
    gget (update_velocity 3 3 1 1 1 (update_velocity 3 3 1 1 1 wriGrid)) 1 1 =
      gget (update_velocity 3 3 1 1 1 wriGrid) 1 1 :=
  ⟨by with_unfolding_all decide,
   update_velocity_idempotent 3 3 1 1 1 wriGrid (by with_unfolding_all decide) 1 1⟩

theorem tryGetCell_wf {nx ny : ℕ} {sd : Grid} (hsd : wfGrid nx ny sd) (x y : ℕ) :
    tryGetCell sd x y = if x < nx ∧ y < ny then some (gget sd x y) else none := by
  unfold tryGetCell gget
  by_cases hx : x < nx
  · have hx' : x < sd.length := hsd.1 ▸ hx
    have hrl : (sd[x]?.getD []).length = ny := wfGrid_row_len hsd hx
    rw [List.getElem?_eq_getElem hx'] at hrl ⊢
    simp only [Option.getD_some] at hrl ⊢
    by_cases hy : y < ny
    · have hy' : y < sd[x].length := hrl ▸ hy
      rw [if_pos ⟨hx, hy⟩, List.getElem?_eq_getElem hy']
      simp
    · rw [if_neg (fun hc => hy hc.2)]
      show sd[x][y]? = none
      rw [List.getElem?_eq_none (by rw [hrl]; exact Nat.le_of_not_lt hy)]
  · rw [if_neg (fun hc => hx hc.1), List.getElem?_eq_none (hsd.1 ▸ Nat.le_of_not_lt hx)]
    rfl

theorem foldl_pointwise_g {κ : Type _} (nx ny : ℕ) (body : ℕ → ℕ → Grid → Grid)
    (view : Grid → κ) (upd : ℕ → ℕ → Grid → Cell → Cell)
    (hwf : ∀ x y sd, x < nx → y < ny → wfGrid nx ny sd → wfGrid nx ny (body x y sd))
    (hframe : ∀ x y sd x' y', x < nx → y < ny → wfGrid nx ny sd → ¬(x' = x ∧ y' = y) →
      gget (body x y sd) x' y' = gget sd x' y')
    (hwrite : ∀ x y sd, x < nx → y < ny → wfGrid nx ny sd →
      gget (body x y sd) x y = upd x y sd (gget sd x y))
    (hview : ∀ x y sd, x < nx → y < ny → wfGrid nx ny sd → view (body x y sd) = view sd)
    (hcongr : ∀ x y sd sd', wfGrid nx ny sd → wfGrid nx ny sd' → view sd = view sd' →
      ∀ c, upd x y sd c = upd x y sd' c)
    (l : List (ℕ × ℕ)) (hl : l.Nodup) (hmem : ∀ p ∈ l, p.1 < nx ∧ p.2 < ny)
    (sd : Grid) (hsd : wfGrid nx ny sd) :
    wfGrid nx ny (l.foldl (fun s p => body p.1 p.2 s) sd) ∧
    view (l.foldl (fun s p => body p.1 p.2 s) sd) = view sd ∧
    (∀ p ∈ l, gget (l.foldl (fun s p => body p.1 p.2 s) sd) p.1 p.2 =
      upd p.1 p.2 sd (gget sd p.1 p.2)) ∧
    (∀ x y, (x, y) ∉ l → gget (l.foldl (fun s p => body p.1 p.2 s) sd) x y = gget sd x y) := by
  induction l generalizing sd with
  | nil => exact ⟨hsd, rfl, fun p hp => absurd hp (List.not_mem_nil p), fun x y _ => rfl⟩
  | cons q t ih =>
    obtain ⟨hq, ht⟩ := List.nodup_cons.mp hl
    have hqx : q.1 < nx := (hmem q (List.mem_cons_self _ _)).1
    have hqy : q.2 < ny := (hmem q (List.mem_cons_self _ _)).2
    have hmem' : ∀ p ∈ t, p.1 < nx ∧ p.2 < ny :=
      fun p hp => hmem p (List.mem_cons_of_mem _ hp)
    have hsd' : wfGrid nx ny (body q.1 q.2 sd) := hwf _ _ _ hqx hqy hsd
    obtain ⟨ihwf, ihview, ihmem, ihout⟩ := ih ht hmem' (body q.1 q.2 sd) hsd'
    simp only [List.foldl_cons]
    refine ⟨ihwf, by rw [ihview, hview _ _ _ hqx hqy hsd], ?_, ?_⟩
    · intro p hp
      rcases List.mem_cons.mp hp with rfl | hpt
      · have hq' : (p.1, p.2) ∉ t := by
          intro hc
          exact hq (by simpa using hc)
        rw [ihout p.1 p.2 hq', hwrite _ _ _ hqx hqy hsd]
      · rw [ihmem p hpt,
          hcongr p.1 p.2 (body q.1 q.2 sd) sd hsd' hsd (hview _ _ _ hqx hqy hsd) _,
          hframe q.1 q.2 sd p.1 p.2 hqx hqy hsd ?_]
        intro ⟨h1, h2⟩
        apply hq
        have : p = q := by
          rcases p with ⟨a, b⟩
          rcases q with ⟨a', b'⟩
          simp_all
        exact this ▸ hpt
    · intro x y hxy
      have hxy' : (x, y) ∉ t := fun hc => hxy (List.mem_cons_of_mem _ hc)
      rw [ihout x y hxy', hframe q.1 q.2 sd x y hqx hqy hsd ?_]
      intro ⟨h1, h2⟩
      exact hxy (by rw [h1, h2]; exact List.mem_cons_self _ _)

theorem sweep_pointwise_g {κ : Type _} (nx ny : ℕ) (body : ℕ → ℕ → Grid → Grid)
    (view : Grid → κ) (upd : ℕ → ℕ → Grid → Cell → Cell)
    (hwf : ∀ x y sd, x < nx → y < ny → wfGrid nx ny sd → wfGrid nx ny (body x y sd))
    (hframe : ∀ x y sd x' y', x < nx → y < ny → wfGrid nx ny sd → ¬(x' = x ∧ y' = y) →
      gget (body x y sd) x' y' = gget sd x' y')
    (hwrite : ∀ x y sd, x < nx → y < ny → wfGrid nx ny sd →
      gget (body x y sd) x y = upd x y sd (gget sd x y))
    (hview : ∀ x y sd, x < nx → y < ny → wfGrid nx ny sd → view (body x y sd) = view sd)
    (hcongr : ∀ x y sd sd', wfGrid nx ny sd → wfGrid nx ny sd' → view sd = view sd' →
      ∀ c, upd x y sd c = upd x y sd' c)
    (sd : Grid) (hsd : wfGrid nx ny sd) :
    wfGrid nx ny (sweep nx ny body sd) ∧ view (sweep nx ny body sd) = view sd ∧
    ∀ x y, gget (sweep nx ny body sd) x y =
      if x < nx ∧ y < ny then upd x y sd (gget sd x y) else gget sd x y := by
  obtain ⟨h1, h2, h3, h4⟩ := foldl_pointwise_g nx ny body view upd hwf hframe hwrite hview
    hcongr (allCoords nx ny) (nodup_allCoords nx ny)
    (fun p hp => by rcases p with ⟨a, b⟩; exact mem_allCoords.mp hp) sd hsd
  refine ⟨h1, h2, ?_⟩
  intro x y
  by_cases hxy : x < nx ∧ y < ny
  · rw [if_pos hxy]
    exact h3 (x, y) (mem_allCoords.mpr hxy)
  · rw [if_neg hxy]
    exact h4 x y (fun hc => hxy (mem_allCoords.mp hc))

/-- The `(cell_type, velocity)` view read by the momentum predictor's
stencils. -/
def fgView (sd : Grid) : ℕ → ℕ → CellType × (ℚ × ℚ) :=
  fun a b => ((gget sd a b).cell_type, (gget sd a b).velocity)

theorem fgView_apply_type {sd sd' : Grid} (h : fgView sd = fgView sd') (a b : ℕ) :
    (gget sd a b).cell_type = (gget sd' a b).cell_type :=
  congrArg Prod.fst (congrFun (congrFun h a) b)

theorem fgView_apply_velocity {sd sd' : Grid} (h : fgView sd = fgView sd') (a b : ℕ) :
    (gget sd a b).velocity = (gget sd' a b).velocity :=
  congrArg Prod.snd (congrFun (congrFun h a) b)

theorem fgF_congr {sd sd' : Grid} (h : fgView sd = fgView sd') (dx dy dt re ax : ℚ)
    (x y : ℕ) : fgF sd dx dy dt re ax x y = fgF sd' dx dy dt re ax x y := by
  have ht := fgView_apply_type h
  have hv := fgView_apply_velocity h
  unfold fgF d2udx2 d2udy2 du2dx duvdy
  simp only [ht, hv]

theorem fgG_congr {sd sd' : Grid} (h : fgView sd = fgView sd') (dx dy dt re ay : ℚ)
    (x y : ℕ) : fgG sd dx dy dt re ay x y = fgG sd' dx dy dt re ay x y := by
  have ht := fgView_apply_type h
  have hv := fgView_apply_velocity h
  unfold fgG d2vdx2 d2vdy2 duvdx dv2dy
  simp only [ht, hv]

theorem fgView_gset_fg {nx ny : ℕ} {sd : Grid} (hsd : wfGrid nx ny sd) {x y : ℕ}
    (hx : x < nx) (hy : y < ny) (c' : Cell)
    (hty : c'.cell_type = (gget sd x y).cell_type)
    (hv : c'.velocity = (gget sd x y).velocity) :
    fgView (gset sd x y c') = fgView sd := by
  funext a b
  unfold fgView
  by_cases hab : a = x ∧ b = y
  · obtain ⟨rfl, rfl⟩ := hab
    rw [gget_gset_wf hsd hx hy, hty, hv]
  · rw [gget_gset_ne hab]

/-- The per-cell effect of `Simulation::update_fg`: `f` (resp. `g`) is
overwritten exactly when the cell is a `FluidCell` and the bounds-checked
right (resp. top) neighbour is a `FluidCell`; every other field and every
other cell is untouched. -/
def fgUpd (dx dy dt re ax ay : ℚ) (x y : ℕ) (sd : Grid) (c : Cell) : Cell :=
  match c.cell_type with
  | CellType.FluidCell =>
    let c1 :=
      match (tryGetCell sd (x + 1) y).map Cell.cell_type with
      | some CellType.FluidCell => { c with f := fgF sd dx dy dt re ax x y }
      | _ => c
    match (tryGetCell sd x (y + 1)).map Cell.cell_type with
    | some CellType.FluidCell => { c1 with g := fgG sd dx dy dt re ay x y }
    | _ => c1
  | _ => c

theorem update_fg_sim_body_wf (nx ny : ℕ) (dx dy dt re ax ay : ℚ) (x y : ℕ) (sd : Grid)
    (hsd : wfGrid nx ny sd) :
    wfGrid nx ny (update_fg_sim_body dx dy dt re ax ay x y sd) := by
  unfold update_fg_sim_body gmod
  rcases hct : (gget sd x y).cell_type with _ | k | _ <;> simp only [hct] <;>
    try (split <;> split)
  all_goals first
    | exact hsd
    | exact wfGrid_gset hsd _ _ _
    | exact wfGrid_gset (wfGrid_gset hsd _ _ _) _ _ _

theorem update_fg_sim_body_frame (nx ny : ℕ) (dx dy dt re ax ay : ℚ) (x y x' y' : ℕ)
    (sd : Grid) (h : ¬(x' = x ∧ y' = y)) :
    gget (update_fg_sim_body dx dy dt re ax ay x y sd) x' y' = gget sd x' y' := by
  unfold update_fg_sim_body gmod
  rcases hct : (gget sd x y).cell_type with _ | k | _ <;> simp only [hct] <;>
    try (split <;> split)
  all_goals first
    | rfl
    | exact gget_gset_ne h
    | rw [gget_gset_ne h, gget_gset_ne h]

theorem update_fg_sim_body_write (nx ny : ℕ) (dx dy dt re ax ay : ℚ) (x y : ℕ) (sd : Grid)
    (hx : x < nx) (hy : y < ny) (hsd : wfGrid nx ny sd) :
    gget (update_fg_sim_body dx dy dt re ax ay x y sd) x y =
      fgUpd dx dy dt re ax ay x y sd (gget sd x y) := by
  have hxy1 : ¬(x = x ∧ y + 1 = y) := by simp
  have ht2eq : ∀ c' : Cell,
      tryGetCell (gset sd x y c') x (y + 1) = tryGetCell sd x (y + 1) := by
    intro c'
    rw [tryGetCell_wf (wfGrid_gset hsd x y c') x (y + 1), tryGetCell_wf hsd x (y + 1)]
    by_cases hcnd : x < nx ∧ y + 1 < ny
    · rw [if_pos hcnd, if_pos hcnd, gget_gset_ne hxy1]
    · rw [if_neg hcnd, if_neg hcnd]
  unfold update_fg_sim_body fgUpd gmod
  rcases hct : (gget sd x y).cell_type with _ | k | _ <;> simp only [hct]
  case FluidCell =>
    rcases ht1 : (tryGetCell sd (x + 1) y).map Cell.cell_type with _ | ct1
    · simp only [ht1]
      rcases ht2 : (tryGetCell sd x (y + 1)).map Cell.cell_type with _ | ct2
      · simp only [ht2]
      · rcases ct2 with _ | k2 | _ <;> simp only [ht2] <;>
          simp [gget_gset_wf hsd hx hy]
    · rcases ct1 with _ | k1 | _
      · simp only [ht1]
        rw [ht2eq]
        rcases ht2 : (tryGetCell sd x (y + 1)).map Cell.cell_type with _ | ct2
        · simp only [ht2, gget_gset_wf hsd hx hy]
        · rcases ct2 with _ | k2 | _ <;> simp only [ht2] <;>
            (simp [gget_gset_gset_wf hsd hx hy, gget_gset_wf hsd hx hy, hct] <;>
             exact fgG_congr (fgView_gset_fg hsd hx hy
               { cell_type := CellType.FluidCell, velocity := (gget sd x y).velocity,
                 f := fgF sd dx dy dt re ax x y, g := (gget sd x y).g,
                 pressure := (gget sd x y).pressure, rhs := (gget sd x y).rhs,
                 psi := (gget sd x y).psi,
                 boundary_condition_velocity := (gget sd x y).boundary_condition_velocity }
               hct.symm rfl) dx dy dt re ay x y)
      · simp only [ht1]
        rcases ht2 : (tryGetCell sd x (y + 1)).map Cell.cell_type with _ | ct2
        · simp only [ht2]
        · rcases ct2 with _ | k2 | _ <;> simp only [ht2] <;>
            simp [gget_gset_wf hsd hx hy]
      · simp only [ht1]
        rcases ht2 : (tryGetCell sd x (y + 1)).map Cell.cell_type with _ | ct2
        · simp only [ht2]
        · rcases ct2 with _ | k2 | _ <;> simp only [ht2] <;>
            simp [gget_gset_wf hsd hx hy]
  all_goals rfl

theorem fgUpd_preserves_tv (dx dy dt re ax ay : ℚ) (x y : ℕ) (sd : Grid) (c : Cell) :
    (fgUpd dx dy dt re ax ay x y sd c).cell_type = c.cell_type ∧
    (fgUpd dx dy dt re ax ay x y sd c).velocity = c.velocity := by
  unfold fgUpd
  rcases hct : c.cell_type with _ | k | _ <;> simp only [hct] <;>
    try (split <;> split)
  all_goals simp [hct]

theorem update_fg_sim_body_view (nx ny : ℕ) (dx dy dt re ax ay : ℚ) (x y : ℕ) (sd : Grid)
    (hx : x < nx) (hy : y < ny) (hsd : wfGrid nx ny sd) :
    fgView (update_fg_sim_body dx dy dt re ax ay x y sd) = fgView sd := by
  funext a b
  by_cases hab : a = x ∧ b = y
  · obtain ⟨rfl, rfl⟩ := hab
    unfold fgView
    rw [update_fg_sim_body_write nx ny dx dy dt re ax ay a b sd hx hy hsd]
    have h := fgUpd_preserves_tv dx dy dt re ax ay a b sd (gget sd a b)
    rw [h.1, h.2]
  · unfold fgView
    rw [update_fg_sim_body_frame nx ny dx dy dt re ax ay x y a b sd hab]

theorem fgUpd_congr (nx ny : ℕ) (dx dy dt re ax ay : ℚ) (x y : ℕ) (sd sd' : Grid)
    (hsd : wfGrid nx ny sd) (hsd' : wfGrid nx ny sd') (h : fgView sd = fgView sd')
    (c : Cell) :
    fgUpd dx dy dt re ax ay x y sd c = fgUpd dx dy dt re ax ay x y sd' c := by
  have h1 : (tryGetCell sd (x + 1) y).map Cell.cell_type =
      (tryGetCell sd' (x + 1) y).map Cell.cell_type := by
    rw [tryGetCell_wf hsd, tryGetCell_wf hsd']
    by_cases hc : x + 1 < nx ∧ y < ny
    · rw [if_pos hc, if_pos hc]
      simp [fgView_apply_type h]
    · rw [if_neg hc, if_neg hc]
  have h2 : (tryGetCell sd x (y + 1)).map Cell.cell_type =
      (tryGetCell sd' x (y + 1)).map Cell.cell_type := by
    rw [tryGetCell_wf hsd, tryGetCell_wf hsd']
    by_cases hc : x < nx ∧ y + 1 < ny
    · rw [if_pos hc, if_pos hc]
      simp [fgView_apply_type h]
    · rw [if_neg hc, if_neg hc]
  unfold fgUpd
  rw [h1, h2, fgF_congr h dx dy dt re ax x y, fgG_congr h dx dy dt re ay x y]

theorem update_fg_sim_char (nx ny : ℕ) (dx dy dt re ax ay : ℚ) (sd : Grid)
    (hsd : wfGrid nx ny sd) :
    wfGrid nx ny (update_fg_sim nx ny dx dy dt re ax ay sd) ∧
    fgView (update_fg_sim nx ny dx dy dt re ax ay sd) = fgView sd ∧
    ∀ x y, gget (update_fg_sim nx ny dx dy dt re ax ay sd) x y =
      if x < nx ∧ y < ny then fgUpd dx dy dt re ax ay x y sd (gget sd x y)
      else gget sd x y :=
  sweep_pointwise_g nx ny (update_fg_sim_body dx dy dt re ax ay) fgView
    (fun x y sd c => fgUpd dx dy dt re ax ay x y sd c)
    (fun x y sd _ _ h => update_fg_sim_body_wf nx ny dx dy dt re ax ay x y sd h)
    (fun x y sd x' y' _ _ _ h => update_fg_sim_body_frame nx ny dx dy dt re ax ay x y x' y' sd h)
    (fun x y sd hx hy h => update_fg_sim_body_write nx ny dx dy dt re ax ay x y sd hx hy h)
    (fun x y sd hx hy h => update_fg_sim_body_view nx ny dx dy dt re ax ay x y sd hx hy h)
    (fun x y sd sd' h h' hv c => fgUpd_congr nx ny dx dy dt re ax ay x y sd sd' h h' hv c)
    sd hsd

theorem fgUpd_f (dx dy dt re ax ay : ℚ) (x y : ℕ) (sd : Grid) (c : Cell) :
    (fgUpd dx dy dt re ax ay x y sd c).f =
      if c.cell_type = CellType.FluidCell ∧
          (tryGetCell sd (x + 1) y).map Cell.cell_type = some CellType.FluidCell
      then fgF sd dx dy dt re ax x y else c.f := by
  unfold fgUpd
  rcases hct : c.cell_type with _ | k | _ <;>
    rcases ht1 : (tryGetCell sd (x + 1) y).map Cell.cell_type with _ | ct1 <;>
    try rcases ct1 with _ | k1 | _
  all_goals (
    rcases ht2 : (tryGetCell sd x (y + 1)).map Cell.cell_type with _ | ct2 <;>
    try rcases ct2 with _ | k2 | _)
  all_goals simp [hct, ht1, ht2]

theorem fgUpd_g (dx dy dt re ax ay : ℚ) (x y : ℕ) (sd : Grid) (c : Cell) :
    (fgUpd dx dy dt re ax ay x y sd c).g =
      if c.cell_type = CellType.FluidCell ∧
          (tryGetCell sd x (y + 1)).map Cell.cell_type = some CellType.FluidCell
      then fgG sd dx dy dt re ay x y else c.g := by
  unfold fgUpd
  rcases hct : c.cell_type with _ | k | _ <;>
    rcases ht1 : (tryGetCell sd (x + 1) y).map Cell.cell_type with _ | ct1 <;>
    try rcases ct1 with _ | k1 | _
  all_goals (
    rcases ht2 : (tryGetCell sd x (y + 1)).map Cell.cell_type with _ | ct2 <;>
    try rcases ct2 with _ | k2 | _)
  all_goals simp [hct, ht1, ht2]

/-- C5: `Simulation::update_fg` writes `f` at `(x, y)` exactly when the cell
is a `FluidCell` and the bounds-checked cell at `(x+1, y)` exists and is a
`FluidCell`, and writes `g` exactly when the cell at `(x, y+1)` exists and
is a `FluidCell`; in every other case (including fluid cells whose forward
neighbour is a boundary or void cell) `f` and `g` keep their previous
values. -/
theorem update_fg_sim_write_condition (nx ny : ℕ) (dx dy dt re ax ay : ℚ) (sd : Grid)
    (hsd : wfGrid nx ny sd) (x y : ℕ) (hx : x < nx) (hy : y < ny) :
    (((gget sd x y).cell_type = CellType.FluidCell ∧
        (tryGetCell sd (x + 1) y).map Cell.cell_type = some CellType.FluidCell) →
      (gget (update_fg_sim nx ny dx dy dt re ax ay sd) x y).f = fgF sd dx dy dt re ax x y) ∧
    (¬((gget sd x y).cell_type = CellType.FluidCell ∧
        (tryGetCell sd (x + 1) y).map Cell.cell_type = some CellType.FluidCell) →
      (gget (update_fg_sim nx ny dx dy dt re ax ay sd) x y).f = (gget sd x y).f) ∧
    (((gget sd x y).cell_type = CellType.FluidCell ∧
        (tryGetCell sd x (y + 1)).map Cell.cell_type = some CellType.FluidCell) →
      (gget (update_fg_sim nx ny dx dy dt re ax ay sd) x y).g = fgG sd dx dy dt re ay x y) ∧
    (¬((gget sd x y).cell_type = CellType.FluidCell ∧
        (tryGetCell sd x (y + 1)).map Cell.cell_type = some CellType.FluidCell) →
      (gget (update_fg_sim nx ny dx dy dt re ax ay sd) x y).g = (gget sd x y).g) := by
  have hchar := (update_fg_sim_char nx ny dx dy dt re ax ay sd hsd).2.2 x y
  rw [if_pos ⟨hx, hy⟩] at hchar
  refine ⟨?_, ?_, ?_, ?_⟩
  · intro hcnd
    rw [hchar, fgUpd_f, if_pos hcnd]
  · intro hcnd
    rw [hchar, fgUpd_f, if_neg hcnd]
  · intro hcnd
    rw [hchar, fgUpd_g, if_pos hcnd]
  · intro hcnd
    rw [hchar, fgUpd_g, if_neg hcnd]

/-- A 4x3 grid with two adjacent fluid cells inside a NoSlip ring, witness
input for the predictor write-condition. -/
def wri2Grid : Grid :=
  [[{ cell_type := CellType.BoundaryConditionCell BoundaryConditionCell.NoSlipCell },
    { cell_type := CellType.BoundaryConditionCell BoundaryConditionCell.NoSlipCell },
    { cell_type := CellType.BoundaryConditionCell BoundaryConditionCell.NoSlipCell }],
   [{ cell_type := CellType.BoundaryConditionCell BoundaryConditionCell.NoSlipCell },
    { cell_type := CellType.FluidCell, velocity := (2, 3), f := 7 },
    { cell_type := CellType.BoundaryConditionCell BoundaryConditionCell.NoSlipCell }],
   [{ cell_type := CellType.BoundaryConditionCell BoundaryConditionCell.NoSlipCell },
    { cell_type := CellType.FluidCell, velocity := (4, 5), g := 9 },
    { cell_type := CellType.BoundaryConditionCell BoundaryConditionCell.NoSlipCell }],
   [{ cell_type := CellType.BoundaryConditionCell BoundaryConditionCell.NoSlipCell },
    { cell_type := CellType.BoundaryConditionCell BoundaryConditionCell.NoSlipCell },
    { cell_type := CellType.BoundaryConditionCell BoundaryConditionCell.NoSlipCell }]]

theorem update_fg_sim_write_condition_witness :
    (gget (update_fg_sim 4 3 1 1 1 1 0 0 wri2Grid) 1 1).f = fgF wri2Grid 1 1 1 1 0 1 1 ∧
    (gget (update_fg_sim 4 3 1 1 1 1 0 0 wri2Grid) 1 1).g = (gget wri2Grid 1 1).g :=
  ⟨(update_fg_sim_write_condition 4 3 1 1 1 1 0 0 wri2Grid (by with_unfolding_all decide)
      1 1 (by norm_num) (by norm_num)).1
    ⟨by with_unfolding_all decide, by with_unfolding_all decide⟩,
   (update_fg_sim_write_condition 4 3 1 1 1 1 0 0 wri2Grid (by with_unfolding_all decide)
      1 1 (by norm_num) (by norm_num)).2.2.2
    (by with_unfolding_all decide)⟩

theorem tryGetCell_gset_ne {nx ny : ℕ} {sd : Grid} (hsd : wfGrid nx ny sd) {x y a b : ℕ}
    (h : ¬(a = x ∧ b = y)) (c : Cell) :
    tryGetCell (gset sd x y c) a b = tryGetCell sd a b := by
  rw [tryGetCell_wf (wfGrid_gset hsd x y c) a b, tryGetCell_wf hsd a b]
  by_cases hab : a < nx ∧ b < ny
  · rw [if_pos hab, if_pos hab, gget_gset_ne h]
  · rw [if_neg hab, if_neg hab]

/-- The pressure contributions that the neighbour loop collects from a list
of scan coordinates: one entry per bounds-checked `FluidCell` hit. -/
def bp_reads (sd : Grid) (l : List (ℕ × ℕ)) : List ℚ :=
  l.filterMap fun q =>
    match tryGetCell sd q.1 q.2 with
    | some cell =>
      match cell.cell_type with
      | CellType.FluidCell => some cell.pressure
      | _ => none
    | none => none

/-- The pressure contributions of the whole neighbour scan at `(x, y)`. -/
def bp_contribs (sd : Grid) (x y : ℕ) : List ℚ := bp_reads sd (neighboring_cells x y)

theorem bp_reads_gset_ne {nx ny : ℕ} {sd : Grid} (hsd : wfGrid nx ny sd) {x y : ℕ}
    (l : List (ℕ × ℕ)) (hne : ∀ q ∈ l, ¬(q.1 = x ∧ q.2 = y)) (c : Cell) :
    bp_reads (gset sd x y c) l = bp_reads sd l := by
  unfold bp_reads
  induction l with
  | nil => rfl
  | cons q t ih =>
    simp only [List.filterMap_cons]
    rw [tryGetCell_gset_ne hsd (hne q (List.mem_cons_self _ _)) c,
      ih (fun q' hq' => hne q' (List.mem_cons_of_mem _ hq'))]

theorem bpStep_foldl (nx ny x y : ℕ) (hx : x < nx) (hy : y < ny)
    (l : List (ℕ × ℕ)) (hne : ∀ q ∈ l, ¬(q.1 = x ∧ q.2 = y)) :
    ∀ (g : Grid) (n : ℕ), wfGrid nx ny g →
    wfGrid nx ny (l.foldl (bpStep x y) (g, n)).1 ∧
    (∀ a b, ¬(a = x ∧ b = y) →
      gget (l.foldl (bpStep x y) (g, n)).1 a b = gget g a b) ∧
    gget (l.foldl (bpStep x y) (g, n)).1 x y =
      { gget g x y with pressure := (gget g x y).pressure + (bp_reads g l).sum } ∧
    (l.foldl (bpStep x y) (g, n)).2 = n + (bp_reads g l).length := by
  induction l with
  | nil =>
    intro g n hwf
    refine ⟨hwf, fun a b _ => rfl, ?_, rfl⟩
    simp [bp_reads]
  | cons q t ih =>
    intro g n hwf
    have hqne : ¬(q.1 = x ∧ q.2 = y) := hne q (List.mem_cons_self _ _)
    have hne' : ∀ q' ∈ t, ¬(q'.1 = x ∧ q'.2 = y) :=
      fun q' hq' => hne q' (List.mem_cons_of_mem _ hq')
    simp only [List.foldl_cons]
    rcases htq : tryGetCell g q.1 q.2 with _ | cell
    · have hstep : bpStep x y (g, n) q = (g, n) := by
        simp only [bpStep, htq]
      rw [hstep]
      obtain ⟨h1, h2, h3, h4⟩ := ih hne' g n hwf
      exact ⟨h1, h2, by rw [h3]; simp [bp_reads, List.filterMap_cons, htq],
        by rw [h4]; simp [bp_reads, List.filterMap_cons, htq]⟩
    · rcases hcell : cell.cell_type with _ | k | _
      · have hstep : bpStep x y (g, n) q =
            (gmod g x y fun c => { c with pressure := c.pressure + cell.pressure }, n + 1) := by
          simp only [bpStep, htq, hcell]
        rw [hstep]
        have hwf1 : wfGrid nx ny (gmod g x y fun c =>
            { c with pressure := c.pressure + cell.pressure }) := wfGrid_gset hwf _ _ _
        obtain ⟨h1, h2, h3, h4⟩ := ih hne' _ (n + 1) hwf1
        have hctr : gget (gmod g x y fun c =>
            { c with pressure := c.pressure + cell.pressure }) x y =
            { gget g x y with pressure := (gget g x y).pressure + cell.pressure } :=
          gget_gset_wf hwf hx hy _
        have hreads : bp_reads (gmod g x y fun c =>
            { c with pressure := c.pressure + cell.pressure }) t = bp_reads g t :=
          bp_reads_gset_ne hwf t hne' _
        refine ⟨h1, ?_, ?_, ?_⟩
        · intro a b hab
          exact (h2 a b hab).trans (gget_gset_ne hab)
        · rw [h3, hreads, hctr]
          simp [bp_reads, List.filterMap_cons, htq, hcell, add_assoc]
        · rw [h4, hreads]
          simp [bp_reads, List.filterMap_cons, htq, hcell, Nat.add_assoc, Nat.add_comm 1]
      · have hstep : bpStep x y (g, n) q = (g, n) := by
          simp only [bpStep, htq, hcell]
        rw [hstep]
        obtain ⟨h1, h2, h3, h4⟩ := ih hne' g n hwf
        exact ⟨h1, h2, by rw [h3]; simp [bp_reads, List.filterMap_cons, htq, hcell],
          by rw [h4]; simp [bp_reads, List.filterMap_cons, htq, hcell]⟩
      · have hstep : bpStep x y (g, n) q = (g, n) := by
          simp only [bpStep, htq, hcell]
        rw [hstep]
        obtain ⟨h1, h2, h3, h4⟩ := ih hne' g n hwf
        exact ⟨h1, h2, by rw [h3]; simp [bp_reads, List.filterMap_cons, htq, hcell],
          by rw [h4]; simp [bp_reads, List.filterMap_cons, htq, hcell]⟩

theorem gget_gmod_wf {nx ny : ℕ} {sd : Grid} (hsd : wfGrid nx ny sd) {x y : ℕ}
    (hx : x < nx) (hy : y < ny) (h : Cell → Cell) :
    gget (gmod sd x y h) x y = h (gget sd x y) :=
  gget_gset_wf hsd hx hy _

theorem wfGrid_gmod {nx ny : ℕ} {sd : Grid} (hsd : wfGrid nx ny sd) (x y : ℕ)
    (h : Cell → Cell) : wfGrid nx ny (gmod sd x y h) :=
  wfGrid_gset hsd x y _

theorem neighboring_cells_ne (x y : ℕ) :
    ∀ q ∈ neighboring_cells x y, ¬(q.1 = x ∧ q.2 = y) := by
  intro q hq
  simp only [neighboring_cells, List.mem_cons, List.not_mem_nil, or_false] at hq
  rcases hq with rfl | rfl | rfl | rfl
  · rintro ⟨h1, -⟩
    revert h1
    unfold wrapping_sub1 USIZE_MAX
    by_cases hx0 : x = 0
    · rw [if_pos hx0]
      subst hx0
      norm_num
    · rw [if_neg hx0]
      omega
  · rintro ⟨h1, -⟩
    omega
  · rintro ⟨-, h2⟩
    revert h2
    unfold wrapping_sub1 USIZE_MAX
    by_cases hy0 : y = 0
    · rw [if_pos hy0]
      subst hy0
      norm_num
    · rw [if_neg hy0]
      omega
  · rintro ⟨-, h2⟩
    omega

/-- The per-cell effect of `update_pressures_for_boundary_cells`: a boundary
cell's pressure becomes the accumulated fluid-neighbour pressure sum divided
by the count when the count is nonzero, and stays at the freshly written `0`
otherwise (the division is never executed with a zero count). -/
def bpUpd (x y : ℕ) (sd : Grid) (c : Cell) : Cell :=
  match c.cell_type with
  | CellType.BoundaryConditionCell _ =>
    if (bp_contribs sd x y).length ≠ 0 then
      { c with pressure := (bp_contribs sd x y).sum / ((bp_contribs sd x y).length : ℚ) }
    else { c with pressure := 0 }
  | _ => c

theorem update_pressures_body_write (nx ny : ℕ) (x y : ℕ) (sd : Grid)
    (hx : x < nx) (hy : y < ny) (hsd : wfGrid nx ny sd) :
    gget (update_pressures_body x y sd) x y = bpUpd x y sd (gget sd x y) := by
  have hwf0 : wfGrid nx ny (gmod sd x y fun c => { c with pressure := 0 }) :=
    wfGrid_gmod hsd x y _
  obtain ⟨hfw, hff, hfc, hfn⟩ := bpStep_foldl nx ny x y hx hy (neighboring_cells x y)
    (neighboring_cells_ne x y) (gmod sd x y fun c => { c with pressure := 0 }) 0 hwf0
  have hreads0 : bp_reads (gmod sd x y fun c => { c with pressure := 0 })
      (neighboring_cells x y) = bp_reads sd (neighboring_cells x y) :=
    bp_reads_gset_ne hsd _ (neighboring_cells_ne x y) _
  have hctr0 : gget (gmod sd x y fun c => { c with pressure := 0 }) x y =
      { gget sd x y with pressure := 0 } := gget_gmod_wf hsd hx hy _
  rw [hreads0, hctr0] at hfc
  rw [hreads0] at hfn
  unfold update_pressures_body bpUpd bp_contribs
  rcases hct : (gget sd x y).cell_type with _ | k | _ <;> simp only [hct]
  case BoundaryConditionCell =>
    rw [hfn]
    simp only [Nat.zero_add]
    by_cases hc : (bp_reads sd (neighboring_cells x y)).length ≠ 0
    · rw [if_pos hc, if_pos hc, gget_gmod_wf hfw hx hy, hfc]
      simp [hct]
    · rw [if_neg hc, if_neg hc, hfc]
      have hnil : bp_reads sd (neighboring_cells x y) = [] :=
        List.length_eq_zero.mp (Nat.eq_zero_of_not_pos
          (fun hpos => hc (Nat.pos_iff_ne_zero.mp hpos)))
      rw [hnil]
      simp [hct]

theorem update_pressures_body_frame (nx ny : ℕ) (x y a b : ℕ) (sd : Grid)
    (hx : x < nx) (hy : y < ny) (hsd : wfGrid nx ny sd) (hab : ¬(a = x ∧ b = y)) :
    gget (update_pressures_body x y sd) a b = gget sd a b := by
  have hwf0 : wfGrid nx ny (gmod sd x y fun c => { c with pressure := 0 }) :=
    wfGrid_gmod hsd x y _
  obtain ⟨hfw, hff, hfc, hfn⟩ := bpStep_foldl nx ny x y hx hy (neighboring_cells x y)
    (neighboring_cells_ne x y) (gmod sd x y fun c => { c with pressure := 0 }) 0 hwf0
  unfold update_pressures_body
  rcases hct : (gget sd x y).cell_type with _ | k | _ <;> simp only [hct]
  case BoundaryConditionCell =>
    split
    · exact (gget_gset_ne hab).trans ((hff a b hab).trans (gget_gset_ne hab))
    · exact (hff a b hab).trans (gget_gset_ne hab)
  all_goals rfl

theorem update_pressures_body_wf (nx ny : ℕ) (x y : ℕ) (sd : Grid)
    (hx : x < nx) (hy : y < ny) (hsd : wfGrid nx ny sd) :
    wfGrid nx ny (update_pressures_body x y sd) := by
  have hwf0 : wfGrid nx ny (gmod sd x y fun c => { c with pressure := 0 }) :=
    wfGrid_gmod hsd x y _
  obtain ⟨hfw, _, _, _⟩ := bpStep_foldl nx ny x y hx hy (neighboring_cells x y)
    (neighboring_cells_ne x y) (gmod sd x y fun c => { c with pressure := 0 }) 0 hwf0
  unfold update_pressures_body
  rcases hct : (gget sd x y).cell_type with _ | k | _ <;> simp only [hct]
  case BoundaryConditionCell =>
    split
    · exact wfGrid_gset hfw _ _ _
    · exact hfw
  all_goals exact hsd

/-- The `(cell_type, fluid pressure)` view read by the boundary-pressure
refresh: non-fluid pressures are irrelevant to it. -/
def bpView (sd : Grid) : ℕ → ℕ → CellType × ℚ :=
  fun a b => ((gget sd a b).cell_type,
    match (gget sd a b).cell_type with
    | CellType.FluidCell => (gget sd a b).pressure
    | _ => 0)

theorem bpUpd_preserves_type (x y : ℕ) (sd : Grid) (c : Cell) :
    (bpUpd x y sd c).cell_type = c.cell_type := by
  unfold bpUpd
  rcases hct : c.cell_type with _ | k | _ <;> simp only [hct] <;> try split
  all_goals simp [hct]

theorem update_pressures_body_view (nx ny : ℕ) (x y : ℕ) (sd : Grid)
    (hx : x < nx) (hy : y < ny) (hsd : wfGrid nx ny sd) :
    bpView (update_pressures_body x y sd) = bpView sd := by
  funext a b
  by_cases hab : a = x ∧ b = y
  · obtain ⟨rfl, rfl⟩ := hab
    unfold bpView
    rw [update_pressures_body_write nx ny a b sd hx hy hsd]
    rw [bpUpd_preserves_type]
    unfold bpUpd
    rcases hct : (gget sd a b).cell_type with _ | k | _ <;> simp only [hct] <;> try split
    all_goals simp [hct]
  · unfold bpView
    rw [update_pressures_body_frame nx ny x y a b sd hx hy hsd hab]

theorem bp_contribs_congr (nx ny : ℕ) (sd sd' : Grid) (hsd : wfGrid nx ny sd)
    (hsd' : wfGrid nx ny sd') (h : bpView sd = bpView sd') (x y : ℕ) :
    bp_contribs sd x y = bp_contribs sd' x y := by
  have key : ∀ a b : ℕ,
      (match tryGetCell sd a b with
       | some cell =>
         match cell.cell_type with
         | CellType.FluidCell => some cell.pressure
         | _ => none
       | none => none) =
      (match tryGetCell sd' a b with
       | some cell =>
         match cell.cell_type with
         | CellType.FluidCell => some cell.pressure
         | _ => none
       | none => none) := by
    intro a b
    have ht : (gget sd a b).cell_type = (gget sd' a b).cell_type :=
      congrArg Prod.fst (congrFun (congrFun h a) b)
    have hp := congrArg Prod.snd (congrFun (congrFun h a) b)
    rw [tryGetCell_wf hsd a b, tryGetCell_wf hsd' a b]
    by_cases hin : a < nx ∧ b < ny
    · rw [if_pos hin, if_pos hin]
      rcases hct : (gget sd a b).cell_type with _ | k | _ <;>
        have ht2 : (gget sd' a b).cell_type = (gget sd a b).cell_type := ht.symm <;>
        rw [hct] at ht2 <;> simp only [hct, ht2]
      unfold bpView at hp
      simp only [hct, ht2] at hp
      rw [hp]
    · rw [if_neg hin, if_neg hin]
  unfold bp_contribs bp_reads neighboring_cells
  simp only [List.filterMap_cons, List.filterMap_nil]
  rw [key (wrapping_sub1 x) y, key (x + 1) y, key x (wrapping_sub1 y), key x (y + 1)]

theorem bpUpd_congr (nx ny : ℕ) (x y : ℕ) (sd sd' : Grid) (hsd : wfGrid nx ny sd)
    (hsd' : wfGrid nx ny sd') (h : bpView sd = bpView sd') (c : Cell) :
    bpUpd x y sd c = bpUpd x y sd' c := by
  unfold bpUpd
  rw [bp_contribs_congr nx ny sd sd' hsd hsd' h x y]

theorem update_pressures_char (nx ny : ℕ) (sd : Grid) (hsd : wfGrid nx ny sd) :
    wfGrid nx ny (update_pressures_for_boundary_cells nx ny sd) ∧
    bpView (update_pressures_for_boundary_cells nx ny sd) = bpView sd ∧
    ∀ x y, gget (update_pressures_for_boundary_cells nx ny sd) x y =
      if x < nx ∧ y < ny then bpUpd x y sd (gget sd x y) else gget sd x y :=
  sweep_pointwise_g nx ny update_pressures_body bpView (fun x y sd c => bpUpd x y sd c)
    (fun x y sd hx hy h => update_pressures_body_wf nx ny x y sd hx hy h)
    (fun x y sd x' y' hx hy h hne => update_pressures_body_frame nx ny x y x' y' sd hx hy h hne)
    (fun x y sd hx hy h => update_pressures_body_write nx ny x y sd hx hy h)
    (fun x y sd hx hy h => update_pressures_body_view nx ny x y sd hx hy h)
    (fun x y sd sd' h h' hv c => bpUpd_congr nx ny x y sd sd' h h' hv c)
    sd hsd

/-- The spec's notion of the adjacent fluid pressures of `(x, y)`: the
pressures of the axis neighbours that exist on the grid and are
`FluidCell`s (left neighbour only when `x > 0`, bottom only when `y > 0`). -/
def adjacent_fluid_pressures (nx ny : ℕ) (sd : Grid) (x y : ℕ) : List ℚ :=
  ((if 0 < x then [(x - 1, y)] else []) ++ [(x + 1, y)] ++
   (if 0 < y then [(x, y - 1)] else []) ++ [(x, y + 1)]).filterMap
    fun q =>
      if q.1 < nx ∧ q.2 < ny then
        match (gget sd q.1 q.2).cell_type with
        | CellType.FluidCell => some (gget sd q.1 q.2).pressure
        | _ => none
      else none

theorem bp_contribs_eq_adjacent (nx ny : ℕ) (sd : Grid) (x y : ℕ) (hsd : wfGrid nx ny sd)
    (hnx : nx ≤ USIZE_MAX) (hny : ny ≤ USIZE_MAX) :
    bp_contribs sd x y = adjacent_fluid_pressures nx ny sd x y := by
  have hnsx : ¬USIZE_MAX < nx := Nat.not_lt.mpr hnx
  have hnsy : ¬USIZE_MAX < ny := Nat.not_lt.mpr hny
  have elem : ∀ a b : ℕ,
      (match tryGetCell sd a b with
       | some cell =>
         match cell.cell_type with
         | CellType.FluidCell => some cell.pressure
         | _ => none
       | none => none) =
      (if a < nx ∧ b < ny then
        match (gget sd a b).cell_type with
        | CellType.FluidCell => some (gget sd a b).pressure
        | _ => none
       else none) := by
    intro a b
    rw [tryGetCell_wf hsd a b]
    by_cases hin : a < nx ∧ b < ny
    · rw [if_pos hin, if_pos hin]
    · rw [if_neg hin, if_neg hin]
  unfold bp_contribs bp_reads neighboring_cells adjacent_fluid_pressures
  by_cases hx0 : 0 < x <;> by_cases hy0 : 0 < y <;>
    [rw [if_pos hx0, if_pos hy0]; rw [if_pos hx0, if_neg hy0];
     rw [if_neg hx0, if_pos hy0]; rw [if_neg hx0, if_neg hy0]] <;>
    simp only [List.cons_append, List.nil_append, List.singleton_append,
      List.filterMap_cons, List.filterMap_nil] <;>
    rw [elem, elem, elem, elem]
  · have hwx : wrapping_sub1 x = x - 1 := by
      unfold wrapping_sub1
      rw [if_neg (by omega)]
    have hwy : wrapping_sub1 y = y - 1 := by
      unfold wrapping_sub1
      rw [if_neg (by omega)]
    rw [hwx, hwy]
  · have hwx : wrapping_sub1 x = x - 1 := by
      unfold wrapping_sub1
      rw [if_neg (by omega)]
    have hwy : wrapping_sub1 y = USIZE_MAX := by
      unfold wrapping_sub1
      rw [if_pos (by omega)]
    have hc2 : ¬(x < nx ∧ USIZE_MAX < ny) := fun hc => hnsy hc.2
    rw [hwx, hwy]
    simp [hc2]
  · have hwx : wrapping_sub1 x = USIZE_MAX := by
      unfold wrapping_sub1
      rw [if_pos (by omega)]
    have hwy : wrapping_sub1 y = y - 1 := by
      unfold wrapping_sub1
      rw [if_neg (by omega)]
    have hc1 : ¬(USIZE_MAX < nx ∧ y < ny) := fun hc => hnsx hc.1
    rw [hwx, hwy]
    simp [hc1]
  · have hwx : wrapping_sub1 x = USIZE_MAX := by
      unfold wrapping_sub1
      rw [if_pos (by omega)]
    have hwy : wrapping_sub1 y = USIZE_MAX := by
      unfold wrapping_sub1
      rw [if_pos (by omega)]
    have hc1 : ¬(USIZE_MAX < nx ∧ y < ny) := fun hc => hnsx hc.1
    have hc2 : ¬(x < nx ∧ USIZE_MAX < ny) := fun hc => hnsy hc.2
    rw [hwx, hwy]
    simp [hc1, hc2]

/-- C7: after `update_pressures_for_boundary_cells`, every in-range
boundary cell's pressure equals the arithmetic mean (sum over count) of the
pressures of its adjacent `FluidCell`s, and is exactly `0` when it has
none — the count division sits behind a nonzero-count guard and is never
executed with a zero count.  (Fluid pressures are untouched by the sweep,
so the mean refers interchangeably to pre- or post-refresh values.) -/
theorem boundary_pressure_mean (nx ny x y : ℕ) (sd : Grid) (hsd : wfGrid nx ny sd)
    (hnx : nx ≤ USIZE_MAX) (hny : ny ≤ USIZE_MAX) (hx : x < nx) (hy : y < ny)
    (k : BoundaryConditionCell)
    (hbc : (gget sd x y).cell_type = CellType.BoundaryConditionCell k) :
    (adjacent_fluid_pressures nx ny sd x y = [] →
      (gget (update_pressures_for_boundary_cells nx ny sd) x y).pressure = 0) ∧
    (adjacent_fluid_pressures nx ny sd x y ≠ [] →
      (gget (update_pressures_for_boundary_cells nx ny sd) x y).pressure =
        (adjacent_fluid_pressures nx ny sd x y).sum /
          ((adjacent_fluid_pressures nx ny sd x y).length : ℚ)) := by
  have hchar := (update_pressures_char nx ny sd hsd).2.2 x y
  rw [if_pos ⟨hx, hy⟩] at hchar
  have heq := bp_contribs_eq_adjacent nx ny sd x y hsd hnx hny
  constructor <;> intro hP
  · rw [hchar]
    unfold bpUpd
    simp only [hbc, heq, hP]
    simp
  · rw [hchar]
    unfold bpUpd
    have hlen : (adjacent_fluid_pressures nx ny sd x y).length ≠ 0 :=
      fun h => hP (List.length_eq_zero.mp h)
    simp only [hbc, heq]
    rw [if_pos hlen]

theorem boundary_pressure_mean_witness :
    (gget (update_pressures_for_boundary_cells 3 3 wriGrid) 0 1).pressure =
      (adjacent_fluid_pressures 3 3 wriGrid 0 1).sum /
        ((adjacent_fluid_pressures 3 3 wriGrid 0 1).length : ℚ) ∧
    (gget (update_pressures_for_boundary_cells 3 3 wriGrid) 0 0).pressure = 0 :=
  ⟨(boundary_pressure_mean 3 3 0 1 wriGrid (by with_unfolding_all decide)
      (by norm_num [USIZE_MAX]) (by norm_num [USIZE_MAX]) (by norm_num) (by norm_num)
      BoundaryConditionCell.NoSlipCell (by with_unfolding_all decide)).2
    (by with_unfolding_all decide),
   (boundary_pressure_mean 3 3 0 0 wriGrid (by with_unfolding_all decide)
      (by norm_num [USIZE_MAX]) (by norm_num [USIZE_MAX]) (by norm_num) (by norm_num)
      BoundaryConditionCell.NoSlipCell (by with_unfolding_all decide)).1
    (by with_unfolding_all decide)⟩

/-- C8: the `(initial_pressure_norm, fluid_cell_count)` cache is computed at
most once per `Simulation`.  On a simulation with an unset cache, the
Poisson solve sets it to the RMS pressure over fluid cells and the
fluid-cell count of the grid at that moment; once the cache holds `(v, c)`,
`get_initial_pressure_norm` returns exactly `((v, c), sim)` — the unchanged
simulation, with no recomputation from the grid — and every later Poisson
solve preserves the cached pair. -/
theorem initial_pressure_norm_cached (sim : Simulation) (v : ℚ) (c : ℕ) :
    (sim.initial_pressure_norm = none →
      sim.solve_poisson_pressure_equation.initial_pressure_norm =
        some (sqrtQ (pressure_square_sum sim.space_domain.space_size.1
          sim.space_domain.space_size.2 sim.space_domain.space_domain /
          ((fluid_cell_count_of sim.space_domain.space_size.1
            sim.space_domain.space_size.2 sim.space_domain.space_domain : ℕ) : ℚ))) ∧
      sim.solve_poisson_pressure_equation.fluid_cell_count =
        some (fluid_cell_count_of sim.space_domain.space_size.1
          sim.space_domain.space_size.2 sim.space_domain.space_domain)) ∧
    (sim.initial_pressure_norm = some v → sim.fluid_cell_count = some c →
      sim.get_initial_pressure_norm = ((v, c), sim) ∧
      sim.solve_poisson_pressure_equation.initial_pressure_norm = some v ∧
      sim.solve_poisson_pressure_equation.fluid_cell_count = some c) := by
  constructor
  · intro h
    constructor <;>
      simp [Simulation.solve_poisson_pressure_equation, Simulation.get_initial_pressure_norm, h]
  · intro h hc
    refine ⟨?_, ?_, ?_⟩ <;>
      simp [Simulation.solve_poisson_pressure_equation, Simulation.get_initial_pressure_norm,
        h, hc]

/-- A one-fluid-cell simulation with a pre-set cache, witness input for the
cache behaviour. -/
def simW : Simulation :=
  { space_domain := { space_domain := wriGrid, space_size := (3, 3), delta_space := (1, 1) }
    delta_time := 1
    acceleration := (0, 0)
    reynolds := 1
    time := 0
    initial_pressure_norm := some 5
    fluid_cell_count := some 1 }

/-- `simW` with its cache cleared. -/
def simWnone : Simulation :=
  { simW with initial_pressure_norm := none, fluid_cell_count := none }

theorem initial_pressure_norm_cached_witness :
    simW.get_initial_pressure_norm = ((5, 1), simW) ∧
    simW.solve_poisson_pressure_equation.initial_pressure_norm = some 5 ∧
    simWnone.solve_poisson_pressure_equation.fluid_cell_count
      = some (fluid_cell_count_of 3 3 wriGrid) :=
  ⟨((initial_pressure_norm_cached simW 5 1).2 rfl rfl).1,
   ((initial_pressure_norm_cached simW 5 1).2 rfl rfl).2.1,
   ((initial_pressure_norm_cached simWnone 5 1).1 rfl).2⟩

/-- The fluid-cell coordinates of the grid, in raster order. -/
def fluidCoords (nx ny : ℕ) (sd : Grid) : List (ℕ × ℕ) :=
  (allCoords nx ny).filter fun p =>
    decide ((gget sd p.1 p.2).cell_type = CellType.FluidCell)

/-- The Poisson residual norm as the spec words it: the square root of the
mean over the fluid cells — not over all grid cells — of the squared
deviation of the discrete pressure Laplacian from `rhs`. -/
def residual_norm_spec (nx ny : ℕ) (dx dy : ℚ) (sd : Grid) : ℚ :=
  sqrtQ (((fluidCoords nx ny sd).map fun p => residual_term dx dy sd p.1 p.2).sum /
    ((fluidCoords nx ny sd).length : ℚ))

theorem residual_sum_eq_fluid_sum (nx ny : ℕ) (dx dy : ℚ) (sd : Grid) :
    residual_sum nx ny dx dy sd =
      ((fluidCoords nx ny sd).map fun p => residual_term dx dy sd p.1 p.2).sum := by
  unfold residual_sum fluidCoords
  have key : ∀ (l : List (ℕ × ℕ)) (a : ℚ),
      l.foldl (fun a p => a + residual_term dx dy sd p.1 p.2) a =
        a + ((l.filter fun p =>
          decide ((gget sd p.1 p.2).cell_type = CellType.FluidCell)).map
            fun p => residual_term dx dy sd p.1 p.2).sum := by
    intro l
    induction l with
    | nil => intro a; simp
    | cons q t ih =>
      intro a
      simp only [List.foldl_cons, List.filter_cons]
      rcases hct : (gget sd q.1 q.2).cell_type with _ | k | _
      · simp only [hct, decide_eq_true_eq]
        rw [ih]
        simp [add_assoc]
      · have hterm : residual_term dx dy sd q.1 q.2 = 0 := by
          unfold residual_term
          rw [hct]
        rw [hterm, add_zero, ih]
        simp [hct]
      · have hterm : residual_term dx dy sd q.1 q.2 = 0 := by
          unfold residual_term
          rw [hct]
        rw [hterm, add_zero, ih]
        simp [hct]
  rw [key (allCoords nx ny) 0, zero_add]

theorem fluid_cell_count_eq_length (nx ny : ℕ) (sd : Grid) :
    fluid_cell_count_of nx ny sd = (fluidCoords nx ny sd).length := by
  unfold fluid_cell_count_of fluidCoords
  have key : ∀ (l : List (ℕ × ℕ)) (n : ℕ),
      l.foldl (fun n p =>
        match (gget sd p.1 p.2).cell_type with
        | CellType.FluidCell => n + 1
        | _ => n) n =
        n + (l.filter fun p =>
          decide ((gget sd p.1 p.2).cell_type = CellType.FluidCell)).length := by
    intro l
    induction l with
    | nil => intro n; simp
    | cons q t ih =>
      intro n
      simp only [List.foldl_cons, List.filter_cons]
      rcases hct : (gget sd q.1 q.2).cell_type with _ | k | _
      · simp only [hct]
        rw [ih]
        split
        · rw [List.length_cons]
          ring
        · rename_i hfalse
          exact absurd (by decide) hfalse
      · simp only [hct]
        rw [ih]
        split
        · rename_i htrue
          simp at htrue
        · rfl
      · simp only [hct]
        rw [ih]
        split
        · rename_i htrue
          simp at htrue
        · rfl
  rw [key (allCoords nx ny) 0, Nat.zero_add]

/-- C3: in every relaxation iteration of
`Simulation::solve_poisson_pressure_equation`, the convergence residual is
computed from the pressure field left by the previous sweep, before any
update of the current sweep, and equals the spec's
`sqrt(mean over FluidCells ((Lap p - rhs)^2))` — the mean over fluid cells,
not over all grid cells — provided the cached count is the grid's
fluid-cell count; and the loop returns its input unchanged (performing no
boundary refresh and no SOR sweep) as soon as that residual is below
`POISSON_EPSILON` or below `initial_pressure_norm * POISSON_EPSILON`. -/
theorem poisson_residual_and_stop (nx ny : ℕ) (dx dy norm : ℚ) (count : ℕ) (sd : Grid)
    (hcount : count = fluid_cell_count_of nx ny sd) :
    sqrtQ (residual_sum nx ny dx dy sd / (count : ℚ)) = residual_norm_spec nx ny dx dy sd ∧
    ∀ fuel : ℕ,
      (residual_norm_spec nx ny dx dy sd < POISSON_EPSILON ∨
       residual_norm_spec nx ny dx dy sd < norm * POISSON_EPSILON) →
      poissonLoopSim nx ny dx dy norm count fuel sd = sd := by
  have hres : sqrtQ (residual_sum nx ny dx dy sd / (count : ℚ)) =
      residual_norm_spec nx ny dx dy sd := by
    unfold residual_norm_spec
    rw [residual_sum_eq_fluid_sum, hcount, fluid_cell_count_eq_length]
  refine ⟨hres, ?_⟩
  intro fuel hstop
  cases fuel with
  | zero => rfl
  | succ n =>
    unfold poissonLoopSim
    rw [hres, if_pos hstop]

/-- A one-fluid-cell all-zero grid: its Poisson residual is `0`, witness
input for the stop condition. -/
def zeroFluidGrid : Grid := [[{ cell_type := CellType.FluidCell }]]

theorem poisson_residual_and_stop_witness :
    (1 = fluid_cell_count_of 1 1 zeroFluidGrid ∧
      (residual_norm_spec 1 1 1 1 zeroFluidGrid < POISSON_EPSILON ∨
       residual_norm_spec 1 1 1 1 zeroFluidGrid < 0 * POISSON_EPSILON)) ∧
    sqrtQ (residual_sum 1 1 1 1 zeroFluidGrid / (1 : ℚ)) =
      residual_norm_spec 1 1 1 1 zeroFluidGrid ∧
    poissonLoopSim 1 1 1 1 0 1 ITR_MAX zeroFluidGrid = zeroFluidGrid :=
  ⟨⟨by with_unfolding_all decide, by with_unfolding_all decide⟩,
   (poisson_residual_and_stop 1 1 1 1 0 1 zeroFluidGrid (by with_unfolding_all decide)).1,
   (poisson_residual_and_stop 1 1 1 1 0 1 zeroFluidGrid (by with_unfolding_all decide)).2
     ITR_MAX (by with_unfolding_all decide)⟩

theorem gget_gmod_ne {sd : Grid} {x y a b : ℕ} {f : Cell → Cell}
    (h : ¬(a = x ∧ b = y)) : gget (gmod sd x y f) a b = gget sd a b :=
  gget_gset_ne h

theorem gmod_proj_frame {β : Type _} (proj : Cell → β) (sd : Grid) (x y : ℕ)
    (f : Cell → Cell) (h : ∀ c, proj (f c) = proj c) (a b : ℕ) :
    proj (gget (gmod sd x y f) a b) = proj (gget sd a b) := by
  by_cases hab : a = x ∧ b = y
  · obtain ⟨rfl, rfl⟩ := hab
    rcases gget_gset_cases sd a b a b (f (gget sd a b)) with hc | hc <;>
      unfold gmod <;> rw [hc]
    exact h _
  · rw [gget_gmod_ne hab]

theorem bcAverage_velocity (x y : ℕ) (p : Grid × ℕ) (a b : ℕ) :
    (gget (bcAverage x y p) a b).velocity = (gget p.1 a b).velocity := by
  unfold bcAverage
  split
  · exact gmod_proj_frame Cell.velocity p.1 x y
      (fun c => { c with pressure := c.pressure / (p.2 : ℚ) }) (fun c => rfl) a b
  · rfl

theorem bcAverage_frame (x y : ℕ) (p : Grid × ℕ) (a b : ℕ) (hab : ¬(a = x ∧ b = y)) :
    gget (bcAverage x y p) a b = gget p.1 a b := by
  unfold bcAverage
  split
  · exact gget_gmod_ne hab
  · rfl

theorem presZero_wf {nx ny x y : ℕ} {sd : Grid} (h : wfGrid nx ny sd) :
    wfGrid nx ny (gmod sd x y presZero) := wfGrid_gmod h _ _ _

theorem presZero_ne {x y : ℕ} {sd : Grid} {a b : ℕ} (h : ¬(a = x ∧ b = y)) :
    gget (gmod sd x y presZero) a b = gget sd a b := gget_gmod_ne h

theorem presZero_type {x y : ℕ} {sd : Grid} {a b : ℕ} :
    (gget (gmod sd x y presZero) a b).cell_type = (gget sd a b).cell_type :=
  gmod_proj_frame Cell.cell_type sd x y presZero (fun c => rfl) a b

theorem presZero_bcv {x y : ℕ} {sd : Grid} {a b : ℕ} :
    (gget (gmod sd x y presZero) a b).boundary_condition_velocity =
      (gget sd a b).boundary_condition_velocity :=
  gmod_proj_frame Cell.boundary_condition_velocity sd x y presZero (fun c => rfl) a b

theorem presZero_vel {x y : ℕ} {sd : Grid} {a b : ℕ} :
    (gget (gmod sd x y presZero) a b).velocity = (gget sd a b).velocity :=
  gmod_proj_frame Cell.velocity sd x y presZero (fun c => rfl) a b

theorem nslL1_wf {nx ny x y : ℕ} {g : Grid} (h : wfGrid nx ny g) :
    wfGrid nx ny (nslL1 x y g) := wfGrid_gmod h _ _ _

theorem nslL1_ne {x y : ℕ} {g : Grid} {a b : ℕ} (h : ¬(a = x - 1 ∧ b = y)) :
    gget (nslL1 x y g) a b = gget g a b := gget_gmod_ne h

theorem nslL1_type {x y : ℕ} {g : Grid} {a b : ℕ} :
    (gget (nslL1 x y g) a b).cell_type = (gget g a b).cell_type :=
  gmod_proj_frame Cell.cell_type g (x - 1) (y) nslL1f (fun c => rfl) a b

theorem nslL1_bcv {x y : ℕ} {g : Grid} {a b : ℕ} :
    (gget (nslL1 x y g) a b).boundary_condition_velocity =
      (gget g a b).boundary_condition_velocity :=
  gmod_proj_frame Cell.boundary_condition_velocity g (x - 1) (y) nslL1f (fun c => rfl) a b

theorem nslL1_at {nx ny : ℕ} {g : Grid} {x y : ℕ} (hwf : wfGrid nx ny g)
    (hx : x - 1 < nx) (hy : y < ny) :
    gget (nslL1 x y g) (x - 1) (y) = nslL1f (gget g (x - 1) (y)) :=
  gget_gmod_wf hwf hx hy _

theorem nslL2_wf {nx ny x y : ℕ} {g : Grid} (h : wfGrid nx ny g) :
    wfGrid nx ny (nslL2 x y g) := wfGrid_gmod h _ _ _

theorem nslL2_ne {x y : ℕ} {g : Grid} {a b : ℕ} (h : ¬(a = x ∧ b = y)) :
    gget (nslL2 x y g) a b = gget g a b := gget_gmod_ne h

theorem nslL2_type {x y : ℕ} {g : Grid} {a b : ℕ} :
    (gget (nslL2 x y g) a b).cell_type = (gget g a b).cell_type :=
  gmod_proj_frame Cell.cell_type g (x) (y) (nslL2f x y g) (fun c => rfl) a b

theorem nslL2_bcv {x y : ℕ} {g : Grid} {a b : ℕ} :
    (gget (nslL2 x y g) a b).boundary_condition_velocity =
      (gget g a b).boundary_condition_velocity :=
  gmod_proj_frame Cell.boundary_condition_velocity g (x) (y) (nslL2f x y g) (fun c => rfl) a b

theorem nslL2_at {nx ny : ℕ} {g : Grid} {x y : ℕ} (hwf : wfGrid nx ny g)
    (hx : x < nx) (hy : y < ny) :
    gget (nslL2 x y g) (x) (y) = (nslL2f x y g) (gget g (x) (y)) :=
  gget_gmod_wf hwf hx hy _

theorem nslL3_wf {nx ny x y : ℕ} {g : Grid} (h : wfGrid nx ny g) :
    wfGrid nx ny (nslL3 x y g) := wfGrid_gmod h _ _ _

theorem nslL3_ne {x y : ℕ} {g : Grid} {a b : ℕ} (h : ¬(a = x ∧ b = y)) :
    gget (nslL3 x y g) a b = gget g a b := gget_gmod_ne h

theorem nslL3_type {x y : ℕ} {g : Grid} {a b : ℕ} :
    (gget (nslL3 x y g) a b).cell_type = (gget g a b).cell_type :=
  gmod_proj_frame Cell.cell_type g (x) (y) (nslL3f x y g) (fun c => rfl) a b

theorem nslL3_bcv {x y : ℕ} {g : Grid} {a b : ℕ} :
    (gget (nslL3 x y g) a b).boundary_condition_velocity =
      (gget g a b).boundary_condition_velocity :=
  gmod_proj_frame Cell.boundary_condition_velocity g (x) (y) (nslL3f x y g) (fun c => rfl) a b

theorem nslL3_at {nx ny : ℕ} {g : Grid} {x y : ℕ} (hwf : wfGrid nx ny g)
    (hx : x < nx) (hy : y < ny) :
    gget (nslL3 x y g) (x) (y) = (nslL3f x y g) (gget g (x) (y)) :=
  gget_gmod_wf hwf hx hy _

theorem nslL3_vel {x y : ℕ} {g : Grid} {a b : ℕ} :
    (gget (nslL3 x y g) a b).velocity = (gget g a b).velocity :=
  gmod_proj_frame Cell.velocity g (x) (y) (nslL3f x y g) (fun c => rfl) a b

theorem nslL4_wf {nx ny x y : ℕ} {g : Grid} (h : wfGrid nx ny g) :
    wfGrid nx ny (nslL4 x y g) := wfGrid_gmod h _ _ _

theorem nslL4_ne {x y : ℕ} {g : Grid} {a b : ℕ} (h : ¬(a = x - 1 ∧ b = y)) :
    gget (nslL4 x y g) a b = gget g a b := gget_gmod_ne h

theorem nslL4_type {x y : ℕ} {g : Grid} {a b : ℕ} :
    (gget (nslL4 x y g) a b).cell_type = (gget g a b).cell_type :=
  gmod_proj_frame Cell.cell_type g (x - 1) (y) bcSetF (fun c => rfl) a b

theorem nslL4_bcv {x y : ℕ} {g : Grid} {a b : ℕ} :
    (gget (nslL4 x y g) a b).boundary_condition_velocity =
      (gget g a b).boundary_condition_velocity :=
  gmod_proj_frame Cell.boundary_condition_velocity g (x - 1) (y) bcSetF (fun c => rfl) a b

theorem nslL4_at {nx ny : ℕ} {g : Grid} {x y : ℕ} (hwf : wfGrid nx ny g)
    (hx : x - 1 < nx) (hy : y < ny) :
    gget (nslL4 x y g) (x - 1) (y) = bcSetF (gget g (x - 1) (y)) :=
  gget_gmod_wf hwf hx hy _

theorem nslL4_vel {x y : ℕ} {g : Grid} {a b : ℕ} :
    (gget (nslL4 x y g) a b).velocity = (gget g a b).velocity :=
  gmod_proj_frame Cell.velocity g (x - 1) (y) bcSetF (fun c => rfl) a b

theorem nslR1_wf {nx ny x y : ℕ} {g : Grid} (h : wfGrid nx ny g) :
    wfGrid nx ny (nslR1 x y g) := wfGrid_gmod h _ _ _

theorem nslR1_ne {x y : ℕ} {g : Grid} {a b : ℕ} (h : ¬(a = x ∧ b = y)) :
    gget (nslR1 x y g) a b = gget g a b := gget_gmod_ne h

theorem nslR1_type {x y : ℕ} {g : Grid} {a b : ℕ} :
    (gget (nslR1 x y g) a b).cell_type = (gget g a b).cell_type :=
  gmod_proj_frame Cell.cell_type g (x) (y) (nslR1f x y g) (fun c => rfl) a b

theorem nslR1_bcv {x y : ℕ} {g : Grid} {a b : ℕ} :
    (gget (nslR1 x y g) a b).boundary_condition_velocity =
      (gget g a b).boundary_condition_velocity :=
  gmod_proj_frame Cell.boundary_condition_velocity g (x) (y) (nslR1f x y g) (fun c => rfl) a b

theorem nslR1_at {nx ny : ℕ} {g : Grid} {x y : ℕ} (hwf : wfGrid nx ny g)
    (hx : x < nx) (hy : y < ny) :
    gget (nslR1 x y g) (x) (y) = (nslR1f x y g) (gget g (x) (y)) :=
  gget_gmod_wf hwf hx hy _

theorem nslR2_wf {nx ny x y : ℕ} {g : Grid} (h : wfGrid nx ny g) :
    wfGrid nx ny (nslR2 x y g) := wfGrid_gmod h _ _ _

theorem nslR2_ne {x y : ℕ} {g : Grid} {a b : ℕ} (h : ¬(a = x ∧ b = y)) :
    gget (nslR2 x y g) a b = gget g a b := gget_gmod_ne h

theorem nslR2_type {x y : ℕ} {g : Grid} {a b : ℕ} :
    (gget (nslR2 x y g) a b).cell_type = (gget g a b).cell_type :=
  gmod_proj_frame Cell.cell_type g (x) (y) (nslR2f x y g) (fun c => rfl) a b

theorem nslR2_bcv {x y : ℕ} {g : Grid} {a b : ℕ} :
    (gget (nslR2 x y g) a b).boundary_condition_velocity =
      (gget g a b).boundary_condition_velocity :=
  gmod_proj_frame Cell.boundary_condition_velocity g (x) (y) (nslR2f x y g) (fun c => rfl) a b

theorem nslR2_at {nx ny : ℕ} {g : Grid} {x y : ℕ} (hwf : wfGrid nx ny g)
    (hx : x < nx) (hy : y < ny) :
    gget (nslR2 x y g) (x) (y) = (nslR2f x y g) (gget g (x) (y)) :=
  gget_gmod_wf hwf hx hy _

theorem nslR2_vel {x y : ℕ} {g : Grid} {a b : ℕ} :
    (gget (nslR2 x y g) a b).velocity = (gget g a b).velocity :=
  gmod_proj_frame Cell.velocity g (x) (y) (nslR2f x y g) (fun c => rfl) a b

theorem nslR3_wf {nx ny x y : ℕ} {g : Grid} (h : wfGrid nx ny g) :
    wfGrid nx ny (nslR3 x y g) := wfGrid_gmod h _ _ _

theorem nslR3_ne {x y : ℕ} {g : Grid} {a b : ℕ} (h : ¬(a = x ∧ b = y)) :
    gget (nslR3 x y g) a b = gget g a b := gget_gmod_ne h

theorem nslR3_type {x y : ℕ} {g : Grid} {a b : ℕ} :
    (gget (nslR3 x y g) a b).cell_type = (gget g a b).cell_type :=
  gmod_proj_frame Cell.cell_type g (x) (y) bcSetF (fun c => rfl) a b

theorem nslR3_bcv {x y : ℕ} {g : Grid} {a b : ℕ} :
    (gget (nslR3 x y g) a b).boundary_condition_velocity =
      (gget g a b).boundary_condition_velocity :=
  gmod_proj_frame Cell.boundary_condition_velocity g (x) (y) bcSetF (fun c => rfl) a b

theorem nslR3_at {nx ny : ℕ} {g : Grid} {x y : ℕ} (hwf : wfGrid nx ny g)
    (hx : x < nx) (hy : y < ny) :
    gget (nslR3 x y g) (x) (y) = bcSetF (gget g (x) (y)) :=
  gget_gmod_wf hwf hx hy _

theorem nslR3_vel {x y : ℕ} {g : Grid} {a b : ℕ} :
    (gget (nslR3 x y g) a b).velocity = (gget g a b).velocity :=
  gmod_proj_frame Cell.velocity g (x) (y) bcSetF (fun c => rfl) a b

theorem nslB1_wf {nx ny x y : ℕ} {g : Grid} (h : wfGrid nx ny g) :
    wfGrid nx ny (nslB1 x y g) := wfGrid_gmod h _ _ _

theorem nslB1_ne {x y : ℕ} {g : Grid} {a b : ℕ} (h : ¬(a = x ∧ b = y - 1)) :
    gget (nslB1 x y g) a b = gget g a b := gget_gmod_ne h

theorem nslB1_type {x y : ℕ} {g : Grid} {a b : ℕ} :
    (gget (nslB1 x y g) a b).cell_type = (gget g a b).cell_type :=
  gmod_proj_frame Cell.cell_type g (x) (y - 1) nslB1f (fun c => rfl) a b

theorem nslB1_bcv {x y : ℕ} {g : Grid} {a b : ℕ} :
    (gget (nslB1 x y g) a b).boundary_condition_velocity =
      (gget g a b).boundary_condition_velocity :=
  gmod_proj_frame Cell.boundary_condition_velocity g (x) (y - 1) nslB1f (fun c => rfl) a b

theorem nslB1_at {nx ny : ℕ} {g : Grid} {x y : ℕ} (hwf : wfGrid nx ny g)
    (hx : x < nx) (hy : y - 1 < ny) :
    gget (nslB1 x y g) (x) (y - 1) = nslB1f (gget g (x) (y - 1)) :=
  gget_gmod_wf hwf hx hy _

theorem nslB2_wf {nx ny x y : ℕ} {g : Grid} (h : wfGrid nx ny g) :
    wfGrid nx ny (nslB2 x y g) := wfGrid_gmod h _ _ _

theorem nslB2_ne {x y : ℕ} {g : Grid} {a b : ℕ} (h : ¬(a = x ∧ b = y)) :
    gget (nslB2 x y g) a b = gget g a b := gget_gmod_ne h

theorem nslB2_type {x y : ℕ} {g : Grid} {a b : ℕ} :
    (gget (nslB2 x y g) a b).cell_type = (gget g a b).cell_type :=
  gmod_proj_frame Cell.cell_type g (x) (y) (nslB2f x y g) (fun c => rfl) a b

theorem nslB2_bcv {x y : ℕ} {g : Grid} {a b : ℕ} :
    (gget (nslB2 x y g) a b).boundary_condition_velocity =
      (gget g a b).boundary_condition_velocity :=
  gmod_proj_frame Cell.boundary_condition_velocity g (x) (y) (nslB2f x y g) (fun c => rfl) a b

theorem nslB2_at {nx ny : ℕ} {g : Grid} {x y : ℕ} (hwf : wfGrid nx ny g)
    (hx : x < nx) (hy : y < ny) :
    gget (nslB2 x y g) (x) (y) = (nslB2f x y g) (gget g (x) (y)) :=
  gget_gmod_wf hwf hx hy _

theorem nslB3_wf {nx ny x y : ℕ} {g : Grid} (h : wfGrid nx ny g) :
    wfGrid nx ny (nslB3 x y g) := wfGrid_gmod h _ _ _

theorem nslB3_ne {x y : ℕ} {g : Grid} {a b : ℕ} (h : ¬(a = x ∧ b = y)) :
    gget (nslB3 x y g) a b = gget g a b := gget_gmod_ne h

theorem nslB3_type {x y : ℕ} {g : Grid} {a b : ℕ} :
    (gget (nslB3 x y g) a b).cell_type = (gget g a b).cell_type :=
  gmod_proj_frame Cell.cell_type g (x) (y) (nslB3f x y g) (fun c => rfl) a b

theorem nslB3_bcv {x y : ℕ} {g : Grid} {a b : ℕ} :
    (gget (nslB3 x y g) a b).boundary_condition_velocity =
      (gget g a b).boundary_condition_velocity :=
  gmod_proj_frame Cell.boundary_condition_velocity g (x) (y) (nslB3f x y g) (fun c => rfl) a b

theorem nslB3_at {nx ny : ℕ} {g : Grid} {x y : ℕ} (hwf : wfGrid nx ny g)
    (hx : x < nx) (hy : y < ny) :
    gget (nslB3 x y g) (x) (y) = (nslB3f x y g) (gget g (x) (y)) :=
  gget_gmod_wf hwf hx hy _

theorem nslB3_vel {x y : ℕ} {g : Grid} {a b : ℕ} :
    (gget (nslB3 x y g) a b).velocity = (gget g a b).velocity :=
  gmod_proj_frame Cell.velocity g (x) (y) (nslB3f x y g) (fun c => rfl) a b

theorem nslB4_wf {nx ny x y : ℕ} {g : Grid} (h : wfGrid nx ny g) :
    wfGrid nx ny (nslB4 x y g) := wfGrid_gmod h _ _ _

theorem nslB4_ne {x y : ℕ} {g : Grid} {a b : ℕ} (h : ¬(a = x ∧ b = y - 1)) :
    gget (nslB4 x y g) a b = gget g a b := gget_gmod_ne h

theorem nslB4_type {x y : ℕ} {g : Grid} {a b : ℕ} :
    (gget (nslB4 x y g) a b).cell_type = (gget g a b).cell_type :=
  gmod_proj_frame Cell.cell_type g (x) (y - 1) bcSetG (fun c => rfl) a b

theorem nslB4_bcv {x y : ℕ} {g : Grid} {a b : ℕ} :
    (gget (nslB4 x y g) a b).boundary_condition_velocity =
      (gget g a b).boundary_condition_velocity :=
  gmod_proj_frame Cell.boundary_condition_velocity g (x) (y - 1) bcSetG (fun c => rfl) a b

theorem nslB4_at {nx ny : ℕ} {g : Grid} {x y : ℕ} (hwf : wfGrid nx ny g)
    (hx : x < nx) (hy : y - 1 < ny) :
    gget (nslB4 x y g) (x) (y - 1) = bcSetG (gget g (x) (y - 1)) :=
  gget_gmod_wf hwf hx hy _

theorem nslB4_vel {x y : ℕ} {g : Grid} {a b : ℕ} :
    (gget (nslB4 x y g) a b).velocity = (gget g a b).velocity :=
  gmod_proj_frame Cell.velocity g (x) (y - 1) bcSetG (fun c => rfl) a b

theorem nslT1_wf {nx ny x y : ℕ} {g : Grid} (h : wfGrid nx ny g) :
    wfGrid nx ny (nslT1 x y g) := wfGrid_gmod h _ _ _

theorem nslT1_ne {x y : ℕ} {g : Grid} {a b : ℕ} (h : ¬(a = x ∧ b = y)) :
    gget (nslT1 x y g) a b = gget g a b := gget_gmod_ne h

theorem nslT1_type {x y : ℕ} {g : Grid} {a b : ℕ} :
    (gget (nslT1 x y g) a b).cell_type = (gget g a b).cell_type :=
  gmod_proj_frame Cell.cell_type g (x) (y) (nslT1f x y g) (fun c => rfl) a b

theorem nslT1_bcv {x y : ℕ} {g : Grid} {a b : ℕ} :
    (gget (nslT1 x y g) a b).boundary_condition_velocity =
      (gget g a b).boundary_condition_velocity :=
  gmod_proj_frame Cell.boundary_condition_velocity g (x) (y) (nslT1f x y g) (fun c => rfl) a b

theorem nslT1_at {nx ny : ℕ} {g : Grid} {x y : ℕ} (hwf : wfGrid nx ny g)
    (hx : x < nx) (hy : y < ny) :
    gget (nslT1 x y g) (x) (y) = (nslT1f x y g) (gget g (x) (y)) :=
  gget_gmod_wf hwf hx hy _

theorem nslT2_wf {nx ny x y : ℕ} {g : Grid} (h : wfGrid nx ny g) :
    wfGrid nx ny (nslT2 x y g) := wfGrid_gmod h _ _ _

theorem nslT2_ne {x y : ℕ} {g : Grid} {a b : ℕ} (h : ¬(a = x ∧ b = y)) :
    gget (nslT2 x y g) a b = gget g a b := gget_gmod_ne h

theorem nslT2_type {x y : ℕ} {g : Grid} {a b : ℕ} :
    (gget (nslT2 x y g) a b).cell_type = (gget g a b).cell_type :=
  gmod_proj_frame Cell.cell_type g (x) (y) (nslT2f x y g) (fun c => rfl) a b

theorem nslT2_bcv {x y : ℕ} {g : Grid} {a b : ℕ} :
    (gget (nslT2 x y g) a b).boundary_condition_velocity =
      (gget g a b).boundary_condition_velocity :=
  gmod_proj_frame Cell.boundary_condition_velocity g (x) (y) (nslT2f x y g) (fun c => rfl) a b

theorem nslT2_at {nx ny : ℕ} {g : Grid} {x y : ℕ} (hwf : wfGrid nx ny g)
    (hx : x < nx) (hy : y < ny) :
    gget (nslT2 x y g) (x) (y) = (nslT2f x y g) (gget g (x) (y)) :=
  gget_gmod_wf hwf hx hy _

theorem nslT2_vel {x y : ℕ} {g : Grid} {a b : ℕ} :
    (gget (nslT2 x y g) a b).velocity = (gget g a b).velocity :=
  gmod_proj_frame Cell.velocity g (x) (y) (nslT2f x y g) (fun c => rfl) a b

theorem nslT3_wf {nx ny x y : ℕ} {g : Grid} (h : wfGrid nx ny g) :
    wfGrid nx ny (nslT3 x y g) := wfGrid_gmod h _ _ _

theorem nslT3_ne {x y : ℕ} {g : Grid} {a b : ℕ} (h : ¬(a = x ∧ b = y)) :
    gget (nslT3 x y g) a b = gget g a b := gget_gmod_ne h

theorem nslT3_type {x y : ℕ} {g : Grid} {a b : ℕ} :
    (gget (nslT3 x y g) a b).cell_type = (gget g a b).cell_type :=
  gmod_proj_frame Cell.cell_type g (x) (y) bcSetG (fun c => rfl) a b

theorem nslT3_bcv {x y : ℕ} {g : Grid} {a b : ℕ} :
    (gget (nslT3 x y g) a b).boundary_condition_velocity =
      (gget g a b).boundary_condition_velocity :=
  gmod_proj_frame Cell.boundary_condition_velocity g (x) (y) bcSetG (fun c => rfl) a b

theorem nslT3_at {nx ny : ℕ} {g : Grid} {x y : ℕ} (hwf : wfGrid nx ny g)
    (hx : x < nx) (hy : y < ny) :
    gget (nslT3 x y g) (x) (y) = bcSetG (gget g (x) (y)) :=
  gget_gmod_wf hwf hx hy _

theorem nslT3_vel {x y : ℕ} {g : Grid} {a b : ℕ} :
    (gget (nslT3 x y g) a b).velocity = (gget g a b).velocity :=
  gmod_proj_frame Cell.velocity g (x) (y) bcSetG (fun c => rfl) a b

theorem noSlipLeftA_wf {nx ny x y : ℕ} {g : Grid} (h : wfGrid nx ny g) :
    wfGrid nx ny (noSlipLeftA x y g) :=
  nslL4_wf (nslL3_wf (nslL2_wf (nslL1_wf h)))

theorem noSlipLeftA_ne {x y : ℕ} {g : Grid} {a b : ℕ}
    (h1 : ¬(a = x - 1 ∧ b = y)) (h2 : ¬(a = x ∧ b = y)) :
    gget (noSlipLeftA x y g) a b = gget g a b := by
  unfold noSlipLeftA
  rw [nslL4_ne h1, nslL3_ne h2, nslL2_ne h2, nslL1_ne h1]

theorem noSlipLeftA_type {x y : ℕ} {g : Grid} {a b : ℕ} :
    (gget (noSlipLeftA x y g) a b).cell_type = (gget g a b).cell_type := by
  unfold noSlipLeftA
  rw [nslL4_type, nslL3_type, nslL2_type, nslL1_type]

theorem noSlipLeftA_bcv {x y : ℕ} {g : Grid} {a b : ℕ} :
    (gget (noSlipLeftA x y g) a b).boundary_condition_velocity =
      (gget g a b).boundary_condition_velocity := by
  unfold noSlipLeftA
  rw [nslL4_bcv, nslL3_bcv, nslL2_bcv, nslL1_bcv]

theorem noSlipLeftA_vel1 {nx ny x y : ℕ} {g : Grid} (hwf : wfGrid nx ny g)
    (hx0 : 0 < x) (hxm : x - 1 < nx) (hy : y < ny) :
    (gget (noSlipLeftA x y g) (x - 1) y).velocity.1 = 0 := by
  have hne : ¬(x - 1 = x ∧ y = y) := fun hc => absurd hc.1 (by omega)
  unfold noSlipLeftA
  rw [nslL4_vel, nslL3_vel, nslL2_ne hne, nslL1_at hwf hxm hy]
  rfl

theorem noSlipLeftA_vel2 {nx ny x y : ℕ} {g : Grid} (hwf : wfGrid nx ny g)
    (hx0 : 0 < x) (hx : x < nx) (hy : y < ny) :
    (gget (noSlipLeftA x y g) x y).velocity.2 =
      2 * (gget g x y).boundary_condition_velocity.2 - (gget g (x - 1) y).velocity.2 := by
  have hxm : x - 1 < nx := by omega
  unfold noSlipLeftA
  rw [nslL4_vel, nslL3_vel, nslL2_at (nslL1_wf hwf) hx hy]
  show 2 * (gget (nslL1 x y g) x y).boundary_condition_velocity.2 -
      (gget (nslL1 x y g) (x - 1) y).velocity.2 = _
  rw [nslL1_bcv, nslL1_at hwf hxm hy]
  rfl

theorem noSlipRightA_wf {nx ny x y : ℕ} {g : Grid} (h : wfGrid nx ny g) :
    wfGrid nx ny (noSlipRightA x y g) :=
  nslR3_wf (nslR2_wf (nslR1_wf h))

theorem noSlipRightA_ne {x y : ℕ} {g : Grid} {a b : ℕ} (h : ¬(a = x ∧ b = y)) :
    gget (noSlipRightA x y g) a b = gget g a b := by
  unfold noSlipRightA
  rw [nslR3_ne h, nslR2_ne h, nslR1_ne h]

theorem noSlipRightA_type {x y : ℕ} {g : Grid} {a b : ℕ} :
    (gget (noSlipRightA x y g) a b).cell_type = (gget g a b).cell_type := by
  unfold noSlipRightA
  rw [nslR3_type, nslR2_type, nslR1_type]

theorem noSlipRightA_bcv {x y : ℕ} {g : Grid} {a b : ℕ} :
    (gget (noSlipRightA x y g) a b).boundary_condition_velocity =
      (gget g a b).boundary_condition_velocity := by
  unfold noSlipRightA
  rw [nslR3_bcv, nslR2_bcv, nslR1_bcv]

theorem noSlipRightA_vel {nx ny x y : ℕ} {g : Grid} (hwf : wfGrid nx ny g)
    (hx : x < nx) (hy : y < ny) :
    (gget (noSlipRightA x y g) x y).velocity =
      (0, 2 * (gget g x y).boundary_condition_velocity.2 -
        (gget g (x + 1) y).velocity.2) := by
  unfold noSlipRightA
  rw [nslR3_vel, nslR2_vel, nslR1_at hwf hx hy]
  rfl

theorem noSlipBottomA_wf {nx ny x y : ℕ} {g : Grid} (h : wfGrid nx ny g) :
    wfGrid nx ny (noSlipBottomA x y g) :=
  nslB4_wf (nslB3_wf (nslB2_wf (nslB1_wf h)))

theorem noSlipBottomA_ne {x y : ℕ} {g : Grid} {a b : ℕ}
    (h1 : ¬(a = x ∧ b = y - 1)) (h2 : ¬(a = x ∧ b = y)) :
    gget (noSlipBottomA x y g) a b = gget g a b := by
  unfold noSlipBottomA
  rw [nslB4_ne h1, nslB3_ne h2, nslB2_ne h2, nslB1_ne h1]

theorem noSlipBottomA_type {x y : ℕ} {g : Grid} {a b : ℕ} :
    (gget (noSlipBottomA x y g) a b).cell_type = (gget g a b).cell_type := by
  unfold noSlipBottomA
  rw [nslB4_type, nslB3_type, nslB2_type, nslB1_type]

theorem noSlipBottomA_bcv {x y : ℕ} {g : Grid} {a b : ℕ} :
    (gget (noSlipBottomA x y g) a b).boundary_condition_velocity =
      (gget g a b).boundary_condition_velocity := by
  unfold noSlipBottomA
  rw [nslB4_bcv, nslB3_bcv, nslB2_bcv, nslB1_bcv]

theorem noSlipBottomA_vel2 {nx ny x y : ℕ} {g : Grid} (hwf : wfGrid nx ny g)
    (hy0 : 0 < y) (hx : x < nx) (hym : y - 1 < ny) :
    (gget (noSlipBottomA x y g) x (y - 1)).velocity.2 = 0 := by
  have hne : ¬(x = x ∧ y - 1 = y) := fun hc => absurd hc.2 (by omega)
  unfold noSlipBottomA
  rw [nslB4_vel, nslB3_vel, nslB2_ne hne, nslB1_at hwf hx hym]
  rfl

theorem noSlipBottomA_vel1 {nx ny x y : ℕ} {g : Grid} (hwf : wfGrid nx ny g)
    (hy0 : 0 < y) (hx : x < nx) (hy : y < ny) :
    (gget (noSlipBottomA x y g) x y).velocity.1 =
      2 * (gget g x y).boundary_condition_velocity.1 - (gget g x (y - 1)).velocity.1 := by
  have hym : y - 1 < ny := by omega
  unfold noSlipBottomA
  rw [nslB4_vel, nslB3_vel, nslB2_at (nslB1_wf hwf) hx hy]
  show 2 * (gget (nslB1 x y g) x y).boundary_condition_velocity.1 -
      (gget (nslB1 x y g) x (y - 1)).velocity.1 = _
  rw [nslB1_bcv, nslB1_at hwf hx hym]
  rfl

theorem noSlipTopA_wf {nx ny x y : ℕ} {g : Grid} (h : wfGrid nx ny g) :
    wfGrid nx ny (noSlipTopA x y g) :=
  nslT3_wf (nslT2_wf (nslT1_wf h))

theorem noSlipTopA_ne {x y : ℕ} {g : Grid} {a b : ℕ} (h : ¬(a = x ∧ b = y)) :
    gget (noSlipTopA x y g) a b = gget g a b := by
  unfold noSlipTopA
  rw [nslT3_ne h, nslT2_ne h, nslT1_ne h]

theorem noSlipTopA_type {x y : ℕ} {g : Grid} {a b : ℕ} :
    (gget (noSlipTopA x y g) a b).cell_type = (gget g a b).cell_type := by
  unfold noSlipTopA
  rw [nslT3_type, nslT2_type, nslT1_type]

theorem noSlipTopA_bcv {x y : ℕ} {g : Grid} {a b : ℕ} :
    (gget (noSlipTopA x y g) a b).boundary_condition_velocity =
      (gget g a b).boundary_condition_velocity := by
  unfold noSlipTopA
  rw [nslT3_bcv, nslT2_bcv, nslT1_bcv]

theorem noSlipTopA_vel {nx ny x y : ℕ} {g : Grid} (hwf : wfGrid nx ny g)
    (hx : x < nx) (hy : y < ny) :
    (gget (noSlipTopA x y g) x y).velocity =
      (2 * (gget g x y).boundary_condition_velocity.1 -
        (gget g x (y + 1)).velocity.1, 0) := by
  unfold noSlipTopA
  rw [nslT3_vel, nslT2_vel, nslT1_at hwf hx hy]
  rfl

theorem noSlipLeft_wf {nx ny x y : ℕ} {p : Grid × ℕ} (h : wfGrid nx ny p.1) :
    wfGrid nx ny (noSlipLeft x y p).1 := by
  unfold noSlipLeft
  split
  · split <;> first | exact noSlipLeftA_wf h | exact h
  · exact h

theorem noSlipLeft_ne {x y : ℕ} {p : Grid × ℕ} {a b : ℕ}
    (h1 : ¬(a = x - 1 ∧ b = y)) (h2 : ¬(a = x ∧ b = y)) :
    gget (noSlipLeft x y p).1 a b = gget p.1 a b := by
  unfold noSlipLeft
  by_cases hcnd : 0 < x
  · rw [if_pos hcnd]
    rcases hct : (gget p.1 (x - 1) y).cell_type with _ | k | _
    · exact noSlipLeftA_ne h1 h2
    · rfl
    · rfl
  · rw [if_neg hcnd]

theorem noSlipLeft_type {x y : ℕ} {p : Grid × ℕ} {a b : ℕ} :
    (gget (noSlipLeft x y p).1 a b).cell_type = (gget p.1 a b).cell_type := by
  unfold noSlipLeft
  by_cases hcnd : 0 < x
  · rw [if_pos hcnd]
    rcases hct : (gget p.1 (x - 1) y).cell_type with _ | k | _
    · exact noSlipLeftA_type
    · rfl
    · rfl
  · rw [if_neg hcnd]

theorem noSlipLeft_bcv {x y : ℕ} {p : Grid × ℕ} {a b : ℕ} :
    (gget (noSlipLeft x y p).1 a b).boundary_condition_velocity =
      (gget p.1 a b).boundary_condition_velocity := by
  unfold noSlipLeft
  by_cases hcnd : 0 < x
  · rw [if_pos hcnd]
    rcases hct : (gget p.1 (x - 1) y).cell_type with _ | k | _
    · exact noSlipLeftA_bcv
    · rfl
    · rfl
  · rw [if_neg hcnd]

theorem noSlipLeft_active {x y : ℕ} {p : Grid × ℕ} (hx0 : 0 < x)
    (hct : (gget p.1 (x - 1) y).cell_type = CellType.FluidCell) :
    noSlipLeft x y p = (noSlipLeftA x y p.1, p.2 + 1) := by
  unfold noSlipLeft
  rw [if_pos hx0, hct]

theorem noSlipLeft_inactive {x y : ℕ} {p : Grid × ℕ}
    (h : x = 0 ∨ (gget p.1 (x - 1) y).cell_type ≠ CellType.FluidCell) :
    noSlipLeft x y p = p := by
  unfold noSlipLeft
  by_cases hx0 : 0 < x
  · rw [if_pos hx0]
    rcases h with h0 | hne
    · omega
    · rcases hct : (gget p.1 (x - 1) y).cell_type with _ | k | _
      · exact absurd hct hne
      · rfl
      · rfl
  · rw [if_neg hx0]

theorem noSlipRight_wf {nx' nx ny x y : ℕ} {p : Grid × ℕ} (h : wfGrid nx ny p.1) :
    wfGrid nx ny (noSlipRight x y nx' p).1 := by
  unfold noSlipRight
  split
  · split <;> first | exact noSlipRightA_wf h | exact h
  · exact h

theorem noSlipRight_ne {nx x y : ℕ} {p : Grid × ℕ} {a b : ℕ} (h : ¬(a = x ∧ b = y)) :
    gget (noSlipRight x y nx p).1 a b = gget p.1 a b := by
  unfold noSlipRight
  by_cases hcnd : x + 1 < nx
  · rw [if_pos hcnd]
    rcases hct : (gget p.1 (x + 1) y).cell_type with _ | k | _
    · exact noSlipRightA_ne h
    · rfl
    · rfl
  · rw [if_neg hcnd]

theorem noSlipRight_type {nx x y : ℕ} {p : Grid × ℕ} {a b : ℕ} :
    (gget (noSlipRight x y nx p).1 a b).cell_type = (gget p.1 a b).cell_type := by
  unfold noSlipRight
  by_cases hcnd : x + 1 < nx
  · rw [if_pos hcnd]
    rcases hct : (gget p.1 (x + 1) y).cell_type with _ | k | _
    · exact noSlipRightA_type
    · rfl
    · rfl
  · rw [if_neg hcnd]

theorem noSlipRight_bcv {nx x y : ℕ} {p : Grid × ℕ} {a b : ℕ} :
    (gget (noSlipRight x y nx p).1 a b).boundary_condition_velocity =
      (gget p.1 a b).boundary_condition_velocity := by
  unfold noSlipRight
  by_cases hcnd : x + 1 < nx
  · rw [if_pos hcnd]
    rcases hct : (gget p.1 (x + 1) y).cell_type with _ | k | _
    · exact noSlipRightA_bcv
    · rfl
    · rfl
  · rw [if_neg hcnd]

theorem noSlipRight_active {nx x y : ℕ} {p : Grid × ℕ} (hx1 : x + 1 < nx)
    (hct : (gget p.1 (x + 1) y).cell_type = CellType.FluidCell) :
    noSlipRight x y nx p = (noSlipRightA x y p.1, p.2 + 1) := by
  unfold noSlipRight
  rw [if_pos hx1, hct]

theorem noSlipRight_inactive {nx x y : ℕ} {p : Grid × ℕ}
    (h : ¬x + 1 < nx ∨ (gget p.1 (x + 1) y).cell_type ≠ CellType.FluidCell) :
    noSlipRight x y nx p = p := by
  unfold noSlipRight
  by_cases hx1 : x + 1 < nx
  · rw [if_pos hx1]
    rcases h with h0 | hne
    · omega
    · rcases hct : (gget p.1 (x + 1) y).cell_type with _ | k | _
      · exact absurd hct hne
      · rfl
      · rfl
  · rw [if_neg hx1]

theorem noSlipBottom_wf {nx ny x y : ℕ} {p : Grid × ℕ} (h : wfGrid nx ny p.1) :
    wfGrid nx ny (noSlipBottom x y p).1 := by
  unfold noSlipBottom
  split
  · split <;> first | exact noSlipBottomA_wf h | exact h
  · exact h

theorem noSlipBottom_ne {x y : ℕ} {p : Grid × ℕ} {a b : ℕ}
    (h1 : ¬(a = x ∧ b = y - 1)) (h2 : ¬(a = x ∧ b = y)) :
    gget (noSlipBottom x y p).1 a b = gget p.1 a b := by
  unfold noSlipBottom
  by_cases hcnd : 0 < y
  · rw [if_pos hcnd]
    rcases hct : (gget p.1 x (y - 1)).cell_type with _ | k | _
    · exact noSlipBottomA_ne h1 h2
    · rfl
    · rfl
  · rw [if_neg hcnd]

theorem noSlipBottom_type {x y : ℕ} {p : Grid × ℕ} {a b : ℕ} :
    (gget (noSlipBottom x y p).1 a b).cell_type = (gget p.1 a b).cell_type := by
  unfold noSlipBottom
  by_cases hcnd : 0 < y
  · rw [if_pos hcnd]
    rcases hct : (gget p.1 x (y - 1)).cell_type with _ | k | _
    · exact noSlipBottomA_type
    · rfl
    · rfl
  · rw [if_neg hcnd]

theorem noSlipBottom_bcv {x y : ℕ} {p : Grid × ℕ} {a b : ℕ} :
    (gget (noSlipBottom x y p).1 a b).boundary_condition_velocity =
      (gget p.1 a b).boundary_condition_velocity := by
  unfold noSlipBottom
  by_cases hcnd : 0 < y
  · rw [if_pos hcnd]
    rcases hct : (gget p.1 x (y - 1)).cell_type with _ | k | _
    · exact noSlipBottomA_bcv
    · rfl
    · rfl
  · rw [if_neg hcnd]

theorem noSlipBottom_active {x y : ℕ} {p : Grid × ℕ} (hy0 : 0 < y)
    (hct : (gget p.1 x (y - 1)).cell_type = CellType.FluidCell) :
    noSlipBottom x y p = (noSlipBottomA x y p.1, p.2 + 1) := by
  unfold noSlipBottom
  rw [if_pos hy0, hct]

theorem noSlipBottom_inactive {x y : ℕ} {p : Grid × ℕ}
    (h : y = 0 ∨ (gget p.1 x (y - 1)).cell_type ≠ CellType.FluidCell) :
    noSlipBottom x y p = p := by
  unfold noSlipBottom
  by_cases hy0 : 0 < y
  · rw [if_pos hy0]
    rcases h with h0 | hne
    · omega
    · rcases hct : (gget p.1 x (y - 1)).cell_type with _ | k | _
      · exact absurd hct hne
      · rfl
      · rfl
  · rw [if_neg hy0]

theorem noSlipTop_wf {ny' nx ny x y : ℕ} {p : Grid × ℕ} (h : wfGrid nx ny p.1) :
    wfGrid nx ny (noSlipTop x y ny' p).1 := by
  unfold noSlipTop
  split
  · split <;> first | exact noSlipTopA_wf h | exact h
  · exact h

theorem noSlipTop_ne {ny x y : ℕ} {p : Grid × ℕ} {a b : ℕ} (h : ¬(a = x ∧ b = y)) :
    gget (noSlipTop x y ny p).1 a b = gget p.1 a b := by
  unfold noSlipTop
  by_cases hcnd : y + 1 < ny
  · rw [if_pos hcnd]
    rcases hct : (gget p.1 x (y + 1)).cell_type with _ | k | _
    · exact noSlipTopA_ne h
    · rfl
    · rfl
  · rw [if_neg hcnd]

theorem noSlipTop_type {ny x y : ℕ} {p : Grid × ℕ} {a b : ℕ} :
    (gget (noSlipTop x y ny p).1 a b).cell_type = (gget p.1 a b).cell_type := by
  unfold noSlipTop
  by_cases hcnd : y + 1 < ny
  · rw [if_pos hcnd]
    rcases hct : (gget p.1 x (y + 1)).cell_type with _ | k | _
    · exact noSlipTopA_type
    · rfl
    · rfl
  · rw [if_neg hcnd]

theorem noSlipTop_bcv {ny x y : ℕ} {p : Grid × ℕ} {a b : ℕ} :
    (gget (noSlipTop x y ny p).1 a b).boundary_condition_velocity =
      (gget p.1 a b).boundary_condition_velocity := by
  unfold noSlipTop
  by_cases hcnd : y + 1 < ny
  · rw [if_pos hcnd]
    rcases hct : (gget p.1 x (y + 1)).cell_type with _ | k | _
    · exact noSlipTopA_bcv
    · rfl
    · rfl
  · rw [if_neg hcnd]

theorem noSlipTop_active {ny x y : ℕ} {p : Grid × ℕ} (hy1 : y + 1 < ny)
    (hct : (gget p.1 x (y + 1)).cell_type = CellType.FluidCell) :
    noSlipTop x y ny p = (noSlipTopA x y p.1, p.2 + 1) := by
  unfold noSlipTop
  rw [if_pos hy1, hct]

theorem noSlipTop_inactive {ny x y : ℕ} {p : Grid × ℕ}
    (h : ¬y + 1 < ny ∨ (gget p.1 x (y + 1)).cell_type ≠ CellType.FluidCell) :
    noSlipTop x y ny p = p := by
  unfold noSlipTop
  by_cases hy1 : y + 1 < ny
  · rw [if_pos hy1]
    rcases h with h0 | hne
    · omega
    · rcases hct : (gget p.1 x (y + 1)).cell_type with _ | k | _
      · exact absurd hct hne
      · rfl
      · rfl
  · rw [if_neg hy1]

theorem setBCCell_noslip (nx ny x y : ℕ) (sd : Grid)
    (hns : (gget sd x y).cell_type =
      CellType.BoundaryConditionCell BoundaryConditionCell.NoSlipCell) :
    setBCCell nx ny x y sd =
      bcAverage x y (noSlipTop x y ny (noSlipBottom x y (noSlipRight x y nx
        (noSlipLeft x y (gmod sd x y presZero, 0))))) := by
  unfold setBCCell
  rw [hns]

/-- C10: for a NoSlip boundary cell at `(x, y)` with FluidCell neighbours both
to the right `(x+1, y)` and above `(x, y+1)`, the resolver's axis branches run
in the fixed order left, right, bottom, top.  Directly after the right branch
the cell's velocity is the right-branch whole-vector write
`[0, 2·bcv[1] − v(x+1,y)]`, and the final resolved cell's velocity is the top
branch's whole-vector write `[2·bcv[0] − u(x,y+1), 0]`, which overwrote it. -/
theorem noslip_top_overwrites_right (nx ny x y : ℕ) (sd : Grid)
    (hwf : wfGrid nx ny sd) (hx1 : x + 1 < nx) (hy1 : y + 1 < ny)
    (hns : (gget sd x y).cell_type =
      CellType.BoundaryConditionCell BoundaryConditionCell.NoSlipCell)
    (hr : (gget sd (x + 1) y).cell_type = CellType.FluidCell)
    (ht : (gget sd x (y + 1)).cell_type = CellType.FluidCell) :
    (gget (noSlipRight x y nx (noSlipLeft x y (gmod sd x y presZero, 0))).1 x y).velocity =
      (0, 2 * (gget sd x y).boundary_condition_velocity.2 -
        (gget sd (x + 1) y).velocity.2) ∧
    (gget (setBCCell nx ny x y sd) x y).velocity =
      (2 * (gget sd x y).boundary_condition_velocity.1 -
        (gget sd x (y + 1)).velocity.1, 0) := by
  have hx : x < nx := by omega
  have hy : y < ny := by omega
  have hp1wf : wfGrid nx ny (noSlipLeft x y (gmod sd x y presZero, 0)).1 :=
    noSlipLeft_wf (presZero_wf hwf)
  have htr : (gget (noSlipLeft x y (gmod sd x y presZero, 0)).1 (x + 1) y).cell_type
      = CellType.FluidCell := noSlipLeft_type.trans (presZero_type.trans hr)
  have hner1 : ¬(x + 1 = x - 1 ∧ y = y) := fun hc => absurd hc.1 (by omega)
  have hner2 : ¬(x + 1 = x ∧ y = y) := fun hc => absurd hc.1 (by omega)
  have hA : (gget (noSlipRight x y nx
      (noSlipLeft x y (gmod sd x y presZero, 0))).1 x y).velocity =
      (0, 2 * (gget sd x y).boundary_condition_velocity.2 -
        (gget sd (x + 1) y).velocity.2) := by
    rw [noSlipRight_active hx1 htr]
    show (gget (noSlipRightA x y (noSlipLeft x y (gmod sd x y presZero, 0)).1) x y).velocity = _
    rw [noSlipRightA_vel hp1wf hx hy]
    have e1 : (gget (noSlipLeft x y (gmod sd x y presZero, 0)).1 x y).boundary_condition_velocity
        = (gget sd x y).boundary_condition_velocity :=
      noSlipLeft_bcv.trans presZero_bcv
    have e2 : gget (noSlipLeft x y (gmod sd x y presZero, 0)).1 (x + 1) y
        = gget sd (x + 1) y :=
      (noSlipLeft_ne hner1 hner2).trans (presZero_ne hner2)
    rw [e1, e2]
  refine ⟨hA, ?_⟩
  have hp3wf : wfGrid nx ny (noSlipBottom x y (noSlipRight x y nx
      (noSlipLeft x y (gmod sd x y presZero, 0)))).1 :=
    noSlipBottom_wf (noSlipRight_wf (noSlipLeft_wf (presZero_wf hwf)))
  have htt : (gget (noSlipBottom x y (noSlipRight x y nx
      (noSlipLeft x y (gmod sd x y presZero, 0)))).1 x (y + 1)).cell_type
      = CellType.FluidCell :=
    noSlipBottom_type.trans (noSlipRight_type.trans (noSlipLeft_type.trans
      (presZero_type.trans ht)))
  rw [setBCCell_noslip nx ny x y sd hns, bcAverage_velocity, noSlipTop_active hy1 htt]
  show (gget (noSlipTopA x y (noSlipBottom x y (noSlipRight x y nx
      (noSlipLeft x y (gmod sd x y presZero, 0)))).1) x y).velocity = _
  rw [noSlipTopA_vel hp3wf hx hy]
  have hneb1 : ¬(x = x ∧ y + 1 = y - 1) := fun hc => absurd hc.2 (by omega)
  have hneb2 : ¬(x = x ∧ y + 1 = y) := fun hc => absurd hc.2 (by omega)
  have hnel1 : ¬(x = x - 1 ∧ y + 1 = y) := fun hc => absurd hc.2 (by omega)
  have e3 : (gget (noSlipBottom x y (noSlipRight x y nx
      (noSlipLeft x y (gmod sd x y presZero, 0)))).1 x y).boundary_condition_velocity
      = (gget sd x y).boundary_condition_velocity :=
    noSlipBottom_bcv.trans (noSlipRight_bcv.trans (noSlipLeft_bcv.trans presZero_bcv))
  have e4 : gget (noSlipBottom x y (noSlipRight x y nx
      (noSlipLeft x y (gmod sd x y presZero, 0)))).1 x (y + 1)
      = gget sd x (y + 1) :=
    (noSlipBottom_ne hneb1 hneb2).trans ((noSlipRight_ne hneb2).trans
      ((noSlipLeft_ne hnel1 hneb2).trans (presZero_ne hneb2)))
  rw [e3, e4]

/-- Witness grid for the branch-ordering claim: a 3×3 grid with a NoSlip cell
at `(1,1)` carrying `boundary_condition_velocity = (13, 17)`, a FluidCell at
`(2,1)` with velocity `(3, 5)` and a FluidCell at `(1,2)` with velocity
`(7, 11)`. -/
def c10Grid : Grid :=
  [[defaultCell, defaultCell, defaultCell],
   [defaultCell,
    { cell_type := CellType.BoundaryConditionCell BoundaryConditionCell.NoSlipCell,
      boundary_condition_velocity := (13, 17) },
    { cell_type := CellType.FluidCell, velocity := (7, 11) }],
   [defaultCell, { cell_type := CellType.FluidCell, velocity := (3, 5) }, defaultCell]]

theorem noslip_top_overwrites_right_witness :
    (wfGrid 3 3 c10Grid ∧
     (gget c10Grid 1 1).cell_type =
       CellType.BoundaryConditionCell BoundaryConditionCell.NoSlipCell ∧
     (gget c10Grid 2 1).cell_type = CellType.FluidCell ∧
     (gget c10Grid 1 2).cell_type = CellType.FluidCell) ∧
    (gget (noSlipRight 1 1 3 (noSlipLeft 1 1 (gmod c10Grid 1 1 presZero, 0))).1 1 1).velocity =
      (0, 2 * (gget c10Grid 1 1).boundary_condition_velocity.2 -
        (gget c10Grid 2 1).velocity.2) ∧
    (gget (setBCCell 3 3 1 1 c10Grid) 1 1).velocity =
      (2 * (gget c10Grid 1 1).boundary_condition_velocity.1 -
        (gget c10Grid 1 2).velocity.1, 0) :=
  ⟨⟨by with_unfolding_all decide, by with_unfolding_all decide,
    by with_unfolding_all decide, by with_unfolding_all decide⟩,
   noslip_top_overwrites_right 3 3 1 1 c10Grid (by with_unfolding_all decide)
     (by decide) (by decide) (by with_unfolding_all decide)
     (by with_unfolding_all decide) (by with_unfolding_all decide)⟩

/-- C4: NoSlip boundary resolution with `boundary_condition_velocity = (0, 0)`
and exactly one adjacent FluidCell.  In each of the four cases (the fluid
neighbour to the left, right, below or above), the resolver zeroes the
velocity component normal to the shared face and sets the tangential (ghost)
component to the negation `−v0` of the fluid neighbour's tangential
velocity. -/
theorem noslip_single_fluid_neighbor (nx ny x y : ℕ) (sd : Grid)
    (hwf : wfGrid nx ny sd) (hx : x < nx) (hy : y < ny)
    (hns : (gget sd x y).cell_type =
      CellType.BoundaryConditionCell BoundaryConditionCell.NoSlipCell)
    (hbcv : (gget sd x y).boundary_condition_velocity = (0, 0)) :
    (0 < x → (gget sd (x - 1) y).cell_type = CellType.FluidCell →
      (x + 1 < nx → (gget sd (x + 1) y).cell_type ≠ CellType.FluidCell) →
      (0 < y → (gget sd x (y - 1)).cell_type ≠ CellType.FluidCell) →
      (y + 1 < ny → (gget sd x (y + 1)).cell_type ≠ CellType.FluidCell) →
      (gget (setBCCell nx ny x y sd) (x - 1) y).velocity.1 = 0 ∧
      (gget (setBCCell nx ny x y sd) x y).velocity.2 =
        -(gget sd (x - 1) y).velocity.2) ∧
    (x + 1 < nx → (gget sd (x + 1) y).cell_type = CellType.FluidCell →
      (0 < x → (gget sd (x - 1) y).cell_type ≠ CellType.FluidCell) →
      (0 < y → (gget sd x (y - 1)).cell_type ≠ CellType.FluidCell) →
      (y + 1 < ny → (gget sd x (y + 1)).cell_type ≠ CellType.FluidCell) →
      (gget (setBCCell nx ny x y sd) x y).velocity =
        (0, -(gget sd (x + 1) y).velocity.2)) ∧
    (0 < y → (gget sd x (y - 1)).cell_type = CellType.FluidCell →
      (0 < x → (gget sd (x - 1) y).cell_type ≠ CellType.FluidCell) →
      (x + 1 < nx → (gget sd (x + 1) y).cell_type ≠ CellType.FluidCell) →
      (y + 1 < ny → (gget sd x (y + 1)).cell_type ≠ CellType.FluidCell) →
      (gget (setBCCell nx ny x y sd) x (y - 1)).velocity.2 = 0 ∧
      (gget (setBCCell nx ny x y sd) x y).velocity.1 =
        -(gget sd x (y - 1)).velocity.1) ∧
    (y + 1 < ny → (gget sd x (y + 1)).cell_type = CellType.FluidCell →
      (0 < x → (gget sd (x - 1) y).cell_type ≠ CellType.FluidCell) →
      (x + 1 < nx → (gget sd (x + 1) y).cell_type ≠ CellType.FluidCell) →
      (0 < y → (gget sd x (y - 1)).cell_type ≠ CellType.FluidCell) →
      (gget (setBCCell nx ny x y sd) x y).velocity =
        (-(gget sd x (y + 1)).velocity.1, 0)) := by
  have hset := setBCCell_noslip nx ny x y sd hns
  have hLin0 : ∀ h : x = 0 ∨
      (gget (gmod sd x y presZero) (x - 1) y).cell_type ≠ CellType.FluidCell,
      noSlipLeft x y (gmod sd x y presZero, 0) = (gmod sd x y presZero, 0) :=
    fun h => noSlipLeft_inactive h
  refine ⟨?_, ?_, ?_, ?_⟩
  · -- fluid neighbour to the left only
    intro hx0 hfl hnr hnb hnt
    have hxm : x - 1 < nx := by omega
    have hTin : noSlipTop x y ny (noSlipBottom x y (noSlipRight x y nx
        (noSlipLeft x y (gmod sd x y presZero, 0)))) =
        noSlipBottom x y (noSlipRight x y nx
          (noSlipLeft x y (gmod sd x y presZero, 0))) := by
      refine noSlipTop_inactive ?_
      by_cases hy1 : y + 1 < ny
      · refine Or.inr ?_
        rw [noSlipBottom_type, noSlipRight_type, noSlipLeft_type, presZero_type]
        exact hnt hy1
      · exact Or.inl hy1
    have hBin : noSlipBottom x y (noSlipRight x y nx
        (noSlipLeft x y (gmod sd x y presZero, 0))) =
        noSlipRight x y nx (noSlipLeft x y (gmod sd x y presZero, 0)) := by
      refine noSlipBottom_inactive ?_
      by_cases hy0 : 0 < y
      · refine Or.inr ?_
        rw [noSlipRight_type, noSlipLeft_type, presZero_type]
        exact hnb hy0
      · exact Or.inl (by omega)
    have hRin : noSlipRight x y nx (noSlipLeft x y (gmod sd x y presZero, 0)) =
        noSlipLeft x y (gmod sd x y presZero, 0) := by
      refine noSlipRight_inactive ?_
      by_cases hx1 : x + 1 < nx
      · refine Or.inr ?_
        rw [noSlipLeft_type, presZero_type]
        exact hnr hx1
      · exact Or.inl hx1
    have hLact : noSlipLeft x y (gmod sd x y presZero, 0) =
        (noSlipLeftA x y (gmod sd x y presZero), 0 + 1) :=
      noSlipLeft_active hx0 (presZero_type.trans hfl)
    have hnel : ¬(x - 1 = x ∧ y = y) := fun hc => absurd hc.1 (by omega)
    constructor
    · rw [hset, bcAverage_velocity, hTin, hBin, hRin, hLact]
      show (gget (noSlipLeftA x y (gmod sd x y presZero)) (x - 1) y).velocity.1 = 0
      exact noSlipLeftA_vel1 (presZero_wf hwf) hx0 hxm hy
    · rw [hset, bcAverage_velocity, hTin, hBin, hRin, hLact]
      show (gget (noSlipLeftA x y (gmod sd x y presZero)) x y).velocity.2 =
        -(gget sd (x - 1) y).velocity.2
      rw [noSlipLeftA_vel2 (presZero_wf hwf) hx0 hx hy, presZero_bcv, hbcv,
        presZero_ne hnel]
      simp
  · -- fluid neighbour to the right only
    intro hx1 hfr hnl hnb hnt
    have hLin : noSlipLeft x y (gmod sd x y presZero, 0) = (gmod sd x y presZero, 0) := by
      refine hLin0 ?_
      by_cases hx0 : 0 < x
      · refine Or.inr ?_
        rw [presZero_type]
        exact hnl hx0
      · exact Or.inl (by omega)
    have hTin : noSlipTop x y ny (noSlipBottom x y (noSlipRight x y nx
        (gmod sd x y presZero, 0))) =
        noSlipBottom x y (noSlipRight x y nx (gmod sd x y presZero, 0)) := by
      refine noSlipTop_inactive ?_
      by_cases hy1 : y + 1 < ny
      · refine Or.inr ?_
        rw [noSlipBottom_type, noSlipRight_type, presZero_type]
        exact hnt hy1
      · exact Or.inl hy1
    have hBin : noSlipBottom x y (noSlipRight x y nx (gmod sd x y presZero, 0)) =
        noSlipRight x y nx (gmod sd x y presZero, 0) := by
      refine noSlipBottom_inactive ?_
      by_cases hy0 : 0 < y
      · refine Or.inr ?_
        rw [noSlipRight_type, presZero_type]
        exact hnb hy0
      · exact Or.inl (by omega)
    have hRact : noSlipRight x y nx (gmod sd x y presZero, 0) =
        (noSlipRightA x y (gmod sd x y presZero), 0 + 1) :=
      noSlipRight_active hx1 (presZero_type.trans hfr)
    have hner : ¬(x + 1 = x ∧ y = y) := fun hc => absurd hc.1 (by omega)
    rw [hset, bcAverage_velocity, hLin, hTin, hBin, hRact]
    show (gget (noSlipRightA x y (gmod sd x y presZero)) x y).velocity =
      (0, -(gget sd (x + 1) y).velocity.2)
    rw [noSlipRightA_vel (presZero_wf hwf) hx hy, presZero_bcv, hbcv,
      presZero_ne hner]
    simp
  · -- fluid neighbour below only
    intro hy0 hfb hnl hnr hnt
    have hym : y - 1 < ny := by omega
    have hLin : noSlipLeft x y (gmod sd x y presZero, 0) = (gmod sd x y presZero, 0) := by
      refine hLin0 ?_
      by_cases hx0 : 0 < x
      · refine Or.inr ?_
        rw [presZero_type]
        exact hnl hx0
      · exact Or.inl (by omega)
    have hRin : noSlipRight x y nx (gmod sd x y presZero, 0) =
        (gmod sd x y presZero, 0) := by
      refine noSlipRight_inactive ?_
      by_cases hx1 : x + 1 < nx
      · refine Or.inr ?_
        rw [presZero_type]
        exact hnr hx1
      · exact Or.inl hx1
    have hTin : noSlipTop x y ny (noSlipBottom x y (gmod sd x y presZero, 0)) =
        noSlipBottom x y (gmod sd x y presZero, 0) := by
      refine noSlipTop_inactive ?_
      by_cases hy1 : y + 1 < ny
      · refine Or.inr ?_
        rw [noSlipBottom_type, presZero_type]
        exact hnt hy1
      · exact Or.inl hy1
    have hBact : noSlipBottom x y (gmod sd x y presZero, 0) =
        (noSlipBottomA x y (gmod sd x y presZero), 0 + 1) :=
      noSlipBottom_active hy0 (presZero_type.trans hfb)
    have hneb : ¬(x = x ∧ y - 1 = y) := fun hc => absurd hc.2 (by omega)
    constructor
    · rw [hset, bcAverage_velocity, hLin, hRin, hTin, hBact]
      show (gget (noSlipBottomA x y (gmod sd x y presZero)) x (y - 1)).velocity.2 = 0
      exact noSlipBottomA_vel2 (presZero_wf hwf) hy0 hx hym
    · rw [hset, bcAverage_velocity, hLin, hRin, hTin, hBact]
      show (gget (noSlipBottomA x y (gmod sd x y presZero)) x y).velocity.1 =
        -(gget sd x (y - 1)).velocity.1
      rw [noSlipBottomA_vel1 (presZero_wf hwf) hy0 hx hy, presZero_bcv, hbcv,
        presZero_ne hneb]
      simp
  · -- fluid neighbour above only
    intro hy1 hft hnl hnr hnb
    have hLin : noSlipLeft x y (gmod sd x y presZero, 0) = (gmod sd x y presZero, 0) := by
      refine hLin0 ?_
      by_cases hx0 : 0 < x
      · refine Or.inr ?_
        rw [presZero_type]
        exact hnl hx0
      · exact Or.inl (by omega)
    have hRin : noSlipRight x y nx (gmod sd x y presZero, 0) =
        (gmod sd x y presZero, 0) := by
      refine noSlipRight_inactive ?_
      by_cases hx1 : x + 1 < nx
      · refine Or.inr ?_
        rw [presZero_type]
        exact hnr hx1
      · exact Or.inl hx1
    have hBin : noSlipBottom x y (gmod sd x y presZero, 0) =
        (gmod sd x y presZero, 0) := by
      refine noSlipBottom_inactive ?_
      by_cases hy0 : 0 < y
      · refine Or.inr ?_
        rw [presZero_type]
        exact hnb hy0
      · exact Or.inl (by omega)
    have hTact : noSlipTop x y ny (gmod sd x y presZero, 0) =
        (noSlipTopA x y (gmod sd x y presZero), 0 + 1) :=
      noSlipTop_active hy1 (presZero_type.trans hft)
    have hnet : ¬(x = x ∧ y + 1 = y) := fun hc => absurd hc.2 (by omega)
    rw [hset, bcAverage_velocity, hLin, hRin, hBin, hTact]
    show (gget (noSlipTopA x y (gmod sd x y presZero)) x y).velocity =
      (-(gget sd x (y + 1)).velocity.1, 0)
    rw [noSlipTopA_vel (presZero_wf hwf) hx hy, presZero_bcv, hbcv,
      presZero_ne hnet]
    simp

/-- Witness grid for the single-fluid-neighbour NoSlip rule: a 3×3 grid with
a NoSlip cell at `(1,1)` with zero wall velocity, whose only FluidCell
neighbour is at `(2,1)` with velocity `(3, 5)`. -/
def c4Grid : Grid :=
  [[defaultCell, defaultCell, defaultCell],
   [defaultCell,
    { cell_type := CellType.BoundaryConditionCell BoundaryConditionCell.NoSlipCell },
    defaultCell],
   [defaultCell, { cell_type := CellType.FluidCell, velocity := (3, 5) }, defaultCell]]

theorem noslip_single_fluid_neighbor_witness :
    ((gget c4Grid 1 1).cell_type =
       CellType.BoundaryConditionCell BoundaryConditionCell.NoSlipCell ∧
     (gget c4Grid 1 1).boundary_condition_velocity = (0, 0) ∧
     (gget c4Grid 2 1).cell_type = CellType.FluidCell ∧
     (gget c4Grid 0 1).cell_type ≠ CellType.FluidCell ∧
     (gget c4Grid 1 0).cell_type ≠ CellType.FluidCell ∧
     (gget c4Grid 1 2).cell_type ≠ CellType.FluidCell) ∧
    (gget (setBCCell 3 3 1 1 c4Grid) 1 1).velocity = (0, -(gget c4Grid 2 1).velocity.2) :=
  ⟨⟨by with_unfolding_all decide, by with_unfolding_all decide,
    by with_unfolding_all decide, by with_unfolding_all decide,
    by with_unfolding_all decide, by with_unfolding_all decide⟩,
   (noslip_single_fluid_neighbor 3 3 1 1 c4Grid (by with_unfolding_all decide)
      (by decide) (by decide) (by with_unfolding_all decide)
      (by with_unfolding_all decide)).2.1
     (by decide) (by with_unfolding_all decide)
     (fun _ => by with_unfolding_all decide)
     (fun _ => by with_unfolding_all decide)
     (fun _ => by with_unfolding_all decide)⟩

/-- A cell at rest: zero velocity, predictor values `f`/`g`, pressure, RHS
and wall velocity.  (`cell_type` and `psi` are unconstrained.) -/
def zeroCell (c : Cell) : Prop :=
  c.velocity = (0, 0) ∧ c.f = 0 ∧ c.g = 0 ∧ c.pressure = 0 ∧ c.rhs = 0 ∧
    c.boundary_condition_velocity = (0, 0)

instance zeroCellDecidable (c : Cell) : Decidable (zeroCell c) := by
  unfold zeroCell
  infer_instance

/-- A grid entirely at rest.  The out-of-range default cell is at rest, so
for well-formed grids the quantifier may range over all of ℕ². -/
def ZState (sd : Grid) : Prop := ∀ a b : ℕ, zeroCell (gget sd a b)

theorem zeroCell_default : zeroCell defaultCell := ⟨rfl, rfl, rfl, rfl, rfl, rfl⟩

theorem ZState.vel {sd : Grid} (hz : ZState sd) :
    ∀ a b, (gget sd a b).velocity = (0, 0) := fun a b => (hz a b).1

theorem ZState.fz {sd : Grid} (hz : ZState sd) :
    ∀ a b, (gget sd a b).f = 0 := fun a b => (hz a b).2.1

theorem ZState.gz {sd : Grid} (hz : ZState sd) :
    ∀ a b, (gget sd a b).g = 0 := fun a b => (hz a b).2.2.1

theorem ZState.pz {sd : Grid} (hz : ZState sd) :
    ∀ a b, (gget sd a b).pressure = 0 := fun a b => (hz a b).2.2.2.1

theorem ZState.rz {sd : Grid} (hz : ZState sd) :
    ∀ a b, (gget sd a b).rhs = 0 := fun a b => (hz a b).2.2.2.2.1

theorem ZState.bz {sd : Grid} (hz : ZState sd) :
    ∀ a b, (gget sd a b).boundary_condition_velocity = (0, 0) :=
  fun a b => (hz a b).2.2.2.2.2

theorem ZState_gmod {sd : Grid} {x y : ℕ} {f : Cell → Cell} (hz : ZState sd)
    (hf : zeroCell (f (gget sd x y))) : ZState (gmod sd x y f) := by
  intro a b
  rcases gget_gset_cases sd x y a b (f (gget sd x y)) with hc | hc
  · unfold gmod
    rw [hc]
    exact hf
  · unfold gmod
    rw [hc]
    exact hz a b

/-- A rest state needs to be checked only inside the grid bounds. -/
theorem ZState_of_bounded {nx ny : ℕ} {sd : Grid} (hwf : wfGrid nx ny sd)
    (h : ∀ p ∈ allCoords nx ny, zeroCell (gget sd p.1 p.2)) : ZState sd := by
  intro a b
  by_cases hab : a < nx ∧ b < ny
  · exact h (a, b) (mem_allCoords.mpr hab)
  · rw [gget_out_of_range hwf hab]
    exact zeroCell_default

theorem noSlipLeftA_zstate {x y : ℕ} {g : Grid} (hz : ZState g) :
    ZState (noSlipLeftA x y g) := by
  have hz1 : ZState (nslL1 x y g) := ZState_gmod hz (by
    simp [nslL1f, zeroCell, hz.vel, hz.fz, hz.gz, hz.pz, hz.rz, hz.bz])
  have hz2 : ZState (nslL2 x y (nslL1 x y g)) := ZState_gmod hz1 (by
    simp [nslL2f, zeroCell, hz1.vel, hz1.fz, hz1.gz, hz1.pz, hz1.rz, hz1.bz])
  have hz3 : ZState (nslL3 x y (nslL2 x y (nslL1 x y g))) := ZState_gmod hz2 (by
    simp [nslL3f, zeroCell, hz2.vel, hz2.fz, hz2.gz, hz2.pz, hz2.rz, hz2.bz])
  exact ZState_gmod hz3 (by
    simp [bcSetF, zeroCell, hz3.vel, hz3.fz, hz3.gz, hz3.pz, hz3.rz, hz3.bz])

theorem noSlipRightA_zstate {x y : ℕ} {g : Grid} (hz : ZState g) :
    ZState (noSlipRightA x y g) := by
  have hz1 : ZState (nslR1 x y g) := ZState_gmod hz (by
    simp [nslR1f, zeroCell, hz.vel, hz.fz, hz.gz, hz.pz, hz.rz, hz.bz])
  have hz2 : ZState (nslR2 x y (nslR1 x y g)) := ZState_gmod hz1 (by
    simp [nslR2f, zeroCell, hz1.vel, hz1.fz, hz1.gz, hz1.pz, hz1.rz, hz1.bz])
  exact ZState_gmod hz2 (by
    simp [bcSetF, zeroCell, hz2.vel, hz2.fz, hz2.gz, hz2.pz, hz2.rz, hz2.bz])

theorem noSlipBottomA_zstate {x y : ℕ} {g : Grid} (hz : ZState g) :
    ZState (noSlipBottomA x y g) := by
  have hz1 : ZState (nslB1 x y g) := ZState_gmod hz (by
    simp [nslB1f, zeroCell, hz.vel, hz.fz, hz.gz, hz.pz, hz.rz, hz.bz])
  have hz2 : ZState (nslB2 x y (nslB1 x y g)) := ZState_gmod hz1 (by
    simp [nslB2f, zeroCell, hz1.vel, hz1.fz, hz1.gz, hz1.pz, hz1.rz, hz1.bz])
  have hz3 : ZState (nslB3 x y (nslB2 x y (nslB1 x y g))) := ZState_gmod hz2 (by
    simp [nslB3f, zeroCell, hz2.vel, hz2.fz, hz2.gz, hz2.pz, hz2.rz, hz2.bz])
  exact ZState_gmod hz3 (by
    simp [bcSetG, zeroCell, hz3.vel, hz3.fz, hz3.gz, hz3.pz, hz3.rz, hz3.bz])

theorem noSlipTopA_zstate {x y : ℕ} {g : Grid} (hz : ZState g) :
    ZState (noSlipTopA x y g) := by
  have hz1 : ZState (nslT1 x y g) := ZState_gmod hz (by
    simp [nslT1f, zeroCell, hz.vel, hz.fz, hz.gz, hz.pz, hz.rz, hz.bz])
  have hz2 : ZState (nslT2 x y (nslT1 x y g)) := ZState_gmod hz1 (by
    simp [nslT2f, zeroCell, hz1.vel, hz1.fz, hz1.gz, hz1.pz, hz1.rz, hz1.bz])
  exact ZState_gmod hz2 (by
    simp [bcSetG, zeroCell, hz2.vel, hz2.fz, hz2.gz, hz2.pz, hz2.rz, hz2.bz])

theorem noSlipLeft_zstate {x y : ℕ} {p : Grid × ℕ} (hz : ZState p.1) :
    ZState (noSlipLeft x y p).1 := by
  unfold noSlipLeft
  by_cases hc : 0 < x
  · rw [if_pos hc]
    rcases hct : (gget p.1 (x - 1) y).cell_type with _ | k | _
    · exact noSlipLeftA_zstate hz
    · exact hz
    · exact hz
  · rw [if_neg hc]
    exact hz

theorem noSlipRight_zstate {nx x y : ℕ} {p : Grid × ℕ} (hz : ZState p.1) :
    ZState (noSlipRight x y nx p).1 := by
  unfold noSlipRight
  by_cases hc : x + 1 < nx
  · rw [if_pos hc]
    rcases hct : (gget p.1 (x + 1) y).cell_type with _ | k | _
    · exact noSlipRightA_zstate hz
    · exact hz
    · exact hz
  · rw [if_neg hc]
    exact hz

theorem noSlipBottom_zstate {x y : ℕ} {p : Grid × ℕ} (hz : ZState p.1) :
    ZState (noSlipBottom x y p).1 := by
  unfold noSlipBottom
  by_cases hc : 0 < y
  · rw [if_pos hc]
    rcases hct : (gget p.1 x (y - 1)).cell_type with _ | k | _
    · exact noSlipBottomA_zstate hz
    · exact hz
    · exact hz
  · rw [if_neg hc]
    exact hz

theorem noSlipTop_zstate {ny x y : ℕ} {p : Grid × ℕ} (hz : ZState p.1) :
    ZState (noSlipTop x y ny p).1 := by
  unfold noSlipTop
  by_cases hc : y + 1 < ny
  · rw [if_pos hc]
    rcases hct : (gget p.1 x (y + 1)).cell_type with _ | k | _
    · exact noSlipTopA_zstate hz
    · exact hz
    · exact hz
  · rw [if_neg hc]
    exact hz

theorem freeSlipLeft_zstate {x y : ℕ} {p : Grid × ℕ} (hz : ZState p.1) :
    ZState (freeSlipLeft x y p).1 := by
  unfold freeSlipLeft
  by_cases hc : 0 < x
  · rw [if_pos hc]
    rcases hct : (gget p.1 (x - 1) y).cell_type with _ | k | _
    · exact
        let s1 := gmod p.1 (x - 1) y fun c => { c with velocity := (0, c.velocity.2) }
        have hz1 : ZState s1 := ZState_gmod hz (by
          simp [zeroCell, hz.vel, hz.fz, hz.gz, hz.pz, hz.rz, hz.bz])
        let s2 := gmod s1 x y fun c =>
            { c with velocity := (c.velocity.1, (gget s1 (x - 1) y).velocity.2) }
        have hz2 : ZState s2 := ZState_gmod hz1 (by
          simp [zeroCell, hz1.vel, hz1.fz, hz1.gz, hz1.pz, hz1.rz, hz1.bz])
        let s3 := gmod s2 x y fun c =>
            { c with pressure := c.pressure + (gget s2 (x - 1) y).pressure }
        have hz3 : ZState s3 := ZState_gmod hz2 (by
          simp [zeroCell, hz2.vel, hz2.fz, hz2.gz, hz2.pz, hz2.rz, hz2.bz])
        have hz4 : ZState (gmod s3 (x - 1) y fun c => { c with f := c.velocity.1 }) := ZState_gmod hz3 (by
          simp [zeroCell, hz3.vel, hz3.fz, hz3.gz, hz3.pz, hz3.rz, hz3.bz])
        hz4
    · exact hz
    · exact hz
  · rw [if_neg hc]
    exact hz

theorem freeSlipRight_zstate {nx x y : ℕ} {p : Grid × ℕ} (hz : ZState p.1) :
    ZState (freeSlipRight x y nx p).1 := by
  unfold freeSlipRight
  by_cases hc : x + 1 < nx
  · rw [if_pos hc]
    rcases hct : (gget p.1 (x + 1) y).cell_type with _ | k | _
    · exact
        let s1 := gmod p.1 x y fun c =>
            { c with velocity := (0, (gget p.1 (x + 1) y).velocity.2) }
        have hz1 : ZState s1 := ZState_gmod hz (by
          simp [zeroCell, hz.vel, hz.fz, hz.gz, hz.pz, hz.rz, hz.bz])
        let s2 := gmod s1 x y fun c =>
            { c with pressure := c.pressure + (gget s1 (x + 1) y).pressure }
        have hz2 : ZState s2 := ZState_gmod hz1 (by
          simp [zeroCell, hz1.vel, hz1.fz, hz1.gz, hz1.pz, hz1.rz, hz1.bz])
        have hz3 : ZState (gmod s2 x y fun c => { c with f := c.velocity.1 }) := ZState_gmod hz2 (by
          simp [zeroCell, hz2.vel, hz2.fz, hz2.gz, hz2.pz, hz2.rz, hz2.bz])
        hz3
    · exact hz
    · exact hz
  · rw [if_neg hc]
    exact hz

theorem freeSlipBottom_zstate {x y : ℕ} {p : Grid × ℕ} (hz : ZState p.1) :
    ZState (freeSlipBottom x y p).1 := by
  unfold freeSlipBottom
  by_cases hc : 0 < y
  · rw [if_pos hc]
    rcases hct : (gget p.1 x (y - 1)).cell_type with _ | k | _
    · exact
        let s1 := gmod p.1 x (y - 1) fun c => { c with velocity := (c.velocity.1, 0) }
        have hz1 : ZState s1 := ZState_gmod hz (by
          simp [zeroCell, hz.vel, hz.fz, hz.gz, hz.pz, hz.rz, hz.bz])
        let s2 := gmod s1 x y fun c =>
            { c with velocity := ((gget s1 x (y - 1)).velocity.1, c.velocity.2) }
        have hz2 : ZState s2 := ZState_gmod hz1 (by
          simp [zeroCell, hz1.vel, hz1.fz, hz1.gz, hz1.pz, hz1.rz, hz1.bz])
        let s3 := gmod s2 x y fun c =>
            { c with pressure := c.pressure + (gget s2 x (y - 1)).pressure }
        have hz3 : ZState s3 := ZState_gmod hz2 (by
          simp [zeroCell, hz2.vel, hz2.fz, hz2.gz, hz2.pz, hz2.rz, hz2.bz])
        have hz4 : ZState (gmod s3 x (y - 1) fun c => { c with g := c.velocity.2 }) := ZState_gmod hz3 (by
          simp [zeroCell, hz3.vel, hz3.fz, hz3.gz, hz3.pz, hz3.rz, hz3.bz])
        hz4
    · exact hz
    · exact hz
  · rw [if_neg hc]
    exact hz

theorem freeSlipTop_zstate {ny x y : ℕ} {p : Grid × ℕ} (hz : ZState p.1) :
    ZState (freeSlipTop x y ny p).1 := by
  unfold freeSlipTop
  by_cases hc : y + 1 < ny
  · rw [if_pos hc]
    rcases hct : (gget p.1 x (y + 1)).cell_type with _ | k | _
    · exact
        let s1 := gmod p.1 x y fun c =>
            { c with velocity := ((gget p.1 x (y + 1)).velocity.1, 0) }
        have hz1 : ZState s1 := ZState_gmod hz (by
          simp [zeroCell, hz.vel, hz.fz, hz.gz, hz.pz, hz.rz, hz.bz])
        let s2 := gmod s1 x y fun c =>
            { c with pressure := c.pressure + (gget s1 x (y + 1)).pressure }
        have hz2 : ZState s2 := ZState_gmod hz1 (by
          simp [zeroCell, hz1.vel, hz1.fz, hz1.gz, hz1.pz, hz1.rz, hz1.bz])
        have hz3 : ZState (gmod s2 x y fun c => { c with g := c.velocity.2 }) := ZState_gmod hz2 (by
          simp [zeroCell, hz2.vel, hz2.fz, hz2.gz, hz2.pz, hz2.rz, hz2.bz])
        hz3
    · exact hz
    · exact hz
  · rw [if_neg hc]
    exact hz

theorem outFlowLeft_zstate {x y : ℕ} {p : Grid × ℕ} (hz : ZState p.1) :
    ZState (outFlowLeft x y p).1 := by
  unfold outFlowLeft
  by_cases hc : 0 < x
  · rw [if_pos hc]
    rcases hct : (gget p.1 (x - 1) y).cell_type with _ | k | _
    · exact
        let s1 := gmod p.1 (x - 1) y fun c =>
            { c with velocity := ((gget p.1 (x - 2) y).velocity.1, c.velocity.2) }
        have hz1 : ZState s1 := ZState_gmod hz (by
          simp [zeroCell, hz.vel, hz.fz, hz.gz, hz.pz, hz.rz, hz.bz])
        let s2 := gmod s1 x y fun c =>
            { c with velocity := (c.velocity.1, (gget s1 (x - 1) y).velocity.2) }
        have hz2 : ZState s2 := ZState_gmod hz1 (by
          simp [zeroCell, hz1.vel, hz1.fz, hz1.gz, hz1.pz, hz1.rz, hz1.bz])
        let s3 := gmod s2 x y fun c =>
            { c with pressure := c.pressure + (gget s2 (x - 1) y).pressure }
        have hz3 : ZState s3 := ZState_gmod hz2 (by
          simp [zeroCell, hz2.vel, hz2.fz, hz2.gz, hz2.pz, hz2.rz, hz2.bz])
        have hz4 : ZState (gmod s3 (x - 1) y fun c => { c with f := c.velocity.1 }) := ZState_gmod hz3 (by
          simp [zeroCell, hz3.vel, hz3.fz, hz3.gz, hz3.pz, hz3.rz, hz3.bz])
        hz4
    · exact hz
    · exact hz
  · rw [if_neg hc]
    exact hz

theorem outFlowRight_zstate {nx x y : ℕ} {p : Grid × ℕ} (hz : ZState p.1) :
    ZState (outFlowRight x y nx p).1 := by
  unfold outFlowRight
  by_cases hc : x + 1 < nx
  · rw [if_pos hc]
    rcases hct : (gget p.1 (x + 1) y).cell_type with _ | k | _
    · exact
        let s1 := gmod p.1 x y fun c =>
            { c with velocity := ((gget p.1 (x + 1) y).velocity.1,
                                  (gget p.1 (x + 1) y).velocity.2) }
        have hz1 : ZState s1 := ZState_gmod hz (by
          simp [zeroCell, hz.vel, hz.fz, hz.gz, hz.pz, hz.rz, hz.bz])
        let s2 := gmod s1 x y fun c =>
            { c with pressure := c.pressure + (gget s1 (x + 1) y).pressure }
        have hz2 : ZState s2 := ZState_gmod hz1 (by
          simp [zeroCell, hz1.vel, hz1.fz, hz1.gz, hz1.pz, hz1.rz, hz1.bz])
        have hz3 : ZState (gmod s2 x y fun c => { c with f := c.velocity.1 }) := ZState_gmod hz2 (by
          simp [zeroCell, hz2.vel, hz2.fz, hz2.gz, hz2.pz, hz2.rz, hz2.bz])
        hz3
    · exact hz
    · exact hz
  · rw [if_neg hc]
    exact hz

theorem outFlowBottom_zstate {x y : ℕ} {p : Grid × ℕ} (hz : ZState p.1) :
    ZState (outFlowBottom x y p).1 := by
  unfold outFlowBottom
  by_cases hc : 0 < y
  · rw [if_pos hc]
    rcases hct : (gget p.1 x (y - 1)).cell_type with _ | k | _
    · exact
        let s1 := gmod p.1 x y fun c =>
            { c with velocity := ((gget p.1 x (y - 1)).velocity.1, c.velocity.2) }
        have hz1 : ZState s1 := ZState_gmod hz (by
          simp [zeroCell, hz.vel, hz.fz, hz.gz, hz.pz, hz.rz, hz.bz])
        let s2 := gmod s1 x (y - 1) fun c =>
            { c with velocity := (c.velocity.1, (gget s1 x (y - 2)).velocity.2) }
        have hz2 : ZState s2 := ZState_gmod hz1 (by
          simp [zeroCell, hz1.vel, hz1.fz, hz1.gz, hz1.pz, hz1.rz, hz1.bz])
        let s3 := gmod s2 x y fun c =>
            { c with pressure := c.pressure + (gget s2 x (y - 1)).pressure }
        have hz3 : ZState s3 := ZState_gmod hz2 (by
          simp [zeroCell, hz2.vel, hz2.fz, hz2.gz, hz2.pz, hz2.rz, hz2.bz])
        have hz4 : ZState (gmod s3 x (y - 1) fun c => { c with g := c.velocity.2 }) := ZState_gmod hz3 (by
          simp [zeroCell, hz3.vel, hz3.fz, hz3.gz, hz3.pz, hz3.rz, hz3.bz])
        hz4
    · exact hz
    · exact hz
  · rw [if_neg hc]
    exact hz

theorem outFlowTop_zstate {ny x y : ℕ} {p : Grid × ℕ} (hz : ZState p.1) :
    ZState (outFlowTop x y ny p).1 := by
  unfold outFlowTop
  by_cases hc : y + 1 < ny
  · rw [if_pos hc]
    rcases hct : (gget p.1 x (y + 1)).cell_type with _ | k | _
    · exact
        let s1 := gmod p.1 x y fun c =>
            { c with velocity := ((gget p.1 x (y + 1)).velocity.1,
                                  (gget p.1 x (y + 1)).velocity.2) }
        have hz1 : ZState s1 := ZState_gmod hz (by
          simp [zeroCell, hz.vel, hz.fz, hz.gz, hz.pz, hz.rz, hz.bz])
        let s2 := gmod s1 x y fun c =>
            { c with pressure := c.pressure + (gget s1 x (y + 1)).pressure }
        have hz2 : ZState s2 := ZState_gmod hz1 (by
          simp [zeroCell, hz1.vel, hz1.fz, hz1.gz, hz1.pz, hz1.rz, hz1.bz])
        have hz3 : ZState (gmod s2 x y fun c => { c with g := c.velocity.2 }) := ZState_gmod hz2 (by
          simp [zeroCell, hz2.vel, hz2.fz, hz2.gz, hz2.pz, hz2.rz, hz2.bz])
        hz3
    · exact hz
    · exact hz
  · rw [if_neg hc]
    exact hz

theorem inFlowLeft_zstate {x y : ℕ} {p : Grid × ℕ} (hz : ZState p.1) :
    ZState (inFlowLeft x y p).1 := by
  unfold inFlowLeft
  by_cases hc : 0 < x
  · rw [if_pos hc]
    rcases hct : (gget p.1 (x - 1) y).cell_type with _ | k | _
    · exact
        let s1 := gmod p.1 (x - 1) y fun c =>
            { c with velocity := ((gget p.1 x y).velocity.1, c.velocity.2) }
        have hz1 : ZState s1 := ZState_gmod hz (by
          simp [zeroCell, hz.vel, hz.fz, hz.gz, hz.pz, hz.rz, hz.bz])
        let s2 := gmod s1 x y fun c =>
            { c with pressure := c.pressure + (gget s1 (x - 1) y).pressure }
        have hz2 : ZState s2 := ZState_gmod hz1 (by
          simp [zeroCell, hz1.vel, hz1.fz, hz1.gz, hz1.pz, hz1.rz, hz1.bz])
        have hz3 : ZState (gmod s2 (x - 1) y fun c => { c with f := c.velocity.1 }) := ZState_gmod hz2 (by
          simp [zeroCell, hz2.vel, hz2.fz, hz2.gz, hz2.pz, hz2.rz, hz2.bz])
        hz3
    · exact hz
    · exact hz
  · rw [if_neg hc]
    exact hz

theorem inFlowRight_zstate {nx x y : ℕ} {p : Grid × ℕ} (hz : ZState p.1) :
    ZState (inFlowRight x y nx p).1 := by
  unfold inFlowRight
  by_cases hc : x + 1 < nx
  · rw [if_pos hc]
    rcases hct : (gget p.1 (x + 1) y).cell_type with _ | k | _
    · exact
        let s1 := gmod p.1 x y fun c =>
            { c with pressure := c.pressure + (gget p.1 (x + 1) y).pressure }
        have hz1 : ZState s1 := ZState_gmod hz (by
          simp [zeroCell, hz.vel, hz.fz, hz.gz, hz.pz, hz.rz, hz.bz])
        have hz2 : ZState (gmod s1 x y fun c => { c with f := c.velocity.1 }) := ZState_gmod hz1 (by
          simp [zeroCell, hz1.vel, hz1.fz, hz1.gz, hz1.pz, hz1.rz, hz1.bz])
        hz2
    · exact hz
    · exact hz
  · rw [if_neg hc]
    exact hz

theorem inFlowBottom_zstate {x y : ℕ} {p : Grid × ℕ} (hz : ZState p.1) :
    ZState (inFlowBottom x y p).1 := by
  unfold inFlowBottom
  by_cases hc : 0 < y
  · rw [if_pos hc]
    rcases hct : (gget p.1 x (y - 1)).cell_type with _ | k | _
    · exact
        let s1 := gmod p.1 x (y - 1) fun c =>
            { c with velocity := (c.velocity.1, (gget p.1 x y).velocity.2) }
        have hz1 : ZState s1 := ZState_gmod hz (by
          simp [zeroCell, hz.vel, hz.fz, hz.gz, hz.pz, hz.rz, hz.bz])
        let s2 := gmod s1 x y fun c =>
            { c with pressure := c.pressure + (gget s1 x (y - 1)).pressure }
        have hz2 : ZState s2 := ZState_gmod hz1 (by
          simp [zeroCell, hz1.vel, hz1.fz, hz1.gz, hz1.pz, hz1.rz, hz1.bz])
        have hz3 : ZState (gmod s2 x (y - 1) fun c => { c with g := c.velocity.2 }) := ZState_gmod hz2 (by
          simp [zeroCell, hz2.vel, hz2.fz, hz2.gz, hz2.pz, hz2.rz, hz2.bz])
        hz3
    · exact hz
    · exact hz
  · rw [if_neg hc]
    exact hz

theorem inFlowTop_zstate {ny x y : ℕ} {p : Grid × ℕ} (hz : ZState p.1) :
    ZState (inFlowTop x y ny p).1 := by
  unfold inFlowTop
  by_cases hc : y + 1 < ny
  · rw [if_pos hc]
    rcases hct : (gget p.1 x (y + 1)).cell_type with _ | k | _
    · exact
        let s1 := gmod p.1 x y fun c =>
            { c with pressure := c.pressure + (gget p.1 x (y + 1)).pressure }
        have hz1 : ZState s1 := ZState_gmod hz (by
          simp [zeroCell, hz.vel, hz.fz, hz.gz, hz.pz, hz.rz, hz.bz])
        have hz2 : ZState (gmod s1 x y fun c => { c with g := c.velocity.2 }) := ZState_gmod hz1 (by
          simp [zeroCell, hz1.vel, hz1.fz, hz1.gz, hz1.pz, hz1.rz, hz1.bz])
        hz2
    · exact hz
    · exact hz
  · rw [if_neg hc]
    exact hz

theorem bcAverage_zstate {x y : ℕ} {p : Grid × ℕ} (hz : ZState p.1) :
    ZState (bcAverage x y p) := by
  unfold bcAverage
  split
  · exact ZState_gmod hz (by
      simp [zeroCell, hz.vel, hz.fz, hz.gz, hz.pz, hz.rz, hz.bz])
  · exact hz

theorem setBCCell_zstate {nx ny x y : ℕ} {sd : Grid} (hz : ZState sd) :
    ZState (setBCCell nx ny x y sd) := by
  unfold setBCCell
  rcases hct : (gget sd x y).cell_type with _ | k | _
  · exact hz
  · have hz0 : ZState (gmod sd x y presZero) := ZState_gmod hz (by
      simp [presZero, zeroCell, hz.vel, hz.fz, hz.gz, hz.pz, hz.rz, hz.bz])
    rcases k with _ | _ | _ | _
    · exact bcAverage_zstate (noSlipTop_zstate (noSlipBottom_zstate
        (noSlipRight_zstate (noSlipLeft_zstate hz0))))
    · exact bcAverage_zstate (freeSlipTop_zstate (freeSlipBottom_zstate
        (freeSlipRight_zstate (freeSlipLeft_zstate hz0))))
    · exact bcAverage_zstate (outFlowTop_zstate (outFlowBottom_zstate
        (outFlowRight_zstate (outFlowLeft_zstate hz0))))
    · exact bcAverage_zstate (inFlowTop_zstate (inFlowBottom_zstate
        (inFlowRight_zstate (inFlowLeft_zstate hz0))))
  · exact hz

theorem set_boundary_conditions_zstate {nx ny : ℕ} {sd : Grid} (hz : ZState sd) :
    ZState (set_boundary_conditions nx ny sd) := by
  unfold set_boundary_conditions
  exact sweep_invariant nx ny _ (fun x y s _ _ hzs => setBCCell_zstate hzs) sd hz

theorem d2udx2_zero {sd : Grid} {dx : ℚ} {x y : ℕ} (hz : ZState sd) :
    d2udx2 sd dx x y = 0 := by
  unfold d2udx2
  split
  · simp [hz.vel]
  · rfl

theorem d2udy2_zero {sd : Grid} {dy : ℚ} {x y : ℕ} (hz : ZState sd) :
    d2udy2 sd dy x y = 0 := by
  unfold d2udy2
  split
  · simp [hz.vel]
  · rfl

theorem d2vdx2_zero {sd : Grid} {dx : ℚ} {x y : ℕ} (hz : ZState sd) :
    d2vdx2 sd dx x y = 0 := by
  unfold d2vdx2
  split
  · simp [hz.vel]
  · rfl

theorem d2vdy2_zero {sd : Grid} {dy : ℚ} {x y : ℕ} (hz : ZState sd) :
    d2vdy2 sd dy x y = 0 := by
  unfold d2vdy2
  split
  · simp [hz.vel]
  · rfl

theorem du2dx_zero {sd : Grid} {dx : ℚ} {x y : ℕ} (hz : ZState sd) :
    du2dx sd dx x y = 0 := by
  unfold du2dx
  split
  · simp [hz.vel]
  · rfl

theorem dv2dy_zero {sd : Grid} {dy : ℚ} {x y : ℕ} (hz : ZState sd) :
    dv2dy sd dy x y = 0 := by
  unfold dv2dy
  split
  · simp [hz.vel]
  · rfl

theorem duvdx_zero {sd : Grid} {dx : ℚ} {x y : ℕ} (hz : ZState sd) :
    duvdx sd dx x y = 0 := by
  unfold duvdx
  split
  · simp [hz.vel]
  · rfl

theorem duvdy_zero {sd : Grid} {dy : ℚ} {x y : ℕ} (hz : ZState sd) :
    duvdy sd dy x y = 0 := by
  unfold duvdy
  split
  · simp [hz.vel]
  · rfl

theorem fgF_zero {sd : Grid} {dx dy dt re ax : ℚ} {x y : ℕ} (hz : ZState sd)
    (hax : ax = 0) : fgF sd dx dy dt re ax x y = 0 := by
  unfold fgF
  rw [d2udx2_zero hz, d2udy2_zero hz, du2dx_zero hz, duvdy_zero hz, hax, hz.vel]
  simp

theorem fgG_zero {sd : Grid} {dx dy dt re ay : ℚ} {x y : ℕ} (hz : ZState sd)
    (hay : ay = 0) : fgG sd dx dy dt re ay x y = 0 := by
  unfold fgG
  rw [d2vdx2_zero hz, d2vdy2_zero hz, duvdx_zero hz, dv2dy_zero hz, hay, hz.vel]
  simp

theorem update_fg_std_body_zstate {nx ny : ℕ} {dx dy dt re ax ay : ℚ} {x y : ℕ}
    {sd : Grid} (hz : ZState sd) (hax : ax = 0) (hay : ay = 0) :
    ZState (update_fg_std_body nx ny dx dy dt re ax ay x y sd) := by
  unfold update_fg_std_body
  rcases hct : (gget sd x y).cell_type with _ | k | _
  · have hzf : ZState (gmod sd x y fun c => { c with f := fgF sd dx dy dt re ax x y }) :=
      ZState_gmod hz (by
        simp [zeroCell, fgF_zero hz hax, hz.vel, hz.fz, hz.gz, hz.pz, hz.rz, hz.bz])
    have htop : ∀ g : Grid, ZState g →
        ZState (match (if y + 1 < ny then some (gget sd x (y + 1)).cell_type else none :
            Option CellType) with
          | some (CellType.BoundaryConditionCell _) => g
          | none => g
          | some _ => gmod g x y fun c => { c with g := fgG g dx dy dt re ay x y } : Grid) := by
      intro g hzg
      by_cases hy1 : y + 1 < ny
      · rw [if_pos hy1]
        rcases hct2 : (gget sd x (y + 1)).cell_type with _ | k2 | _
        · exact ZState_gmod hzg (by
            simp [zeroCell, fgG_zero hzg hay, hzg.vel, hzg.fz, hzg.gz, hzg.pz, hzg.rz, hzg.bz])
        · exact hzg
        · exact ZState_gmod hzg (by
            simp [zeroCell, fgG_zero hzg hay, hzg.vel, hzg.fz, hzg.gz, hzg.pz, hzg.rz, hzg.bz])
      · rw [if_neg hy1]
        exact hzg
    by_cases hx1 : x + 1 < nx
    · rw [if_pos hx1]
      rcases hct1 : (gget sd (x + 1) y).cell_type with _ | k1 | _
      · exact htop _ hzf
      · exact htop _ hz
      · exact htop _ hzf
    · rw [if_neg hx1]
      exact htop _ hz
  · exact hz
  · exact hz

theorem update_fg_std_zstate {nx ny : ℕ} {dx dy dt re ax ay : ℚ} {sd : Grid}
    (hz : ZState sd) (hax : ax = 0) (hay : ay = 0) :
    ZState (update_fg_std nx ny dx dy dt re ax ay sd) := by
  unfold update_fg_std
  exact sweep_invariant nx ny _
    (fun x y s _ _ hzs => update_fg_std_body_zstate hzs hax hay) sd hz

theorem update_rhs_body_zstate {dx dy dt : ℚ} {x y : ℕ} {sd : Grid} (hz : ZState sd) :
    ZState (update_rhs_body dx dy dt x y sd) := by
  unfold update_rhs_body
  split
  · exact ZState_gmod hz (by
      simp [zeroCell, hz.vel, hz.fz, hz.gz, hz.pz, hz.rz, hz.bz])
  · exact hz

theorem update_rhs_zstate {nx ny : ℕ} {dx dy dt : ℚ} {sd : Grid} (hz : ZState sd) :
    ZState (update_rhs nx ny dx dy dt sd) := by
  unfold update_rhs
  exact sweep_invariant nx ny _ (fun x y s _ _ hzs => update_rhs_body_zstate hzs) sd hz

theorem residual_term_zero {dx dy : ℚ} {sd : Grid} {x y : ℕ} (hz : ZState sd) :
    residual_term dx dy sd x y = 0 := by
  unfold residual_term
  split
  · simp [hz.pz, hz.rz]
  · rfl

theorem residual_sum_zero {nx ny : ℕ} {dx dy : ℚ} {sd : Grid} (hz : ZState sd) :
    residual_sum nx ny dx dy sd = 0 := by
  unfold residual_sum
  have h : ∀ (l : List (ℕ × ℕ)) (a : ℚ),
      l.foldl (fun a p => a + residual_term dx dy sd p.1 p.2) a = a := by
    intro l
    induction l with
    | nil => intro a; rfl
    | cons q t ih =>
      intro a
      rw [List.foldl_cons, residual_term_zero hz, add_zero]
      exact ih a
  exact h _ 0

theorem poissonLoopSTD_succ (nx ny : ℕ) (dx dy : ℚ) (fuel : ℕ) (sd : Grid) :
    poissonLoopSTD nx ny dx dy (fuel + 1) sd =
      if sqrtQ (residual_sum nx ny dx dy sd / (nx : ℚ) / (ny : ℚ)) < POISSON_EPSILON then sd
      else poissonLoopSTD nx ny dx dy fuel
        (sweep nx ny (sor_body dx dy) (update_pressures_for_boundary_cells nx ny sd)) :=
  rfl

theorem solve_poisson_pressure_equation_std_zero {nx ny : ℕ} {dx dy : ℚ} {sd : Grid}
    (hz : ZState sd) : solve_poisson_pressure_equation_std nx ny dx dy sd = sd := by
  unfold solve_poisson_pressure_equation_std
  rw [show ITR_MAX = 99 + 1 from rfl, poissonLoopSTD_succ, residual_sum_zero hz]
  rw [zero_div, zero_div, sqrtQ_zero]
  rw [if_pos (by norm_num [POISSON_EPSILON])]

theorem update_velocity_body_zstate {nx ny : ℕ} {dx dy dt : ℚ} {x y : ℕ} {sd : Grid}
    (hz : ZState sd) : ZState (update_velocity_body nx ny dx dy dt x y sd) := by
  unfold update_velocity_body
  rcases hct : (gget sd x y).cell_type with _ | k | _
  · have hzu : ZState (gmod sd x y fun c =>
        { c with velocity := (c.f - dt * ((gget sd (x + 1) y).pressure - c.pressure) / dx,
                              c.velocity.2) }) :=
      ZState_gmod hz (by
        simp [zeroCell, hz.vel, hz.fz, hz.gz, hz.pz, hz.rz, hz.bz])
    have htop : ∀ g : Grid, ZState g →
        ZState (match (if y + 1 < ny then some (gget sd x (y + 1)).cell_type else none :
            Option CellType) with
          | some (CellType.BoundaryConditionCell _) => g
          | none => g
          | some _ => gmod g x y fun c =>
              { c with velocity := (c.velocity.1,
                  c.g - dt * ((gget g x (y + 1)).pressure - c.pressure) / dy) } : Grid) := by
      intro g hzg
      by_cases hy1 : y + 1 < ny
      · rw [if_pos hy1]
        rcases hct2 : (gget sd x (y + 1)).cell_type with _ | k2 | _
        · exact ZState_gmod hzg (by
            simp [zeroCell, hzg.vel, hzg.fz, hzg.gz, hzg.pz, hzg.rz, hzg.bz])
        · exact hzg
        · exact ZState_gmod hzg (by
            simp [zeroCell, hzg.vel, hzg.fz, hzg.gz, hzg.pz, hzg.rz, hzg.bz])
      · rw [if_neg hy1]
        exact hzg
    by_cases hx1 : x + 1 < nx
    · rw [if_pos hx1]
      rcases hct1 : (gget sd (x + 1) y).cell_type with _ | k1 | _
      · exact htop _ hzu
      · exact htop _ hz
      · exact htop _ hzu
    · rw [if_neg hx1]
      exact htop _ hz
  · exact hz
  · exact hz

theorem update_velocity_zstate {nx ny : ℕ} {dx dy dt : ℚ} {sd : Grid} (hz : ZState sd) :
    ZState (update_velocity nx ny dx dy dt sd) := by
  unfold update_velocity
  exact sweep_invariant nx ny _ (fun x y s _ _ hzs => update_velocity_body_zstate hzs) sd hz

/-- C1 (amended): a *fully* resting state — every cell's velocity, `f`, `g`,
pressure, RHS **and wall velocity** zero — with zero acceleration is a fixed
point of `SpaceTimeDomain::iterate_one_timestep`: every FluidCell's velocity
and pressure is still zero afterwards.  (As claimed, but with the added
hypothesis that the boundary cells' `boundary_condition_velocity` is zero;
without it the claim is false, see the lid-driven counterexample.) -/
theorem rest_state_fixed_point (s : SpaceTimeDomain)
    (hz : ZState s.space_domain) (hacc : s.acceleration = (0, 0)) :
    ∀ a b, (gget (s.iterate_one_timestep).space_domain a b).cell_type =
        CellType.FluidCell →
      (gget (s.iterate_one_timestep).space_domain a b).velocity = (0, 0) ∧
      (gget (s.iterate_one_timestep).space_domain a b).pressure = 0 := by
  have hax : s.acceleration.1 = 0 := by rw [hacc]
  have hay : s.acceleration.2 = 0 := by rw [hacc]
  have hstep : (s.iterate_one_timestep).space_domain =
      update_velocity s.space_size.1 s.space_size.2 s.delta_space.1 s.delta_space.2
        s.delta_time
        (solve_poisson_pressure_equation_std s.space_size.1 s.space_size.2
          s.delta_space.1 s.delta_space.2
          (update_rhs s.space_size.1 s.space_size.2 s.delta_space.1 s.delta_space.2
            s.delta_time
            (update_fg_std s.space_size.1 s.space_size.2 s.delta_space.1 s.delta_space.2
              s.delta_time s.reynolds s.acceleration.1 s.acceleration.2
              (set_boundary_conditions s.space_size.1 s.space_size.2 s.space_domain)))) :=
    rfl
  have h1 : ZState (set_boundary_conditions s.space_size.1 s.space_size.2 s.space_domain) :=
    set_boundary_conditions_zstate hz
  have h2 : ZState (update_fg_std s.space_size.1 s.space_size.2 s.delta_space.1
      s.delta_space.2 s.delta_time s.reynolds s.acceleration.1 s.acceleration.2
      (set_boundary_conditions s.space_size.1 s.space_size.2 s.space_domain)) :=
    update_fg_std_zstate h1 hax hay
  have h3 : ZState (update_rhs s.space_size.1 s.space_size.2 s.delta_space.1
      s.delta_space.2 s.delta_time
      (update_fg_std s.space_size.1 s.space_size.2 s.delta_space.1 s.delta_space.2
        s.delta_time s.reynolds s.acceleration.1 s.acceleration.2
        (set_boundary_conditions s.space_size.1 s.space_size.2 s.space_domain))) :=
    update_rhs_zstate h2
  have h4 : solve_poisson_pressure_equation_std s.space_size.1 s.space_size.2
      s.delta_space.1 s.delta_space.2
      (update_rhs s.space_size.1 s.space_size.2 s.delta_space.1 s.delta_space.2
        s.delta_time
        (update_fg_std s.space_size.1 s.space_size.2 s.delta_space.1 s.delta_space.2
          s.delta_time s.reynolds s.acceleration.1 s.acceleration.2
          (set_boundary_conditions s.space_size.1 s.space_size.2 s.space_domain))) =
      update_rhs s.space_size.1 s.space_size.2 s.delta_space.1 s.delta_space.2
        s.delta_time
        (update_fg_std s.space_size.1 s.space_size.2 s.delta_space.1 s.delta_space.2
          s.delta_time s.reynolds s.acceleration.1 s.acceleration.2
          (set_boundary_conditions s.space_size.1 s.space_size.2 s.space_domain)) :=
    solve_poisson_pressure_equation_std_zero h3
  intro a b
  rw [hstep, h4]
  intro hct
  have h5 : ZState (update_velocity s.space_size.1 s.space_size.2 s.delta_space.1
      s.delta_space.2 s.delta_time
      (update_rhs s.space_size.1 s.space_size.2 s.delta_space.1 s.delta_space.2
        s.delta_time
        (update_fg_std s.space_size.1 s.space_size.2 s.delta_space.1 s.delta_space.2
          s.delta_time s.reynolds s.acceleration.1 s.acceleration.2
          (set_boundary_conditions s.space_size.1 s.space_size.2 s.space_domain)))) :=
    update_velocity_zstate h3
  exact ⟨(h5 a b).1, (h5 a b).2.2.2.1⟩

/-- The default lid-driven-cavity layout at size 4×4: a NoSlip ring with no
obstacles, all velocities and pressures zero, and a moving lid — the top
wall's cells carry `boundary_condition_velocity = (1/1000, 0)`. -/
def cavityGrid : Grid :=
  let ns : Cell := { cell_type := CellType.BoundaryConditionCell BoundaryConditionCell.NoSlipCell }
  let lid : Cell := { cell_type := CellType.BoundaryConditionCell BoundaryConditionCell.NoSlipCell,
                      boundary_condition_velocity := (1/1000, 0) }
  let fl : Cell := { cell_type := CellType.FluidCell }
  [[ns, ns, ns, lid],
   [ns, fl, fl, lid],
   [ns, fl, fl, lid],
   [ns, ns, ns, lid]]

/-- The lid-driven cavity as a `SpaceTimeDomain` with zero acceleration. -/
def cavitySTD : SpaceTimeDomain :=
  { space_domain := cavityGrid, space_size := (4, 4), delta_space := (1, 1),
    delta_time := 1, acceleration := (0, 0), reynolds := 1, time := 0,
    pressure_range := (0, 0), speed_range := (0, 0) }

set_option maxRecDepth 10000 in
/-- C1 (counterexample to the claim as stated): the lid-driven cavity grid
satisfies every hypothesis of the claim — no obstacles, all FluidCell
velocities and pressures zero, zero acceleration — yet one call to
`iterate_one_timestep` leaves the FluidCell at `(1,2)` with the nonzero
velocity `(1/500, 0)`: the claim's hypotheses ignore the boundary cells'
`boundary_condition_velocity`, which the resolver folds into the ghost
velocities and the momentum predictor then carries into the fluid. -/
theorem rest_state_counterexample :
    (∀ p ∈ allCoords 4 4, (gget cavityGrid p.1 p.2).cell_type = CellType.FluidCell →
      (gget cavityGrid p.1 p.2).velocity = (0, 0) ∧
      (gget cavityGrid p.1 p.2).pressure = 0) ∧
    cavitySTD.acceleration = (0, 0) ∧
    (gget (cavitySTD.iterate_one_timestep).space_domain 1 2).cell_type =
      CellType.FluidCell ∧
    (gget (cavitySTD.iterate_one_timestep).space_domain 1 2).velocity = (1/500, 0) ∧
    (gget (cavitySTD.iterate_one_timestep).space_domain 1 2).velocity ≠ (0, 0) := by
  with_unfolding_all decide

/-- A 3×3 resting cavity: NoSlip ring with zero wall velocity around one
FluidCell, everything at rest. -/
def restGrid : Grid :=
  let ns : Cell := { cell_type := CellType.BoundaryConditionCell BoundaryConditionCell.NoSlipCell }
  let fl : Cell := { cell_type := CellType.FluidCell }
  [[ns, ns, ns],
   [ns, fl, ns],
   [ns, ns, ns]]

/-- The resting cavity as a `SpaceTimeDomain` with zero acceleration. -/
def restSTD : SpaceTimeDomain :=
  { space_domain := restGrid, space_size := (3, 3), delta_space := (1, 1),
    delta_time := 1, acceleration := (0, 0), reynolds := 1, time := 0,
    pressure_range := (0, 0), speed_range := (0, 0) }

theorem rest_state_fixed_point_witness :
    (wfGrid 3 3 restGrid ∧
     (∀ p ∈ allCoords 3 3, zeroCell (gget restGrid p.1 p.2)) ∧
     restSTD.acceleration = (0, 0)) ∧
    ∀ a b, (gget (restSTD.iterate_one_timestep).space_domain a b).cell_type =
        CellType.FluidCell →
      (gget (restSTD.iterate_one_timestep).space_domain a b).velocity = (0, 0) ∧
      (gget (restSTD.iterate_one_timestep).space_domain a b).pressure = 0 :=
  ⟨⟨by with_unfolding_all decide, by with_unfolding_all decide,
    by with_unfolding_all decide⟩,
   rest_state_fixed_point restSTD
     (@ZState_of_bounded 3 3 restGrid (by with_unfolding_all decide)
       (by with_unfolding_all decide))
     (by with_unfolding_all decide)⟩
